import Mathlib

/-!
# Atomic swap transaction (`wallet/swaps/swap_transaction.cpp`)

A shallow embedding of `ufo::wallet::AtomicSwapTransaction`.

* The object is a record holding the parameter store of the swap, the
  members the C++ class caches (`m_IsUfoSide`, `m_IsSender`, `m_Amount`,
  `m_LockTx`, `m_WithdrawTx`) and a trace of the calls made on the
  collaborators (peer messages, wallet rollbacks, scheduled updates).
* Every method is a function from the record to the record (plus a result).
  A method that can throw returns an `Except` next to the record, so that
  the writes made before the throw are kept, as in C++.
* Scalars and curve points are a commutative ring `F` and an `F`-module `G`:
  the curve arithmetic (`ECC`) is not part of the source, and the source only
  uses `+`, unary minus and scalar multiplication.
* `Height`, `Amount` and `Timestamp` are 64-bit unsigned integers: `Nat`
  with explicit reduction modulo `2 ^ 64` where the C++ arithmetic can wrap.
* `assert` does not stop the run (the release build); a failed assertion is
  counted in `assertFailures`.
* Logging is dropped.
-/

namespace ufo.wallet

/-! ## Enumerations -/

/-- Top-level states, `AtomicSwapTransaction::State`. -/
inductive State where
  | Initial
  | BuildingUfoLockTX
  | BuildingUfoRefundTX
  | BuildingUfoRedeemTX
  | HandlingContractTX
  | SendingRefundTX
  | SendingRedeemTX
  | SendingUfoLockTX
  | SendingUfoRefundTX
  | SendingUfoRedeemTX
  | CompleteSwap
  | Canceled
  | Refunded
  | Failed
  deriving DecidableEq, Repr

/-- States of a sub-transaction, `AtomicSwapTransaction::SubTxState`. -/
inductive SubTxState where
  | Initial
  | Invitation
  | Constructed
  deriving DecidableEq, Repr

/-- Sub-transaction ids: `kDefaultSubTxID` and the members of `SubTxIndex`. -/
inductive SubTxID where
  | kDefaultSubTxID
  | UFO_LOCK_TX
  | UFO_REFUND_TX
  | UFO_REDEEM_TX
  | LOCK_TX
  | REFUND_TX
  | REDEEM_TX
  deriving DecidableEq, Repr

/-- The parameter ids `swap_transaction.cpp` reads, writes or sends; `Other n` stands for
the ids that only the builders use. -/
inductive TxParameterID where
  | TransactionType
  | IsSender
  | Amount
  | Fee
  | MinHeight
  | MyID
  | PeerID
  | CreateTime
  | IsInitiator
  | PeerMaxHeight
  | Lifetime
  | PeerProtoVersion
  | MaxHeight
  | PeerResponseTime
  | SubTxIndex
  | PeerPublicSharedBlindingFactor
  | AtomicSwapIsUfoSide
  | AtomicSwapCoin
  | AtomicSwapAmount
  | AtomicSwapPublicKey
  | AtomicSwapPeerPublicKey
  | AtomicSwapExternalLockTime
  | AtomicSwapSecretPrivateKey
  | AtomicSwapSecretPublicKey
  | PeerPublicNonce
  | PeerPublicExcess
  | PeerSignature
  | PeerOffset
  | PeerSharedBulletProofPart2
  | PeerSharedBulletProofPart3
  | TransactionRegistered
  | FailureReason
  | KernelProofHeight
  | KernelUnconfirmedHeight
  | PeerResponseHeight
  | Status
  | KernelID
  | SharedCoinID
  | Kernel
  | InternalFailureReason
  | State
  | Other (n : Nat)
  deriving DecidableEq, Repr

/-- Failure reasons, `TxFailureReason` (the members `swap_transaction.cpp` names). -/
inductive TxFailureReason where
  | Unknown
  | Canceled
  | InvalidPeerSignature
  | FailedToRegister
  | InvalidTransaction
  | FailedToSendParameters
  | TransactionExpired
  | MaxHeightIsUnacceptable
  | FailedToCreateMultiSig
  | SubTxFailed
  | NotEnoughTimeToFinishBtcTx
  deriving DecidableEq, Repr

/-- User-visible statuses, `TxStatus`. -/
inductive TxStatus where
  | Pending
  | InProgress
  | Canceled
  | Completed
  | Failed
  deriving DecidableEq, Repr

/-- Transaction types, `TxType` (the member `swap_transaction.cpp` names). -/
inductive TxType where
  | AtomicSwap
  | Other (n : Nat)
  deriving DecidableEq, Repr

/-- What a method can throw. -/
inductive SwapException where
  | MissingParameter (id : TxParameterID) (subTxID : SubTxID)
  | UninitilizedSecondSide
  | SecondSideFactoryNotRegistered
  | FailToStartSwap
  deriving DecidableEq, Repr

/-! ## Values -/

/-- Serialized data the file never looks into (strings, hashes, ids,
range-proof parts). -/
abbrev ByteBuffer := List Nat

/-- A native transaction, as assembled by a builder. -/
abbrev Transaction := ByteBuffer

/-- Schnorr signature of a kernel, `ECC::Signature`. -/
structure Signature (F G : Type) where
  m_NoncePub : G
  m_k : F
  deriving DecidableEq

/-- The kernel of a native transaction, `TxKernel` (the fields used here). -/
structure TxKernel (F G : Type) where
  m_Excess : G
  m_Signature : Signature F G
  m_Fee : Nat
  deriving DecidableEq

/-- A typed parameter value. The C++ store keeps bytes and `GetParameter<T>`
deserializes them as `T`; here a value carries its type and a read at
another type finds nothing. -/
inductive Value (F G : Type) where
  | state (s : State)
  | subTxState (s : SubTxState)
  | subTxID (i : SubTxID)
  | bool (b : Bool)
  | u64 (n : Nat)
  | u8 (n : Nat)
  | reason (r : TxFailureReason)
  | status (s : TxStatus)
  | scalar (k : F)
  | point (p : G)
  | kernel (k : TxKernel F G)
  | coin (c : Nat)
  | bytes (b : ByteBuffer)
  | txType (t : TxType)
  deriving DecidableEq

namespace Value

variable {F G : Type}

/-- Read a value as a top-level `State`. -/
def asState : Value F G → Option State
  | .state s => some s
  | _ => none

/-- Read a value as a `SubTxState`. -/
def asSubTxState : Value F G → Option SubTxState
  | .subTxState s => some s
  | _ => none

/-- Read a value as a `bool`. -/
def asBool : Value F G → Option Bool
  | .bool b => some b
  | _ => none

/-- Read a value as a 64-bit unsigned integer (`Height`, `Amount`, `Timestamp`). -/
def asU64 : Value F G → Option Nat
  | .u64 n => some n
  | _ => none

/-- Read a value as a `TxFailureReason`. -/
def asReason : Value F G → Option TxFailureReason
  | .reason r => some r
  | _ => none

/-- Read a value as a scalar (`Scalar::Native`, `uintBig`). -/
def asScalar : Value F G → Option F
  | .scalar k => some k
  | _ => none

/-- Read a value as a curve point (`Point::Native`, `Point`). -/
def asPoint : Value F G → Option G
  | .point p => some p
  | _ => none

/-- Read a value as a kernel (`TxKernel::Ptr`). -/
def asKernel : Value F G → Option (TxKernel F G)
  | .kernel k => some k
  | _ => none

/-- Read a value as an `AtomicSwapCoin`. -/
def asCoin : Value F G → Option Nat
  | .coin c => some c
  | _ => none

/-- Read a value as opaque bytes (`std::string`, `WalletID`, hashes). -/
def asBytes : Value F G → Option ByteBuffer
  | .bytes b => some b
  | _ => none

/-- Read a value as a `TxStatus`. -/
def asStatus : Value F G → Option TxStatus
  | .status s => some s
  | _ => none

/-- Read a value as a `uint8_t` (the registration code of the node). -/
def asU8 : Value F G → Option Nat
  | .u8 n => some n
  | _ => none

end Value

/-- A peer message, `SetTxParameter`: the parameters in the order they were
added. -/
structure SetTxParameter (F G : Type) where
  m_Parameters : List (TxParameterID × Value F G)

namespace SetTxParameter

variable {F G : Type}

/-- The empty message, `SetTxParameter msg;`. -/
def empty : SetTxParameter F G := ⟨[]⟩

/-- Append one parameter, `SetTxParameter::AddParameter`. -/
def AddParameter (msg : SetTxParameter F G) (id : TxParameterID) (v : Value F G) :
    SetTxParameter F G :=
  ⟨msg.m_Parameters ++ [(id, v)]⟩

/-- The parameter ids a message carries. -/
def ids (msg : SetTxParameter F G) : List TxParameterID :=
  msg.m_Parameters.map Prod.fst

end SetTxParameter

/-! ## The transaction object -/

/-- The parameter store of one swap, keyed by sub-transaction and parameter id. -/
abbrev TxParameters (F G : Type) := SubTxID → TxParameterID → Option (Value F G)

/-- Modelled from the spec: the class `SecondSide` (`wallet/bitcoin/bitcoin_side.h`) is
missing. The spec gives the foreign side adapter as a set of polled
capabilities, each answering `true` or `false` ("not yet, try again"); what
it answers depends on the foreign chain and on the parameters of the swap, so
a capability is a function of the parameter store. `InitLockTime` chooses the
foreign lock time, which the swap keeps as `AtomicSwapExternalLockTime`;
`AddTxDetails` fills a message with the identifiers of the foreign lock. -/
structure SecondSide (F G : Type) where
  Initialize : TxParameters F G → Bool
  InitLockTime : TxParameters F G → Nat
  ValidateLockTime : TxParameters F G → Bool
  HasEnoughTimeToProcessLockTx : TxParameters F G → Bool
  SendLockTx : TxParameters F G → Bool
  ConfirmLockTx : TxParameters F G → Bool
  IsLockTimeExpired : TxParameters F G → Bool
  SendRefund : TxParameters F G → Bool
  ConfirmRefundTx : TxParameters F G → Bool
  SendRedeem : TxParameters F G → Bool
  ConfirmRedeemTx : TxParameters F G → Bool
  AddTxDetails : TxParameters F G → SetTxParameter F G → SetTxParameter F G

/-- A call made on the node gateway (`GetGateway()`) or on the wallet database
(`GetWalletDB()`, `SetCompletedTxCoinStatuses`), with its arguments. -/
inductive Call where
  | register_tx (transaction : Transaction) (subTxID : SubTxID)
  | confirm_kernel (kernelID : ByteBuffer) (subTxID : SubTxID)
  | get_kernel (kernelID : ByteBuffer) (subTxID : SubTxID)
  | on_tx_completed
  | saveCoin (amount : Nat) (coinID : ByteBuffer)
  | SetCompletedTxCoinStatuses (hProof : Nat)
  deriving DecidableEq, Repr

/-- The state of an `AtomicSwapTransaction`. `outbox` lists the messages
handed to `SendTxParameters`, newest first, each with the result of the call;
`rollbacks`, `asyncUpdates` and `tipUpdates` count the calls of
`rollbackTx`, `UpdateAsync` and `UpdateOnNextTip`; `calls` lists the other
calls made on the gateway and on the wallet, newest first. `m_secondSide` is
the adapter cached by `WrapperSecondSide`. -/
structure AtomicSwapTransaction (F G : Type) where
  params : TxParameters F G
  m_IsUfoSide : Option Bool
  m_IsSender : Option Bool
  m_Amount : Option Nat
  m_LockTx : Option Transaction
  m_WithdrawTx : Option Transaction
  m_secondSide : Option (SecondSide F G)
  outbox : List (SetTxParameter F G × Bool)
  rollbacks : Nat
  asyncUpdates : Nat
  tipUpdates : Nat
  assertFailures : Nat
  calls : List Call

/-- Modelled from the spec: the class `SharedTxBuilder` (`shared_tx_builder.h`) is
missing. The spec describes the builders as a stateless facade over the parameter
store, so a method is a function of the store: one that returns `bool` or a
value reads it, a `void` one rewrites it. What a method rewrites is kept under
the sub-transaction of the builder (see `withSubParams`). The fields are the methods
`swap_transaction.cpp` calls; `GetKernelHash` is `GetKernel().get_Hash(..)`. -/
structure SharedTxBuilder (F G : Type) where
  GetSubTxID : SubTxID
  GetAmount : Nat
  GetFee : Nat
  GetSharedParameters : TxParameters F G → Bool
  GetInitialTxParams : TxParameters F G → Bool
  InitTx : Bool → TxParameters F G → TxParameters F G
  GenerateNonce : TxParameters F G → TxParameters F G
  CreateKernel : TxParameters F G → TxParameters F G
  GetPeerPublicExcessAndNonce : TxParameters F G → Bool
  SignPartial : TxParameters F G → TxParameters F G
  GetPeerSignature : TxParameters F G → Bool
  IsPeerSignatureValid : TxParameters F G → Bool
  FinalizeSignature : TxParameters F G → TxParameters F G
  CreateTransaction : TxParameters F G → Transaction
  GetMinHeight : TxParameters F G → Nat
  GetPublicExcess : TxParameters F G → G
  GetPublicNonce : TxParameters F G → G
  GetPartialSignature : TxParameters F G → F
  GetOffset : TxParameters F G → F
  GetKernelHash : TxParameters F G → ByteBuffer

/-- Modelled from the spec: the class `LockTxBuilder` (`lock_tx_builder.h`) is missing;
these are the methods `swap_transaction.cpp` calls, as functions of the parameter
store: a getter reads it, a `void` method rewrites it, and a method that
works on the transaction and reports `bool` does both. What a method rewrites
is kept under the sub-transaction of the builder, `UFO_LOCK_TX` (see
`withSubParams`). -/
structure LockTxBuilder (F G : Type) where
  GetInitialTxParams : TxParameters F G → Bool
  SelectInputs : TxParameters F G → TxParameters F G
  AddChange : TxParameters F G → TxParameters F G
  GenerateOffset : TxParameters F G → TxParameters F G
  CreateInputs : TxParameters F G → TxParameters F G
  CreateOutputs : TxParameters F G → Bool × TxParameters F G
  GenerateNonce : TxParameters F G → TxParameters F G
  LoadSharedParameters : TxParameters F G → TxParameters F G
  UpdateMaxHeight : TxParameters F G → Bool × TxParameters F G
  GetPeerPublicExcessAndNonce : TxParameters F G → Bool
  CreateKernel : TxParameters F G → TxParameters F G
  SignPartial : TxParameters F G → TxParameters F G
  CreateSharedUTXOProofPart2 : Bool → TxParameters F G → Bool × TxParameters F G
  CreateSharedUTXOProofPart3 : Bool → TxParameters F G → Bool × TxParameters F G
  GetPeerSignature : TxParameters F G → Bool
  IsPeerSignatureValid : TxParameters F G → Bool
  FinalizeSignature : TxParameters F G → TxParameters F G
  CreateTransaction : TxParameters F G → Transaction
  GetMinHeight : TxParameters F G → Nat
  GetFee : Nat
  GetMaxHeight : TxParameters F G → Nat
  GetPublicExcess : TxParameters F G → G
  GetPublicNonce : TxParameters F G → G
  GetPartialSignature : TxParameters F G → F
  GetOffset : TxParameters F G → F
  GetRangeProofInitialPart2 : TxParameters F G → ByteBuffer
  GetSharedProofPart3 : TxParameters F G → ByteBuffer
  GetPublicSharedBlindingFactor : TxParameters F G → G

/-- What the transaction uses and `swap_transaction.cpp` does not define: the transport,
the constructors of the builders, the factories of the foreign side, the
Fiat-Shamir oracle, the group generator, transaction validation, the tip and
some constants. -/
structure Env (F G : Type) where
  /-- The constructor `SharedTxBuilder{*this, subTxID, amount, fee}`. -/
  SharedTxBuilder : SubTxID → Nat → Nat → SharedTxBuilder F G
  /-- The constructor `LockTxBuilder(*this, GetAmount(), fee)`. -/
  LockTxBuilder : Nat → Nat → LockTxBuilder F G
  /-- The map `Creator::m_factories`: for a coin, `CreateSecondSide(tx, isUfoSide)`
  of its factory, which may give no adapter. -/
  m_factories : Nat → Option (TxParameters F G → Bool → Option (SecondSide F G))
  /-- Result of `BaseTransaction::SendTxParameters` for a message. -/
  sendOk : AtomicSwapTransaction F G → SetTxParameter F G → Bool
  /-- The challenge drawn by `Oracle() << publicNonce << message >> challenge`. -/
  challenge : G → ByteBuffer → F
  /-- The generator, `Context::get().G`. -/
  generator : G
  /-- The check `transaction->IsValid(context)` with `context.m_Height.m_Min`. -/
  IsValid : Transaction → Nat → Bool
  /-- The constant `kMinFeeInGroth`. -/
  kMinFeeInGroth : Nat
  /-- The constant `s_ProtoVersion`. -/
  s_ProtoVersion : Nat
  /-- The height of the tip the gateway knows, if it knows one (`GetTip`). -/
  tip : Option Nat
  /-- The constant `kUfoLockTimeInBlocks`. -/
  kUfoLockTimeInBlocks : Nat
  /-- The registration code `proto::TxStatus::Ok`. -/
  Ok : Nat
  /-- The registration code `proto::TxStatus::InvalidContext`. -/
  InvalidContext : Nat

/-- The same collaborators with the tip at height `h`. -/
def Env.atTip {F G : Type} (env : Env F G) (h : Nat) : Env F G :=
  { env with tip := some h }

/-- The provider of the second side gives no adapter: every factory returns a
null pointer. -/
def Env.noSecondSide {F G : Type} (env : Env F G) : Prop :=
  ∀ coin factory, env.m_factories coin = some factory → ∀ p b, factory p b = none

namespace AtomicSwapTransaction

variable {F G : Type}

/-- The default sub-transaction id. -/
def kDefaultSubTxID : SubTxID := SubTxID.kDefaultSubTxID

/-- Modelled from the spec: `BaseTransaction::GetParameter` is missing; the spec's `get(id, sub)` returns the value stored under `(sub, id)`, if any. -/
def GetParameter (tx : AtomicSwapTransaction F G) (id : TxParameterID)
    (subTxID : SubTxID := kDefaultSubTxID) : Option (Value F G) :=
  tx.params subTxID id

/-- Modelled from the spec: `BaseTransaction::SetParameter` is missing; the spec's `set(id, value, sub)` stores the value under `(sub, id)` and leaves
every other entry alone. -/
def SetParameter (tx : AtomicSwapTransaction F G) (id : TxParameterID) (v : Value F G)
    (subTxID : SubTxID := kDefaultSubTxID) : AtomicSwapTransaction F G :=
  { tx with params := fun s i => if s = subTxID ∧ i = id then some v else tx.params s i }

/-- Modelled from the spec: `BaseTransaction::GetMandatoryParameter` is missing; the
spec's `get_required` fails with `MissingParameter` when the value is
absent or of another type. `read` is the typed view. -/
def GetMandatoryParameter {α : Type} (tx : AtomicSwapTransaction F G)
    (read : Value F G → Option α) (id : TxParameterID)
    (subTxID : SubTxID := kDefaultSubTxID) : Except SwapException α :=
  match (tx.GetParameter id subTxID).bind read with
  | some a => .ok a
  | none => .error (.MissingParameter id subTxID)

/-- Modelled from the spec: `BaseTransaction::UpdateAsync` is missing; it
schedules an update of the swap. -/
def UpdateAsync (tx : AtomicSwapTransaction F G) : AtomicSwapTransaction F G :=
  { tx with asyncUpdates := tx.asyncUpdates + 1 }

/-- Modelled from the spec: `SetState` is defined in the header, which is missing;
the top state and the sub-tx states are kept under the parameter `State`. -/
def SetState (tx : AtomicSwapTransaction F G) (v : Value F G)
    (subTxID : SubTxID := kDefaultSubTxID) : AtomicSwapTransaction F G :=
  tx.SetParameter .State v subTxID

/-- Method `AtomicSwapTransaction::GetState`: `Initial` when nothing is stored. -/
def GetState (tx : AtomicSwapTransaction F G) (subTxID : SubTxID) : State :=
  match (tx.GetParameter .State subTxID).bind Value.asState with
  | some s => s
  | none => State.Initial

/-- Method `AtomicSwapTransaction::GetSubTxState`: `Initial` when nothing is stored. -/
def GetSubTxState (tx : AtomicSwapTransaction F G) (subTxID : SubTxID) : SubTxState :=
  match (tx.GetParameter .State subTxID).bind Value.asSubTxState with
  | some s => s
  | none => SubTxState.Initial

/-- Method `AtomicSwapTransaction::SetNextState`. -/
def SetNextState (tx : AtomicSwapTransaction F G) (state : State) :
    AtomicSwapTransaction F G :=
  (tx.SetState (.state state)).UpdateAsync

/-- Method `AtomicSwapTransaction::IsUfoSide`: the cached flag, read from
`AtomicSwapIsUfoSide` (default `false`) on first use. -/
def IsUfoSide (tx : AtomicSwapTransaction F G) : Bool × AtomicSwapTransaction F G :=
  match tx.m_IsUfoSide with
  | some b => (b, tx)
  | none =>
    let isUfoSide : Bool :=
      match (tx.GetParameter .AtomicSwapIsUfoSide).bind Value.asBool with
      | some b => b
      | none => false
    (isUfoSide, { tx with m_IsUfoSide := some isUfoSide })

/-- Method `AtomicSwapTransaction::Cancel`. In `HandlingContractTX` the case breaks out
when `IsUfoSide()` is false and falls through to the cancelling cases
otherwise. -/
def Cancel (tx : AtomicSwapTransaction F G) : AtomicSwapTransaction F G :=
  let state := tx.GetState kDefaultSubTxID
  match state with
  | .HandlingContractTX =>
    let (isUfoSide, tx) := tx.IsUfoSide
    if !isUfoSide then
      tx
    else
      tx.SetNextState .Canceled
  | .Initial
  | .BuildingUfoLockTX
  | .BuildingUfoRedeemTX
  | .BuildingUfoRefundTX =>
    tx.SetNextState .Canceled
  | _ => tx

/-- Method `AtomicSwapTransaction::RollbackTx`: one more `rollbackTx` on the wallet. -/
def RollbackTx (tx : AtomicSwapTransaction F G) : AtomicSwapTransaction F G :=
  { tx with rollbacks := tx.rollbacks + 1 }

/-- Modelled from the spec: `BaseTransaction::SendTxParameters` is missing; the message goes to the transport, which reports whether it took it. -/
def SendTxParameters (env : Env F G) (tx : AtomicSwapTransaction F G)
    (msg : SetTxParameter F G) : Bool × AtomicSwapTransaction F G :=
  let ok := env.sendOk tx msg
  (ok, { tx with outbox := (msg, ok) :: tx.outbox })

/-- Method `AtomicSwapTransaction::NotifyFailure`. -/
def NotifyFailure (env : Env F G) (tx : AtomicSwapTransaction F G)
    (reason : TxFailureReason) : AtomicSwapTransaction F G :=
  let msg := SetTxParameter.empty.AddParameter .FailureReason (.reason reason)
  (SendTxParameters env tx msg).2

/-- Method `AtomicSwapTransaction::OnFailed`. The cases that `break` reach
`SetNextState(State::Failed)`; the others return before it. -/
def OnFailed (env : Env F G) (tx : AtomicSwapTransaction F G)
    (reason : TxFailureReason) (notify : Bool) : AtomicSwapTransaction F G :=
  let tx := if notify then NotifyFailure env tx reason else tx
  let tx := tx.SetParameter .InternalFailureReason (.reason reason)
  let state := tx.GetState kDefaultSubTxID
  let (isUfoSide, tx) := tx.IsUfoSide
  match state with
  | .Initial =>
    tx.SetNextState .Failed
  | .BuildingUfoLockTX
  | .BuildingUfoRedeemTX
  | .BuildingUfoRefundTX =>
    tx.RollbackTx.SetNextState .Failed
  | .HandlingContractTX =>
    tx.RollbackTx.SetNextState .Failed
  | .SendingUfoLockTX =>
    if isUfoSide then
      tx.RollbackTx.SetNextState .Failed
    else
      tx.SetNextState .SendingRefundTX
  | .SendingUfoRedeemTX =>
    if isUfoSide then
      -- assert(false && "Impossible case!")
      { tx with assertFailures := tx.assertFailures + 1 }
    else
      tx.SetNextState .SendingRefundTX
  | .SendingRedeemTX =>
    if isUfoSide then
      tx
    else
      -- assert(false && "Impossible case!")
      { tx with assertFailures := tx.assertFailures + 1 }
  | _ => tx

/-- Let a method of a builder rewrite the parameters of the builder's
sub-transaction: of what `f` gives, the entries under `subTxID` are taken. -/
def withSubParams (tx : AtomicSwapTransaction F G) (subTxID : SubTxID)
    (f : TxParameters F G → TxParameters F G) : AtomicSwapTransaction F G :=
  { tx with params := fun s i => if s = subTxID then f tx.params s i else tx.params s i }

/-- Method `AtomicSwapTransaction::GetAmount`: the cached amount, read from the
mandatory parameter `Amount` on first use. -/
def GetAmount (tx : AtomicSwapTransaction F G) :
    Except SwapException Nat × AtomicSwapTransaction F G :=
  match tx.m_Amount with
  | some a => (.ok a, tx)
  | none =>
    match tx.GetMandatoryParameter Value.asU64 .Amount with
    | .ok a => (.ok a, { tx with m_Amount := some a })
    | .error e => (.error e, tx)

/-- Method `AtomicSwapTransaction::IsSender`: the cached flag, read from the mandatory
parameter `IsSender` on first use. -/
def IsSender (tx : AtomicSwapTransaction F G) :
    Except SwapException Bool × AtomicSwapTransaction F G :=
  match tx.m_IsSender with
  | some b => (.ok b, tx)
  | none =>
    match tx.GetMandatoryParameter Value.asBool .IsSender with
    | .ok b => (.ok b, { tx with m_IsSender := some b })
    | .error e => (.error e, tx)

/-- Method `AtomicSwapTransaction::GetWithdrawFee`. -/
def GetWithdrawFee (env : Env F G) : Nat :=
  env.kMinFeeInGroth

/-- Method `AtomicSwapTransaction::OnSubTxFailed`. -/
def OnSubTxFailed (env : Env F G) (tx : AtomicSwapTransaction F G)
    (reason : TxFailureReason) (subTxID : SubTxID) (notify : Bool) :
    AtomicSwapTransaction F G :=
  match (tx.GetParameter .InternalFailureReason subTxID).bind Value.asReason with
  | some previousReason =>
    if previousReason = reason then
      tx
    else
      OnFailed env (tx.SetParameter .InternalFailureReason (.reason reason) subTxID)
        .SubTxFailed notify
  | none =>
    OnFailed env (tx.SetParameter .InternalFailureReason (.reason reason) subTxID)
      .SubTxFailed notify

/-- Method `AtomicSwapTransaction::SendInvitation`. -/
def SendInvitation (env : Env F G) (tx : AtomicSwapTransaction F G) :
    Except SwapException Unit × AtomicSwapTransaction F G :=
  match tx.GetMandatoryParameter Value.asU64 .AtomicSwapAmount with
  | .error e => (.error e, tx)
  | .ok swapAmount =>
  match tx.GetMandatoryParameter Value.asCoin .AtomicSwapCoin with
  | .error e => (.error e, tx)
  | .ok swapCoin =>
  match tx.GetMandatoryParameter Value.asBytes .AtomicSwapPublicKey with
  | .error e => (.error e, tx)
  | .ok swapPublicKey =>
  match tx.GetMandatoryParameter Value.asU64 .AtomicSwapExternalLockTime with
  | .error e => (.error e, tx)
  | .ok swapLockTime =>
  match tx.GetMandatoryParameter Value.asU64 .Lifetime with
  | .error e => (.error e, tx)
  | .ok lifetime =>
  match tx.GetAmount with
  | (.error e, tx) => (.error e, tx)
  | (.ok amount, tx) =>
  match tx.GetMandatoryParameter Value.asU64 .Fee with
  | .error e => (.error e, tx)
  | .ok fee =>
  match tx.IsSender with
  | (.error e, tx) => (.error e, tx)
  | (.ok isSender, tx) =>
  let (isUfoSide, tx) := tx.IsUfoSide
  let msg := (((((((((SetTxParameter.empty.AddParameter .Amount (.u64 amount)).AddParameter
    .Fee (.u64 fee)).AddParameter
    .IsSender (.bool (!isSender))).AddParameter
    .Lifetime (.u64 lifetime)).AddParameter
    .AtomicSwapAmount (.u64 swapAmount)).AddParameter
    .AtomicSwapCoin (.coin swapCoin)).AddParameter
    .AtomicSwapPeerPublicKey (.bytes swapPublicKey)).AddParameter
    .AtomicSwapExternalLockTime (.u64 swapLockTime)).AddParameter
    .AtomicSwapIsUfoSide (.bool (!isUfoSide))).AddParameter
    .PeerProtoVersion (.u64 env.s_ProtoVersion)
  let (ok, tx) := SendTxParameters env tx msg
  if !ok then
    (.ok (), OnFailed env tx .FailedToSendParameters false)
  else
    (.ok (), tx)

/-- Method `AtomicSwapTransaction::SendLockTxInvitation`. -/
def SendLockTxInvitation (env : Env F G) (tx : AtomicSwapTransaction F G)
    (lockBuilder : LockTxBuilder F G) :
    Except SwapException Unit × AtomicSwapTransaction F G :=
  match tx.GetMandatoryParameter Value.asBytes .AtomicSwapPublicKey with
  | .error e => (.error e, tx)
  | .ok swapPublicKey =>
  let msg := ((((((((SetTxParameter.empty.AddParameter
    .PeerProtoVersion (.u64 env.s_ProtoVersion)).AddParameter
    .AtomicSwapPeerPublicKey (.bytes swapPublicKey)).AddParameter
    .SubTxIndex (.subTxID .UFO_LOCK_TX)).AddParameter
    .Fee (.u64 lockBuilder.GetFee)).AddParameter
    .PeerMaxHeight (.u64 (lockBuilder.GetMaxHeight tx.params))).AddParameter
    .PeerPublicExcess (.point (lockBuilder.GetPublicExcess tx.params))).AddParameter
    .PeerPublicNonce (.point (lockBuilder.GetPublicNonce tx.params))).AddParameter
    .PeerSharedBulletProofPart2
      (.bytes (lockBuilder.GetRangeProofInitialPart2 tx.params))).AddParameter
    .PeerPublicSharedBlindingFactor
      (.point (lockBuilder.GetPublicSharedBlindingFactor tx.params))
  let (ok, tx) := SendTxParameters env tx msg
  if !ok then
    (.ok (), OnFailed env tx .FailedToSendParameters false)
  else
    (.ok (), tx)

/-- Method `AtomicSwapTransaction::SendLockTxConfirmation`. -/
def SendLockTxConfirmation (env : Env F G) (tx : AtomicSwapTransaction F G)
    (lockBuilder : LockTxBuilder F G) : AtomicSwapTransaction F G :=
  let msg := (((((((((SetTxParameter.empty.AddParameter
    .PeerProtoVersion (.u64 env.s_ProtoVersion)).AddParameter
    .SubTxIndex (.subTxID .UFO_LOCK_TX)).AddParameter
    .PeerPublicExcess (.point (lockBuilder.GetPublicExcess tx.params))).AddParameter
    .PeerPublicNonce (.point (lockBuilder.GetPublicNonce tx.params))).AddParameter
    .PeerMaxHeight (.u64 (lockBuilder.GetMaxHeight tx.params))).AddParameter
    .PeerSignature (.scalar (lockBuilder.GetPartialSignature tx.params))).AddParameter
    .PeerOffset (.scalar (lockBuilder.GetOffset tx.params))).AddParameter
    .PeerSharedBulletProofPart2
      (.bytes (lockBuilder.GetRangeProofInitialPart2 tx.params))).AddParameter
    .PeerSharedBulletProofPart3 (.bytes (lockBuilder.GetSharedProofPart3 tx.params))).AddParameter
    .PeerPublicSharedBlindingFactor
      (.point (lockBuilder.GetPublicSharedBlindingFactor tx.params))
  let (ok, tx) := SendTxParameters env tx msg
  if !ok then
    OnFailed env tx .FailedToSendParameters false
  else
    tx

/-- Method `AtomicSwapTransaction::SendSharedTxInvitation`. -/
def SendSharedTxInvitation (env : Env F G) (tx : AtomicSwapTransaction F G)
    (builder : SharedTxBuilder F G) : AtomicSwapTransaction F G :=
  let msg := (((((SetTxParameter.empty.AddParameter
    .SubTxIndex (.subTxID builder.GetSubTxID)).AddParameter
    .Amount (.u64 builder.GetAmount)).AddParameter
    .Fee (.u64 builder.GetFee)).AddParameter
    .MinHeight (.u64 (builder.GetMinHeight tx.params))).AddParameter
    .PeerPublicExcess (.point (builder.GetPublicExcess tx.params))).AddParameter
    .PeerPublicNonce (.point (builder.GetPublicNonce tx.params))
  let (ok, tx) := SendTxParameters env tx msg
  if !ok then
    OnFailed env tx .FailedToSendParameters false
  else
    tx

/-- Method `AtomicSwapTransaction::ConfirmSharedTxInvitation`. -/
def ConfirmSharedTxInvitation (env : Env F G) (tx : AtomicSwapTransaction F G)
    (builder : SharedTxBuilder F G) : AtomicSwapTransaction F G :=
  let msg := ((((SetTxParameter.empty.AddParameter
    .SubTxIndex (.subTxID builder.GetSubTxID)).AddParameter
    .PeerPublicExcess (.point (builder.GetPublicExcess tx.params))).AddParameter
    .PeerSignature (.scalar (builder.GetPartialSignature tx.params))).AddParameter
    .PeerPublicNonce (.point (builder.GetPublicNonce tx.params))).AddParameter
    .PeerOffset (.scalar (builder.GetOffset tx.params))
  let (ok, tx) := SendTxParameters env tx msg
  if !ok then
    OnFailed env tx .FailedToSendParameters false
  else
    tx

/-- Subtraction of 64-bit unsigned integers, which wraps. -/
def sub64 (a b : Nat) : Nat :=
  (a + (2 ^ 64 - b % 2 ^ 64)) % 2 ^ 64

/-- Part of `BuildUfoWithdrawTx`, lines 928-939: the amount and the fee of the
withdrawal, read from the sub-tx or else computed from the swap amount and
stored. -/
def BuildUfoWithdrawTx.amounts (env : Env F G) (tx : AtomicSwapTransaction F G)
    (subTxID : SubTxID) :
    Except SwapException (Nat × Nat) × AtomicSwapTransaction F G :=
  match (tx.GetParameter .Amount subTxID).bind Value.asU64,
      (tx.GetParameter .Fee subTxID).bind Value.asU64 with
  | some withdrawAmount, some withdrawFee => (.ok (withdrawAmount, withdrawFee), tx)
  | _, _ =>
    let withdrawFee := GetWithdrawFee env
    match tx.GetAmount.1 with
    | .error e => (.error e, tx.GetAmount.2)
    | .ok amount =>
      let withdrawAmount := sub64 amount withdrawFee
      (.ok (withdrawAmount, withdrawFee),
        (tx.GetAmount.2.SetParameter .Amount (.u64 withdrawAmount) subTxID).SetParameter
          .Fee (.u64 withdrawFee) subTxID)

/-- Part of `BuildUfoWithdrawTx`, line 941: `isTxOwner`. The second `IsUfoSide()` is
called when the first conjunction is false. -/
def BuildUfoWithdrawTx.isTxOwner (tx : AtomicSwapTransaction F G) (subTxID : SubTxID) :
    Bool × AtomicSwapTransaction F G :=
  if tx.IsUfoSide.1 && subTxID == .UFO_REFUND_TX then
    (true, tx.IsUfoSide.2)
  else
    (!tx.IsUfoSide.2.IsUfoSide.1 && subTxID == .UFO_REDEEM_TX, tx.IsUfoSide.2.IsUfoSide.2)

/-- Part of `BuildUfoWithdrawTx`, lines 944-985: the exchange with the peer up to the
peer's signature. `some s` is an early `return s`; `none` goes on to the rest
of the method. -/
def BuildUfoWithdrawTx.exchange (env : Env F G) (tx : AtomicSwapTransaction F G)
    (subTxID : SubTxID) (builder : SharedTxBuilder F G) (subTxState : SubTxState)
    (isTxOwner : Bool) : Option SubTxState × AtomicSwapTransaction F G :=
  if !builder.GetSharedParameters tx.params then
    (some subTxState, tx)
  else
  -- send invite to get
  let tx :=
    if !builder.GetInitialTxParams tx.params && subTxState == .Initial then
      tx.withSubParams subTxID (builder.InitTx isTxOwner)
    else tx
  let tx := tx.withSubParams subTxID builder.GenerateNonce
  let tx := tx.withSubParams subTxID builder.CreateKernel
  if !builder.GetPeerPublicExcessAndNonce tx.params then
    if subTxState == .Initial && isTxOwner then
      let tx := SendSharedTxInvitation env tx builder
      let tx := tx.SetState (.subTxState .Invitation) subTxID
      (some .Invitation, tx)
    else
      (some subTxState, tx)
  else
  let tx := tx.withSubParams subTxID builder.SignPartial
  if !builder.GetPeerSignature tx.params then
    if subTxState == .Initial && !isTxOwner then
      -- invited participant
      let tx := ConfirmSharedTxInvitation env tx builder
      if subTxID == .UFO_REFUND_TX then
        let tx := tx.SetState (.subTxState .Constructed) subTxID
        (some .Constructed, tx)
      else
        (some subTxState, tx)
    else
      (some subTxState, tx)
  else
    (none, tx)

/-- Part of `BuildUfoWithdrawTx`, lines 926-985: the amounts, the builder and the
exchange with the peer up to the peer's signature. `.inl s` is an early
`return s`; `.inr (builder, subTxState, isTxOwner)` goes on to the rest of the
method. -/
def BuildUfoWithdrawTx.negotiate (env : Env F G) (tx : AtomicSwapTransaction F G)
    (subTxID : SubTxID) :
    Except SwapException (SubTxState ⊕ (SharedTxBuilder F G × SubTxState × Bool))
      × AtomicSwapTransaction F G :=
  let subTxState := tx.GetSubTxState subTxID
  match (BuildUfoWithdrawTx.amounts env tx subTxID).1 with
  | .error e => (.error e, (BuildUfoWithdrawTx.amounts env tx subTxID).2)
  | .ok (withdrawAmount, withdrawFee) =>
  let tx := (BuildUfoWithdrawTx.amounts env tx subTxID).2
  let isTxOwner := (BuildUfoWithdrawTx.isTxOwner tx subTxID).1
  let tx := (BuildUfoWithdrawTx.isTxOwner tx subTxID).2
  let builder := env.SharedTxBuilder subTxID withdrawAmount withdrawFee
  match (BuildUfoWithdrawTx.exchange env tx subTxID builder subTxState isTxOwner).1 with
  | some s =>
    (.ok (.inl s),
      (BuildUfoWithdrawTx.exchange env tx subTxID builder subTxState isTxOwner).2)
  | none =>
    (.ok (.inr (builder, subTxState, isTxOwner)),
      (BuildUfoWithdrawTx.exchange env tx subTxID builder subTxState isTxOwner).2)

/-- Part of `BuildUfoWithdrawTx`, lines 1045-1070: the check of the peer's signature,
the final signature and, for the owner, the transaction. The second component
of the result is `resultTx`. -/
def BuildUfoWithdrawTx.finish (env : Env F G) (tx : AtomicSwapTransaction F G)
    (subTxID : SubTxID) (builder : SharedTxBuilder F G) (subTxState : SubTxState)
    (isTxOwner : Bool) (resultTx : Option Transaction) :
    (SubTxState × Option Transaction) × AtomicSwapTransaction F G :=
  if !builder.IsPeerSignatureValid tx.params then
    ((subTxState, resultTx), OnSubTxFailed env tx .InvalidPeerSignature subTxID true)
  else
  let tx := tx.withSubParams subTxID builder.FinalizeSignature
  let tx := tx.SetState (.subTxState .Constructed) subTxID
  let subTxState := SubTxState.Constructed
  if isTxOwner then
    let transaction := builder.CreateTransaction tx.params
    if !env.IsValid transaction (builder.GetMinHeight tx.params) then
      ((subTxState, resultTx), OnSubTxFailed env tx .InvalidTransaction subTxID true)
    else
      ((subTxState, some transaction), tx)
  else
    ((subTxState, resultTx), tx)

end AtomicSwapTransaction

/-! ## The adaptor secret -/

namespace AtomicSwapTransaction

section Secret

variable {F G : Type} [CommRing F] [AddCommGroup G] [Module F G] [DecidableEq G]

/-- Part of `BuildUfoWithdrawTx`, lines 991-1020, the block `save SecretPublicKey`:
`pt = G * peerSignature + peerPublicExcess * challenge + peerPublicNonce`. -/
def BuildUfoWithdrawTx.saveSecretPublicKey (env : Env F G)
    (tx : AtomicSwapTransaction F G) (subTxID : SubTxID) (builder : SharedTxBuilder F G) :
    Except SwapException Unit × AtomicSwapTransaction F G :=
  match tx.GetMandatoryParameter Value.asPoint .PeerPublicNonce subTxID with
  | .error e => (.error e, tx)
  | .ok peerPublicNonce =>
  let challenge : F :=
    let publicNonce := builder.GetPublicNonce tx.params + peerPublicNonce
    let message := builder.GetKernelHash tx.params
    env.challenge publicNonce message
  match tx.GetMandatoryParameter Value.asScalar .PeerSignature subTxID with
  | .error e => (.error e, tx)
  | .ok peerSignature =>
  match tx.GetMandatoryParameter Value.asPoint .PeerPublicExcess subTxID with
  | .error e => (.error e, tx)
  | .ok peerPublicExcess =>
  let pt : G := peerSignature • env.generator
  let pt := pt + challenge • peerPublicExcess
  let pt := pt + peerPublicNonce
  -- assert(!(pt == Zero))
  let tx := if pt = 0 then { tx with assertFailures := tx.assertFailures + 1 } else tx
  let secretPublicKey := pt
  (.ok (), tx.SetParameter .AtomicSwapSecretPublicKey (.point secretPublicKey) subTxID)

/-- Part of `BuildUfoWithdrawTx`, lines 1027-1042: the foreign side sends its partial
signature of the Redeem kernel with the secret added. The result is that of
`SendTxParameters`. A `Scalar` that `GetParameter` leaves untouched is zero. -/
def BuildUfoWithdrawTx.sendAdaptedSignature (env : Env F G)
    (tx : AtomicSwapTransaction F G) (builder : SharedTxBuilder F G) :
    Bool × AtomicSwapTransaction F G :=
  -- Send BTC side partial sign with secret
  let partialSign := builder.GetPartialSignature tx.params
  let secretPrivateKey : F :=
    match (tx.GetParameter .AtomicSwapSecretPrivateKey .UFO_REDEEM_TX).bind
        Value.asScalar with
    | some k => k
    | none => 0
  let partialSign := partialSign + secretPrivateKey
  let msg := (SetTxParameter.empty.AddParameter
    .SubTxIndex (.subTxID builder.GetSubTxID)).AddParameter
    .PeerSignature (.scalar partialSign)
  SendTxParameters env tx msg

/-- Method `AtomicSwapTransaction::BuildUfoWithdrawTx`. The second component of the
result is the reference parameter `resultTx`. -/
def BuildUfoWithdrawTx (env : Env F G) (tx : AtomicSwapTransaction F G)
    (subTxID : SubTxID) (resultTx : Option Transaction) :
    Except SwapException (SubTxState × Option Transaction) × AtomicSwapTransaction F G :=
  match BuildUfoWithdrawTx.negotiate env tx subTxID with
  | (.error e, tx) => (.error e, tx)
  | (.ok (.inl subTxState), tx) => (.ok (subTxState, resultTx), tx)
  | (.ok (.inr (builder, subTxState, isTxOwner)), tx) =>
  if subTxID = .UFO_REDEEM_TX then
    let (isUfoSide, tx) := tx.IsUfoSide
    if isUfoSide then
      -- save SecretPublicKey
      match BuildUfoWithdrawTx.saveSecretPublicKey env tx subTxID builder with
      | (.error e, tx) => (.error e, tx)
      | (.ok (), tx) =>
      let tx := tx.SetState (.subTxState .Constructed) subTxID
      (.ok (.Constructed, resultTx), tx)
    else
      let (sent, tx) := BuildUfoWithdrawTx.sendAdaptedSignature env tx builder
      if !sent then
        (.ok (subTxState, resultTx), OnFailed env tx .FailedToSendParameters false)
      else
        let (r, tx) :=
          BuildUfoWithdrawTx.finish env tx subTxID builder subTxState isTxOwner resultTx
        (.ok r, tx)
  else
    let (r, tx) :=
      BuildUfoWithdrawTx.finish env tx subTxID builder subTxState isTxOwner resultTx
    (.ok r, tx)

/-- Method `AtomicSwapTransaction::ExtractSecretPrivateKey`:
`secretPrivateKey = peerSignature + partialSignature + (-fullSignature)`.
The builder is made with the default amount and fee, zero. -/
def ExtractSecretPrivateKey (env : Env F G) (tx : AtomicSwapTransaction F G) :
    Except SwapException Unit × AtomicSwapTransaction F G :=
  let subTxID := SubTxID.UFO_REDEEM_TX
  match tx.GetMandatoryParameter Value.asKernel .Kernel subTxID with
  | .error e => (.error e, tx)
  | .ok kernel =>
  let builder := env.SharedTxBuilder subTxID 0 0
  -- GetSharedParameters, GetInitialTxParams and GetPeerPublicExcessAndNonce only
  -- read, and their results are dropped
  let tx := tx.withSubParams subTxID builder.GenerateNonce
  let tx := tx.withSubParams subTxID builder.CreateKernel
  let tx := tx.withSubParams subTxID builder.SignPartial
  match tx.GetMandatoryParameter Value.asScalar .PeerSignature subTxID with
  | .error e => (.error e, tx)
  | .ok peerSignature =>
  let partialSignature := builder.GetPartialSignature tx.params
  let fullSignature : F := kernel.m_Signature.m_k
  let fullSignature := -fullSignature
  let secretPrivateKeyNative := peerSignature + partialSignature
  let secretPrivateKeyNative := secretPrivateKeyNative + fullSignature
  (.ok (), tx.SetParameter .AtomicSwapSecretPrivateKey (.scalar secretPrivateKeyNative)
    .UFO_REDEEM_TX)

/-- The object on which `ExtractSecretPrivateKey` reads `PeerSignature` and the
builder's partial signature: after `GenerateNonce`, `CreateKernel` and
`SignPartial`. -/
def ExtractSecretPrivateKey.signed (env : Env F G) (tx : AtomicSwapTransaction F G) :
    AtomicSwapTransaction F G :=
  ((tx.withSubParams .UFO_REDEEM_TX
    (env.SharedTxBuilder .UFO_REDEEM_TX 0 0).GenerateNonce).withSubParams .UFO_REDEEM_TX
    (env.SharedTxBuilder .UFO_REDEEM_TX 0 0).CreateKernel).withSubParams .UFO_REDEEM_TX
    (env.SharedTxBuilder .UFO_REDEEM_TX 0 0).SignPartial

end Secret

end AtomicSwapTransaction

/-! ## Re-org rollback, expiry and failures reported by the peer -/

namespace AtomicSwapTransaction

variable {F G : Type}

/-- Modelled from the spec: `BaseTransaction::UpdateTxDescription` is missing; it
sets the user-visible status of the swap, kept under the parameter `Status`. -/
def UpdateTxDescription (tx : AtomicSwapTransaction F G) (s : TxStatus) :
    AtomicSwapTransaction F G :=
  tx.SetParameter .Status (.status s)

/-- Modelled from the spec: `BaseTransaction::GetTip` is missing; the tip is the
latest confirmed native-chain height observed by the gateway, when there is
one. -/
def GetTip (env : Env F G) : Option Nat :=
  env.tip

/-- The condition of each block of `Rollback`:
`GetParameter(KernelProofHeight, proofHeight, subTxID) && proofHeight > height`. -/
def Rollback.proofAbove (tx : AtomicSwapTransaction F G) (subTxID : SubTxID)
    (height : Nat) : Bool :=
  match (tx.GetParameter .KernelProofHeight subTxID).bind Value.asU64 with
  | some proofHeight => decide (proofHeight > height)
  | none => false

/-- The body of each block of `Rollback`: both kernel heights of the sub-tx are
set to `Height(0)` and the top state is set with `SetState`. -/
def Rollback.reset (tx : AtomicSwapTransaction F G) (subTxID : SubTxID) (state : State) :
    AtomicSwapTransaction F G :=
  let tx := tx.SetParameter .KernelProofHeight (.u64 0) subTxID
  let tx := tx.SetParameter .KernelUnconfirmedHeight (.u64 0) subTxID
  tx.SetState (.state state)

/-- Method `AtomicSwapTransaction::Rollback`. On the native side the Refund block
comes first and the Lock block second; on the foreign side there is the Redeem
block only. -/
def Rollback (tx : AtomicSwapTransaction F G) (height : Nat) :
    Bool × AtomicSwapTransaction F G :=
  let isRolledback := false
  let (isUfoSide, tx) := tx.IsUfoSide
  let (isRolledback, tx) :=
    if isUfoSide then
      let (isRolledback, tx) :=
        if Rollback.proofAbove tx .UFO_REFUND_TX height then
          (true, Rollback.reset tx .UFO_REFUND_TX .SendingUfoRefundTX)
        else (isRolledback, tx)
      if Rollback.proofAbove tx .UFO_LOCK_TX height then
        (true, Rollback.reset tx .UFO_LOCK_TX .SendingUfoLockTX)
      else (isRolledback, tx)
    else
      if Rollback.proofAbove tx .UFO_REDEEM_TX height then
        (true, Rollback.reset tx .UFO_REDEEM_TX .SendingUfoRedeemTX)
      else (isRolledback, tx)
  if isRolledback then
    (isRolledback, tx.UpdateTxDescription .InProgress)
  else
    (isRolledback, tx)

/-- Method `AtomicSwapTransaction::CheckExpired`. -/
def CheckExpired (env : Env F G) (tx : AtomicSwapTransaction F G) :
    Bool × AtomicSwapTransaction F G :=
  match (tx.GetParameter .InternalFailureReason).bind Value.asReason with
  | some _ => (false, tx)
  | none =>
  let terminal : Bool :=
    match (tx.GetParameter .Status).bind Value.asStatus with
    | some s => s == .Failed || s == .Canceled || s == .Completed
    | none => false
  if terminal then
    (false, tx)
  else
  let limit : Option Nat :=
    match (tx.GetParameter .MaxHeight .UFO_LOCK_TX).bind Value.asU64 with
    | some h => some h
    | none => (tx.GetParameter .PeerResponseHeight).bind Value.asU64
  match limit with
  | none => (false, tx)
  | some lockTxMaxHeight =>
  if ((tx.GetParameter .TransactionRegistered .UFO_LOCK_TX).bind Value.asU8).isNone
      || ((tx.GetParameter .KernelID .UFO_LOCK_TX).bind Value.asBytes).isNone then
    match GetTip env with
    | some m_Height =>
      if m_Height > lockTxMaxHeight then
        (true, OnFailed env tx .TransactionExpired false)
      else (false, tx)
    | none => (false, tx)
  else
    match (tx.GetParameter .KernelUnconfirmedHeight .UFO_LOCK_TX).bind Value.asU64 with
    | some lastUnconfirmedHeight =>
      if lastUnconfirmedHeight > 0 then
        if lastUnconfirmedHeight ≥ lockTxMaxHeight then
          (true, OnFailed env tx .TransactionExpired false)
        else (false, tx)
      else (false, tx)
    | none => (false, tx)

/-- Method `AtomicSwapTransaction::CheckExternalFailures`. It always returns
`false`. -/
def CheckExternalFailures (tx : AtomicSwapTransaction F G) :
    Bool × AtomicSwapTransaction F G :=
  match (tx.GetParameter .FailureReason).bind Value.asReason with
  | some _ =>
    let state := tx.GetState kDefaultSubTxID
    match state with
    | .Initial =>
      (false, tx.SetState (.state .Failed))
    | .BuildingUfoLockTX
    | .BuildingUfoRedeemTX
    | .BuildingUfoRefundTX =>
      (false, tx.RollbackTx.SetState (.state .Failed))
    | .HandlingContractTX =>
      let (isUfoSide, tx) := tx.IsUfoSide
      if isUfoSide then
        (false, tx.RollbackTx.SetState (.state .Failed))
      else
        (false, tx)
    | .SendingUfoLockTX =>
      -- nothing
      (false, tx)
    | .SendingUfoRedeemTX =>
      -- nothing
      (false, tx)
    | .SendingRedeemTX =>
      -- nothing
      (false, tx)
    | _ => (false, tx)
  | none => (false, tx)

/-- The limit of the expiry check in the words of the spec: the `MaxHeight` of
the Lock sub-tx if present, otherwise `PeerResponseHeight`. -/
def expiryLimit (tx : AtomicSwapTransaction F G) : Option Nat :=
  match (tx.GetParameter .MaxHeight .UFO_LOCK_TX).bind Value.asU64 with
  | some h => some h
  | none => (tx.GetParameter .PeerResponseHeight).bind Value.asU64

/-- The status stops the expiry check: it is `Failed`, `Canceled` or
`Completed`. -/
def statusIsFinal (tx : AtomicSwapTransaction F G) : Prop :=
  (tx.GetParameter .Status).bind Value.asStatus = some .Failed
  ∨ (tx.GetParameter .Status).bind Value.asStatus = some .Canceled
  ∨ (tx.GetParameter .Status).bind Value.asStatus = some .Completed

/-- The Lock sub-tx has both `TransactionRegistered` and `KernelID`. -/
def lockIsRegistered (tx : AtomicSwapTransaction F G) : Prop :=
  (∃ n, (tx.GetParameter .TransactionRegistered .UFO_LOCK_TX).bind Value.asU8 = some n)
  ∧ ∃ k, (tx.GetParameter .KernelID .UFO_LOCK_TX).bind Value.asBytes = some k

/-- The states and sides in which `CheckExternalFailures` does nothing although
`OnFailed` moves the swap: `HandlingContractTX` on the foreign side,
`SendingUfoLockTX`, and `SendingUfoRedeemTX` on the foreign side. -/
def peerFailureIgnored (tx : AtomicSwapTransaction F G) : Prop :=
  (tx.GetState kDefaultSubTxID = .HandlingContractTX ∧ tx.IsUfoSide.1 = false)
  ∨ tx.GetState kDefaultSubTxID = .SendingUfoLockTX
  ∨ (tx.GetState kDefaultSubTxID = .SendingUfoRedeemTX ∧ tx.IsUfoSide.1 = false)

/-- The expiry condition in the words of the spec: no top-level
`InternalFailureReason`; the status is not final; there is a limit `L`; and
either the Lock sub-tx is not registered and the tip is known and above `L`,
or it is registered and its `KernelUnconfirmedHeight` is positive and at least
`L`. -/
def Expired (env : Env F G) (tx : AtomicSwapTransaction F G) : Prop :=
  (tx.GetParameter .InternalFailureReason).bind Value.asReason = none
  ∧ ¬ statusIsFinal tx
  ∧ ∃ L, expiryLimit tx = some L
    ∧ ((¬ lockIsRegistered tx ∧ ∃ t, GetTip env = some t ∧ t > L)
      ∨ (lockIsRegistered tx
        ∧ ∃ u, (tx.GetParameter .KernelUnconfirmedHeight .UFO_LOCK_TX).bind
            Value.asU64 = some u ∧ u > 0 ∧ u ≥ L))

/-- The sub-tx has a recorded `KernelProofHeight` above `h`. -/
def hasProofAbove (tx : AtomicSwapTransaction F G) (subTxID : SubTxID) (h : Nat) : Prop :=
  ∃ p, tx.GetParameter .KernelProofHeight subTxID = some (.u64 p) ∧ p > h

end AtomicSwapTransaction

/-! ## Creation of a swap -/

namespace TxParameters

variable {F G : Type}

/-- Modelled from the spec: the class `TxParameters` is missing; it is a set of
parameters, and the free functions below use it at the default sub-tx
only. `GetParameter<T>` gives the stored value, if any. -/
def GetParameter (parameters : TxParameters F G) (id : TxParameterID) :
    Option (Value F G) :=
  parameters .kDefaultSubTxID id

/-- Modelled from the spec: `TxParameters::SetParameter` is missing; it stores the value
under the id and leaves every other entry alone. -/
def SetParameter (parameters : TxParameters F G) (id : TxParameterID) (v : Value F G) :
    TxParameters F G :=
  fun s i => if s = .kDefaultSubTxID ∧ i = id then some v else parameters s i

end TxParameters

/-- Function `InitNewSwap`. `createTime` is the result of `getTimestamp()`; the
id drawn by `GenerateTxID()` names the set and is not one of its entries. -/
def InitNewSwap {F G : Type} (createTime : Nat) (myID : ByteBuffer)
    (minHeight amount fee : Nat) (swapCoin : Nat) (swapAmount : Nat) (isUfoSide : Bool)
    (lifetime responseTime : Nat) : TxParameters F G :=
  let parameters : TxParameters F G := fun _ _ => none
  let parameters := parameters.SetParameter .TransactionType (.txType .AtomicSwap)
  let parameters := parameters.SetParameter .CreateTime (.u64 createTime)
  let parameters := parameters.SetParameter .Amount (.u64 amount)
  let parameters := parameters.SetParameter .Fee (.u64 fee)
  let parameters := parameters.SetParameter .Lifetime (.u64 lifetime)
  let parameters := parameters.SetParameter .MinHeight (.u64 minHeight)
  let parameters := parameters.SetParameter .PeerResponseTime (.u64 responseTime)
  let parameters := parameters.SetParameter .MyID (.bytes myID)
  let parameters := parameters.SetParameter .IsSender (.bool isUfoSide)
  let parameters := parameters.SetParameter .IsInitiator (.bool false)
  let parameters := parameters.SetParameter .AtomicSwapCoin (.coin swapCoin)
  let parameters := parameters.SetParameter .AtomicSwapAmount (.u64 swapAmount)
  let parameters := parameters.SetParameter .AtomicSwapIsUfoSide (.bool isUfoSide)
  parameters

/-- Function `AcceptSwapParameters`. It dereferences `GetParameter<WalletID>(MyID)`
and `GetParameter<bool>(AtomicSwapIsUfoSide)` without a check: there is no
result (`none`) when one of them is absent. -/
def AcceptSwapParameters {F G : Type} (initialParameters : TxParameters F G)
    (myID : ByteBuffer) : Option (TxParameters F G) :=
  let parameters := initialParameters
  match (parameters.GetParameter .MyID).bind Value.asBytes with
  | none => none
  | some peerID =>
  let parameters := parameters.SetParameter .PeerID (.bytes peerID)
  let parameters := parameters.SetParameter .MyID (.bytes myID)
  match (parameters.GetParameter .AtomicSwapIsUfoSide).bind Value.asBool with
  | none => none
  | some isUfoSide =>
  let parameters := parameters.SetParameter .IsSender (.bool (!isUfoSide))
  let parameters := parameters.SetParameter .AtomicSwapIsUfoSide (.bool (!isUfoSide))
  let parameters := parameters.SetParameter .IsInitiator (.bool true)
  some parameters

/-! ## Sub-transactions on the chain -/

/-- Modelled from the spec: the constant `MaxHeight` is declared outside
`swap_transaction.cpp`; it is the largest 64-bit height, the sentinel for "no height". -/
def MaxHeight : Nat := 2 ^ 64 - 1

namespace AtomicSwapTransaction

variable {F G : Type}

/-- Modelled from the spec: `BaseTransaction::UpdateOnNextTip` is missing; it
registers the swap as interested in the next tip. -/
def UpdateOnNextTip (tx : AtomicSwapTransaction F G) : AtomicSwapTransaction F G :=
  { tx with tipUpdates := tx.tipUpdates + 1 }

/-- Modelled from the spec: `BaseTransaction::IsInitiator` is missing; it is the flag
`is_initiator` of the swap, the mandatory parameter `IsInitiator`. -/
def IsInitiator (tx : AtomicSwapTransaction F G) : Except SwapException Bool :=
  tx.GetMandatoryParameter Value.asBool .IsInitiator

/-- Record a call made on the gateway or on the wallet. -/
def call (tx : AtomicSwapTransaction F G) (c : Call) : AtomicSwapTransaction F G :=
  { tx with calls := c :: tx.calls }

/-- Method `AtomicSwapTransaction::Creator::GetSecondSide`, the provider of the second
side. The result is `none` when the factory gives a null pointer. -/
def Creator.GetSecondSide (env : Env F G) (tx : AtomicSwapTransaction F G) :
    Except SwapException (Option (SecondSide F G)) :=
  match tx.GetMandatoryParameter Value.asCoin .AtomicSwapCoin with
  | .error e => .error e
  | .ok coinType =>
  match env.m_factories coinType with
  | none => .error .SecondSideFactoryNotRegistered
  | some factory =>
  match tx.GetMandatoryParameter Value.asBool .AtomicSwapIsUfoSide with
  | .error e => .error e
  | .ok isUfoSide => .ok (factory tx.params isUfoSide)

/-- Method `AtomicSwapTransaction::WrapperSecondSide::GetSecondSide`, which is also
`operator ->`: the cached adapter, asked from the provider on first use. -/
def WrapperSecondSide.GetSecondSide (env : Env F G) (tx : AtomicSwapTransaction F G) :
    Except SwapException (SecondSide F G) × AtomicSwapTransaction F G :=
  match tx.m_secondSide with
  | some secondSide => (.ok secondSide, tx)
  | none =>
    match Creator.GetSecondSide env tx with
    | .error e => (.error e, tx)
    | .ok none => (.error .UninitilizedSecondSide, tx)
    | .ok (some secondSide) => (.ok secondSide, { tx with m_secondSide := some secondSide })

/-- Method `AtomicSwapTransaction::CheckSubTxFailures`. -/
def CheckSubTxFailures (env : Env F G) (tx : AtomicSwapTransaction F G) :
    AtomicSwapTransaction F G :=
  let state := tx.GetState kDefaultSubTxID
  if state == .Initial || state == .HandlingContractTX then
    match (tx.GetParameter .InternalFailureReason .LOCK_TX).bind Value.asReason with
    | some reason => OnFailed env tx reason true
    | none => tx
  else
    tx

/-- Method `AtomicSwapTransaction::SendSubTx`. The read of `KernelUnconfirmedHeight` names
no sub-tx: it is the one of the default sub-tx. -/
def SendSubTx (env : Env F G) (tx : AtomicSwapTransaction F G)
    (transaction : Transaction) (subTxID : SubTxID) :
    Bool × AtomicSwapTransaction F G :=
  match (tx.GetParameter .TransactionRegistered subTxID).bind Value.asU8 with
  | none => (false, tx.call (.register_tx transaction subTxID))
  | some nRegistered =>
    if env.InvalidContext = nRegistered then
      -- we have to ensure that this transaction hasn't already added to blockchain
      match (tx.GetParameter .KernelUnconfirmedHeight).bind Value.asU64 with
      | some lastUnconfirmedHeight =>
        if lastUnconfirmedHeight > 0 then
          (false, OnSubTxFailed env tx .FailedToRegister subTxID (subTxID == .UFO_LOCK_TX))
        else
          (true, tx)
      | none => (true, tx)
    else if env.Ok ≠ nRegistered then
      (false, OnSubTxFailed env tx .FailedToRegister subTxID (subTxID == .UFO_LOCK_TX))
    else
      (true, tx)

/-- Method `AtomicSwapTransaction::IsUfoLockTimeExpired`. The sum is a sum of `Height`s,
so it wraps at `2 ^ 64`. -/
def IsUfoLockTimeExpired (env : Env F G) (tx : AtomicSwapTransaction F G) : Bool :=
  let lockTimeHeight :=
    match (tx.GetParameter .MinHeight).bind Value.asU64 with
    | some h => h
    | none => MaxHeight
  match GetTip env with
  | some m_Height => decide (m_Height > (lockTimeHeight + env.kUfoLockTimeInBlocks) % 2 ^ 64)
  | none => false

/-- Method `AtomicSwapTransaction::CompleteSubTx`. -/
def CompleteSubTx (tx : AtomicSwapTransaction F G) (subTxID : SubTxID) :
    Except SwapException Bool × AtomicSwapTransaction F G :=
  let hProof :=
    match (tx.GetParameter .KernelProofHeight subTxID).bind Value.asU64 with
    | some h => h
    | none => 0
  if hProof = 0 then
    match tx.GetMandatoryParameter Value.asBytes .KernelID subTxID with
    | .error e => (.error e, tx)
    | .ok kernelID => (.ok false, tx.call (.confirm_kernel kernelID subTxID))
  else
  if subTxID = .UFO_REDEEM_TX ∨ subTxID = .UFO_REFUND_TX then
    -- store Coin in DB
    match tx.GetMandatoryParameter Value.asU64 .Amount subTxID with
    | .error e => (.error e, tx)
    | .ok amount =>
    match tx.GetMandatoryParameter Value.asBytes .SharedCoinID subTxID with
    | .error e => (.error e, tx)
    | .ok coinID =>
    let tx := tx.call (.saveCoin amount coinID)
    (.ok true, tx.call (.SetCompletedTxCoinStatuses hProof))
  else
    (.ok true, tx.call (.SetCompletedTxCoinStatuses hProof))

/-- Method `AtomicSwapTransaction::GetKernelFromChain`. The kernel id is read from the
Redeem sub-tx whatever `subTxID` is. -/
def GetKernelFromChain (tx : AtomicSwapTransaction F G) (subTxID : SubTxID) :
    Except SwapException Bool × AtomicSwapTransaction F G :=
  let hProof :=
    match (tx.GetParameter .KernelProofHeight subTxID).bind Value.asU64 with
    | some h => h
    | none => 0
  if hProof = 0 then
    match tx.GetMandatoryParameter Value.asBytes .KernelID .UFO_REDEEM_TX with
    | .error e => (.error e, tx)
    | .ok kernelID => (.ok false, tx.call (.get_kernel kernelID subTxID))
  else
    (.ok true, tx)

/-- Method `AtomicSwapTransaction::SendExternalTxDetails`; `secondSide` is what
`m_secondSide->` gives. -/
def SendExternalTxDetails (env : Env F G) (tx : AtomicSwapTransaction F G)
    (secondSide : SecondSide F G) : AtomicSwapTransaction F G :=
  let msg := secondSide.AddTxDetails tx.params SetTxParameter.empty
  let (ok, tx) := SendTxParameters env tx msg
  if !ok then
    OnFailed env tx .FailedToSendParameters false
  else
    tx

end AtomicSwapTransaction

/-! ## Construction of the Lock sub-transaction -/

namespace AtomicSwapTransaction

variable {F G : Type}

/-- Part of `BuildUfoLockTx`, lines 796-805: the fee of the Lock sub-tx, which the
native side takes from the swap when the sub-tx is in its initial state. -/
def BuildUfoLockTx.fee (tx : AtomicSwapTransaction F G) (lockTxState : SubTxState)
    (isUfoOwner : Bool) : Except SwapException Nat × AtomicSwapTransaction F G :=
  match (tx.GetParameter .Fee .UFO_LOCK_TX).bind Value.asU64 with
  | some fee => (.ok fee, tx)
  | none =>
    -- Ufo owner extract fee from main TX, receiver must get fee along with LockTX invitation
    if isUfoOwner && lockTxState == .Initial then
      match tx.GetMandatoryParameter Value.asU64 .Fee with
      | .error e => (.error e, tx)
      | .ok fee => (.ok fee, tx.SetParameter .Fee (.u64 fee) .UFO_LOCK_TX)
    else
      (.ok 0, tx)

/-- Part of `BuildUfoLockTx`, lines 809-827: the first steps of a sub-tx that has no
initial parameters yet. The read of `PeerResponseHeight` only feeds the log. -/
def BuildUfoLockTx.start (tx : AtomicSwapTransaction F G)
    (lockTxBuilder : LockTxBuilder F G) (lockTxState : SubTxState) (isUfoOwner : Bool) :
    AtomicSwapTransaction F G :=
  if !lockTxBuilder.GetInitialTxParams tx.params && lockTxState == .Initial then
    let tx :=
      if isUfoOwner then
        let tx := tx.withSubParams .UFO_LOCK_TX lockTxBuilder.SelectInputs
        tx.withSubParams .UFO_LOCK_TX lockTxBuilder.AddChange
      else tx
    let tx := tx.UpdateTxDescription .InProgress
    tx.withSubParams .UFO_LOCK_TX lockTxBuilder.GenerateOffset
  else
    tx

/-- Part of `BuildUfoLockTx`, lines 846-858: the peer's excess and nonce are not there;
the native side with a sub-tx in its initial state sends the invitation. -/
def BuildUfoLockTx.invite (env : Env F G) (tx : AtomicSwapTransaction F G)
    (lockTxBuilder : LockTxBuilder F G) (lockTxState : SubTxState) (isUfoOwner : Bool) :
    Except SwapException SubTxState × AtomicSwapTransaction F G :=
  if lockTxState == .Initial && isUfoOwner then
    match tx.IsInitiator with
    | .error e => (.error e, tx)
    | .ok isInitiator =>
    let tx :=
      if !isInitiator then
        -- When swap started not from Ufo side, we should save MaxHeight
        tx.SetParameter .MaxHeight (.u64 (lockTxBuilder.GetMaxHeight tx.params)) .UFO_LOCK_TX
      else tx
    match SendLockTxInvitation env tx lockTxBuilder with
    | (.error e, tx) => (.error e, tx)
    | (.ok (), tx) =>
    let tx := tx.SetState (.subTxState .Invitation) .UFO_LOCK_TX
    (.ok .Invitation, tx)
  else
    (.ok lockTxState, tx)

/-- Part of `BuildUfoLockTx`, lines 865-888: the shared range proof. `.inl s` is an
early `return s`; `.inr s` goes on to the rest of the method with
`lockTxState = s`. -/
def BuildUfoLockTx.proof (env : Env F G) (tx : AtomicSwapTransaction F G)
    (lockTxBuilder : LockTxBuilder F G) (lockTxState : SubTxState) (isUfoOwner : Bool) :
    (SubTxState ⊕ SubTxState) × AtomicSwapTransaction F G :=
  if lockTxState == .Initial || lockTxState == .Invitation then
    let part2 := lockTxBuilder.CreateSharedUTXOProofPart2 isUfoOwner tx.params
    let tx := tx.withSubParams .UFO_LOCK_TX (fun _ => part2.2)
    if !part2.1 then
      (.inl lockTxState, OnSubTxFailed env tx .FailedToCreateMultiSig .UFO_LOCK_TX true)
    else
    let part3 := lockTxBuilder.CreateSharedUTXOProofPart3 isUfoOwner tx.params
    let tx := tx.withSubParams .UFO_LOCK_TX (fun _ => part3.2)
    if !part3.1 then
      (.inl lockTxState, OnSubTxFailed env tx .FailedToCreateMultiSig .UFO_LOCK_TX true)
    else
    let tx := tx.SetState (.subTxState .Constructed) .UFO_LOCK_TX
    let lockTxState := SubTxState.Constructed
    if !isUfoOwner then
      -- send part2/part3!
      (.inl lockTxState, SendLockTxConfirmation env tx lockTxBuilder)
    else
      (.inr lockTxState, tx)
  else
    (.inr lockTxState, tx)

/-- Part of `BuildUfoLockTx`, lines 890-921: the peer's signature, the final signature
and, on the native side, the transaction, kept in `m_LockTx`. Every path
returns `lockTxState` as it is on entry. -/
def BuildUfoLockTx.finish (env : Env F G) (tx : AtomicSwapTransaction F G)
    (lockTxBuilder : LockTxBuilder F G) (lockTxState : SubTxState) (isUfoOwner : Bool) :
    SubTxState × AtomicSwapTransaction F G :=
  if !lockTxBuilder.GetPeerSignature tx.params then
    (lockTxState, tx)
  else
  if !lockTxBuilder.IsPeerSignatureValid tx.params then
    (lockTxState, OnSubTxFailed env tx .InvalidPeerSignature .UFO_LOCK_TX true)
  else
  let tx := tx.withSubParams .UFO_LOCK_TX lockTxBuilder.FinalizeSignature
  if isUfoOwner then
    -- assert(lockTxState == SubTxState::Constructed)
    let tx :=
      if lockTxState == .Constructed then tx
      else { tx with assertFailures := tx.assertFailures + 1 }
    -- Create TX
    let transaction := lockTxBuilder.CreateTransaction tx.params
    if !env.IsValid transaction (lockTxBuilder.GetMinHeight tx.params) then
      (lockTxState, OnSubTxFailed env tx .InvalidTransaction .UFO_LOCK_TX true)
    else
      (lockTxState, { tx with m_LockTx := some transaction })
  else
    (lockTxState, tx)

/-- Part of `BuildUfoLockTx`, lines 829-833: `CreateInputs()` and
`isUfoOwner && lockTxBuilder->CreateOutputs()`, which calls `CreateOutputs` on the
native side only. The result is the value of the condition. -/
def BuildUfoLockTx.outputs (tx : AtomicSwapTransaction F G)
    (lockTxBuilder : LockTxBuilder F G) (isUfoOwner : Bool) :
    Bool × AtomicSwapTransaction F G :=
  let tx := tx.withSubParams .UFO_LOCK_TX lockTxBuilder.CreateInputs
  if isUfoOwner then
    ((lockTxBuilder.CreateOutputs tx.params).1,
      tx.withSubParams .UFO_LOCK_TX (fun p => (lockTxBuilder.CreateOutputs p).2))
  else
    (false, tx)

/-- Part of `BuildUfoLockTx`, lines 861-921: the kernel, the partial signature, the
shared range proof and the end of the method. -/
def BuildUfoLockTx.sign (env : Env F G) (tx : AtomicSwapTransaction F G)
    (lockTxBuilder : LockTxBuilder F G) (lockTxState : SubTxState) (isUfoOwner : Bool)
    (fee : Nat) : SubTxState × AtomicSwapTransaction F G :=
  -- assert(fee)
  let tx := if fee = 0 then { tx with assertFailures := tx.assertFailures + 1 } else tx
  let tx := tx.withSubParams .UFO_LOCK_TX lockTxBuilder.CreateKernel
  let tx := tx.withSubParams .UFO_LOCK_TX lockTxBuilder.SignPartial
  match BuildUfoLockTx.proof env tx lockTxBuilder lockTxState isUfoOwner with
  | (.inl lockTxState, tx) => (lockTxState, tx)
  | (.inr lockTxState, tx) =>
    BuildUfoLockTx.finish env tx lockTxBuilder lockTxState isUfoOwner

/-- Part of `BuildUfoLockTx`, lines 829-921: from `CreateInputs` to the end. -/
def BuildUfoLockTx.build (env : Env F G) (tx : AtomicSwapTransaction F G)
    (lockTxBuilder : LockTxBuilder F G) (lockTxState : SubTxState) (isUfoOwner : Bool)
    (fee : Nat) : Except SwapException SubTxState × AtomicSwapTransaction F G :=
  if (BuildUfoLockTx.outputs tx lockTxBuilder isUfoOwner).1 then
    (.ok lockTxState, (BuildUfoLockTx.outputs tx lockTxBuilder isUfoOwner).2)
  else
  let tx := (BuildUfoLockTx.outputs tx lockTxBuilder isUfoOwner).2
  let tx := tx.withSubParams .UFO_LOCK_TX lockTxBuilder.GenerateNonce
  let tx := tx.withSubParams .UFO_LOCK_TX lockTxBuilder.LoadSharedParameters
  if !(lockTxBuilder.UpdateMaxHeight tx.params).1 then
    (.ok lockTxState,
      OnSubTxFailed env
        (tx.withSubParams .UFO_LOCK_TX (fun p => (lockTxBuilder.UpdateMaxHeight p).2))
        .MaxHeightIsUnacceptable .UFO_LOCK_TX true)
  else
  let tx := tx.withSubParams .UFO_LOCK_TX (fun p => (lockTxBuilder.UpdateMaxHeight p).2)
  if !lockTxBuilder.GetPeerPublicExcessAndNonce tx.params then
    BuildUfoLockTx.invite env tx lockTxBuilder lockTxState isUfoOwner
  else
    (.ok (BuildUfoLockTx.sign env tx lockTxBuilder lockTxState isUfoOwner fee).1,
      (BuildUfoLockTx.sign env tx lockTxBuilder lockTxState isUfoOwner fee).2)

/-- Method `AtomicSwapTransaction::BuildUfoLockTx`. -/
def BuildUfoLockTx (env : Env F G) (tx : AtomicSwapTransaction F G) :
    Except SwapException SubTxState × AtomicSwapTransaction F G :=
  -- load state
  let lockTxState := tx.GetSubTxState .UFO_LOCK_TX
  let isUfoOwner := tx.IsUfoSide.1
  let tx := tx.IsUfoSide.2
  match BuildUfoLockTx.fee tx lockTxState isUfoOwner with
  | (.error e, tx) => (.error e, tx)
  | (.ok fee, tx) =>
  match tx.GetAmount with
  | (.error e, tx) => (.error e, tx)
  | (.ok amount, tx) =>
  let lockTxBuilder := env.LockTxBuilder amount fee
  let tx := BuildUfoLockTx.start tx lockTxBuilder lockTxState isUfoOwner
  BuildUfoLockTx.build env tx lockTxBuilder lockTxState isUfoOwner fee

end AtomicSwapTransaction

/-! ## One turn of the state machine -/

namespace AtomicSwapTransaction

section Turn

variable {F G : Type} [CommRing F] [AddCommGroup G] [Module F G] [DecidableEq G]

/-- Part of `CompleteUfoWithdrawTx`, lines 771-774: the withdraw transaction is built
when `m_WithdrawTx` is empty; the state `BuildUfoWithdrawTx` returns is dropped. -/
def CompleteUfoWithdrawTx.build (env : Env F G) (tx : AtomicSwapTransaction F G)
    (subTxID : SubTxID) : Except SwapException Unit × AtomicSwapTransaction F G :=
  if tx.m_WithdrawTx.isNone then
    match BuildUfoWithdrawTx env tx subTxID tx.m_WithdrawTx with
    | (.error e, tx) => (.error e, tx)
    | (.ok (_, resultTx), tx) => (.ok (), { tx with m_WithdrawTx := resultTx })
  else
    (.ok (), tx)

/-- Part of `CompleteUfoWithdrawTx`, line 776: `m_WithdrawTx && !SendSubTx(..)`; the
result is `false` when the method returns `false` here. -/
def CompleteUfoWithdrawTx.send (env : Env F G) (tx : AtomicSwapTransaction F G)
    (subTxID : SubTxID) : Bool × AtomicSwapTransaction F G :=
  match tx.m_WithdrawTx with
  | some withdrawTx => SendSubTx env tx withdrawTx subTxID
  | none => (true, tx)

/-- Method `AtomicSwapTransaction::CompleteUfoWithdrawTx`. -/
def CompleteUfoWithdrawTx (env : Env F G) (tx : AtomicSwapTransaction F G)
    (subTxID : SubTxID) : Except SwapException Bool × AtomicSwapTransaction F G :=
  match CompleteUfoWithdrawTx.build env tx subTxID with
  | (.error e, tx) => (.error e, tx)
  | (.ok (), tx) =>
  match CompleteUfoWithdrawTx.send env tx subTxID with
  | (false, tx) => (.ok false, tx)
  | (true, tx) =>
  match CompleteSubTx tx subTxID with
  | (.error e, tx) => (.error e, tx)
  | (.ok false, tx) => (.ok false, tx)
  | (.ok true, tx) => (.ok true, tx)

/-- Part of `UpdateImpl`, lines 278-283: `PeerResponseHeight`, when it is not there,
is `minHeight + responseTime`, a sum of `Height`s. -/
def UpdateImpl.responseHeight (tx : AtomicSwapTransaction F G) :
    Except SwapException Unit × AtomicSwapTransaction F G :=
  match (tx.GetParameter .PeerResponseHeight).bind Value.asU64 with
  | some _ => (.ok (), tx)
  | none =>
    match tx.GetMandatoryParameter Value.asU64 .MinHeight with
    | .error e => (.error e, tx)
    | .ok minHeight =>
    match tx.GetMandatoryParameter Value.asU64 .PeerResponseTime with
    | .error e => (.error e, tx)
    | .ok responseTime =>
      (.ok (),
        tx.SetParameter .PeerResponseHeight (.u64 ((minHeight + responseTime) % 2 ^ 64)))

/-- Part of `UpdateImpl`, lines 285-295: `case State::Initial` for the party with
`IsInitiator()`. `true` goes on to `SetNextState`, `false` is a `break`. -/
def UpdateImpl.invite (env : Env F G) (tx : AtomicSwapTransaction F G) :
    Except SwapException Bool × AtomicSwapTransaction F G :=
  match WrapperSecondSide.GetSecondSide env tx with
  | (.error e, tx) => (.error e, tx)
  | (.ok secondSide, tx) =>
  if !secondSide.Initialize tx.params then
    (.ok false, tx)
  else
  let tx := tx.SetParameter .AtomicSwapExternalLockTime
    (.u64 (secondSide.InitLockTime tx.params))
  match SendInvitation env tx with
  | (.error e, tx) => (.error e, tx)
  | (.ok (), tx) => (.ok true, tx)

/-- Part of `UpdateImpl`, lines 296-321: `case State::Initial` for the other party.
`true` goes on to `SetNextState`, `false` is a `break`. -/
def UpdateImpl.answer (env : Env F G) (tx : AtomicSwapTransaction F G) :
    Except SwapException Bool × AtomicSwapTransaction F G :=
  -- hack, used for increase refCount!
  match WrapperSecondSide.GetSecondSide env tx with
  | (.error e, tx) => (.error e, tx)
  | (.ok secondSide, tx) =>
  match (tx.GetParameter .AtomicSwapExternalLockTime).bind Value.asU64 with
  | none =>
    -- we doesn't have an answer from other participant
    (.ok false, tx.UpdateOnNextTip)
  | some _ =>
  if !secondSide.Initialize tx.params then
    (.ok false, tx)
  else
  if !secondSide.ValidateLockTime tx.params then
    (.ok false, OnSubTxFailed env tx .InvalidTransaction .LOCK_TX true)
  else
    (.ok true, tx)

/-- Part of `UpdateImpl`: `case State::Initial`. -/
def UpdateImpl.Initial (env : Env F G) (tx : AtomicSwapTransaction F G) :
    Except SwapException Unit × AtomicSwapTransaction F G :=
  match UpdateImpl.responseHeight tx with
  | (.error e, tx) => (.error e, tx)
  | (.ok (), tx) =>
  match tx.IsInitiator with
  | .error e => (.error e, tx)
  | .ok isInitiator =>
  match (if isInitiator then UpdateImpl.invite env tx else UpdateImpl.answer env tx) with
  | (.error e, tx) => (.error e, tx)
  | (.ok false, tx) => (.ok (), tx)
  | (.ok true, tx) => (.ok (), tx.SetNextState .BuildingUfoLockTX)

/-- Part of `UpdateImpl`: `case State::BuildingUfoLockTX`. -/
def UpdateImpl.BuildingUfoLockTX (env : Env F G) (tx : AtomicSwapTransaction F G) :
    Except SwapException Unit × AtomicSwapTransaction F G :=
  match BuildUfoLockTx env tx with
  | (.error e, tx) => (.error e, tx)
  | (.ok lockTxState, tx) =>
  if lockTxState ≠ .Constructed then
    (.ok (), tx.UpdateOnNextTip)
  else
    (.ok (), tx.SetNextState .BuildingUfoRefundTX)

/-- Part of `UpdateImpl`: `case State::BuildingUfoRefundTX` and
`case State::BuildingUfoRedeemTX`, which differ in the sub-tx and in the next
state. -/
def UpdateImpl.BuildingUfoWithdrawTX (env : Env F G) (tx : AtomicSwapTransaction F G)
    (subTxID : SubTxID) (next : State) :
    Except SwapException Unit × AtomicSwapTransaction F G :=
  match BuildUfoWithdrawTx env tx subTxID tx.m_WithdrawTx with
  | (.error e, tx) => (.error e, tx)
  | (.ok (subTxState, resultTx), tx) =>
  let tx := { tx with m_WithdrawTx := resultTx }
  if subTxState ≠ .Constructed then
    (.ok (), tx)
  else
    -- m_WithdrawTx.reset()
    let tx := { tx with m_WithdrawTx := none }
    (.ok (), tx.SetNextState next)

/-- Part of `UpdateImpl`: `case State::HandlingContractTX`. -/
def UpdateImpl.HandlingContractTX (env : Env F G) (tx : AtomicSwapTransaction F G)
    (isUfoOwner : Bool) : Except SwapException Unit × AtomicSwapTransaction F G :=
  if !isUfoOwner then
    match WrapperSecondSide.GetSecondSide env tx with
    | (.error e, tx) => (.error e, tx)
    | (.ok secondSide, tx) =>
    if !secondSide.HasEnoughTimeToProcessLockTx tx.params then
      (.ok (), OnFailed env tx .NotEnoughTimeToFinishBtcTx true)
    else
    if !secondSide.SendLockTx tx.params then
      (.ok (), tx)
    else
    let tx := SendExternalTxDetails env tx secondSide
    -- Ufo LockTx: switch to the state of awaiting for proofs
    let nCode := env.Ok
    let tx := tx.SetParameter .TransactionRegistered (.u8 nCode) .UFO_LOCK_TX
    (.ok (), tx.SetNextState .SendingUfoLockTX)
  else
    match WrapperSecondSide.GetSecondSide env tx with
    | (.error e, tx) => (.error e, tx)
    | (.ok secondSide, tx) =>
    if !secondSide.ConfirmLockTx tx.params then
      (.ok (), tx.UpdateOnNextTip)
    else
      (.ok (), tx.SetNextState .SendingUfoLockTX)

/-- Part of `UpdateImpl`: `case State::SendingRefundTX`. -/
def UpdateImpl.SendingRefundTX (env : Env F G) (tx : AtomicSwapTransaction F G)
    (isUfoOwner : Bool) : Except SwapException Unit × AtomicSwapTransaction F G :=
  -- assert(!isUfoOwner)
  let tx := if !isUfoOwner then tx else { tx with assertFailures := tx.assertFailures + 1 }
  match WrapperSecondSide.GetSecondSide env tx with
  | (.error e, tx) => (.error e, tx)
  | (.ok secondSide, tx) =>
  if !secondSide.IsLockTimeExpired tx.params then
    (.ok (), tx.UpdateOnNextTip)
  else
  if !secondSide.SendRefund tx.params then
    (.ok (), tx)
  else
  if !secondSide.ConfirmRefundTx tx.params then
    (.ok (), tx.UpdateOnNextTip)
  else
    (.ok (), tx.SetNextState .Refunded)

/-- Part of `UpdateImpl`: `case State::SendingRedeemTX`. -/
def UpdateImpl.SendingRedeemTX (env : Env F G) (tx : AtomicSwapTransaction F G)
    (isUfoOwner : Bool) : Except SwapException Unit × AtomicSwapTransaction F G :=
  -- assert(isUfoOwner)
  let tx := if isUfoOwner then tx else { tx with assertFailures := tx.assertFailures + 1 }
  match WrapperSecondSide.GetSecondSide env tx with
  | (.error e, tx) => (.error e, tx)
  | (.ok secondSide, tx) =>
  if !secondSide.SendRedeem tx.params then
    (.ok (), tx)
  else
  if !secondSide.ConfirmRedeemTx tx.params then
    (.ok (), tx.UpdateOnNextTip)
  else
    (.ok (), tx.SetNextState .CompleteSwap)

/-- Part of `UpdateImpl`, lines 433-436: on the native side the Lock transaction is
built again when `m_LockTx` is empty; the state `BuildUfoLockTx` returns is
dropped. -/
def UpdateImpl.lockBuild (env : Env F G) (tx : AtomicSwapTransaction F G)
    (isUfoOwner : Bool) : Except SwapException Unit × AtomicSwapTransaction F G :=
  if tx.m_LockTx.isNone && isUfoOwner then
    match BuildUfoLockTx env tx with
    | (.error e, tx) => (.error e, tx)
    | (.ok _, tx) => (.ok (), tx)
  else
    (.ok (), tx)

/-- Part of `UpdateImpl`, line 438: `m_LockTx && !SendSubTx(..)`; the result is
`false` when the case breaks here. -/
def UpdateImpl.lockSend (env : Env F G) (tx : AtomicSwapTransaction F G) :
    Bool × AtomicSwapTransaction F G :=
  match tx.m_LockTx with
  | some lockTx => SendSubTx env tx lockTx .UFO_LOCK_TX
  | none => (true, tx)

/-- Part of `UpdateImpl`, line 441: `!isUfoOwner && m_secondSide->IsLockTimeExpired()`;
the adapter is asked on the foreign side only. -/
def UpdateImpl.lockExpired (env : Env F G) (tx : AtomicSwapTransaction F G)
    (isUfoOwner : Bool) : Except SwapException Bool × AtomicSwapTransaction F G :=
  if !isUfoOwner then
    match WrapperSecondSide.GetSecondSide env tx with
    | (.error e, tx) => (.error e, tx)
    | (.ok secondSide, tx) => (.ok (secondSide.IsLockTimeExpired tx.params), tx)
  else
    (.ok false, tx)

/-- Part of `UpdateImpl`: `case State::SendingUfoLockTX`. -/
def UpdateImpl.SendingUfoLockTX (env : Env F G) (tx : AtomicSwapTransaction F G)
    (isUfoOwner : Bool) : Except SwapException Unit × AtomicSwapTransaction F G :=
  match UpdateImpl.lockBuild env tx isUfoOwner with
  | (.error e, tx) => (.error e, tx)
  | (.ok (), tx) =>
  match UpdateImpl.lockSend env tx with
  | (false, tx) => (.ok (), tx)
  | (true, tx) =>
  match UpdateImpl.lockExpired env tx isUfoOwner with
  | (.error e, tx) => (.error e, tx)
  | (.ok true, tx) => (.ok (), tx.SetNextState .SendingRefundTX)
  | (.ok false, tx) =>
  match CompleteSubTx tx .UFO_LOCK_TX with
  | (.error e, tx) => (.error e, tx)
  | (.ok false, tx) => (.ok (), tx)
  | (.ok true, tx) => (.ok (), tx.SetNextState .SendingUfoRedeemTX)

/-- Part of `UpdateImpl`, lines 474-481: the native side asks for the body of the
Redeem kernel and takes the secret out of it. -/
def UpdateImpl.extract (env : Env F G) (tx : AtomicSwapTransaction F G) :
    Except SwapException Unit × AtomicSwapTransaction F G :=
  -- request kernel body for getting secretPrivateKey
  match GetKernelFromChain tx .UFO_REDEEM_TX with
  | (.error e, tx) => (.error e, tx)
  | (.ok false, tx) => (.ok (), tx)
  | (.ok true, tx) =>
  match ExtractSecretPrivateKey env tx with
  | (.error e, tx) => (.error e, tx)
  | (.ok (), tx) =>
    -- Redeem second Coin
    (.ok (), tx.SetNextState .SendingRedeemTX)

/-- Part of `UpdateImpl`: `case State::SendingUfoRedeemTX`. -/
def UpdateImpl.SendingUfoRedeemTX (env : Env F G) (tx : AtomicSwapTransaction F G)
    (isUfoOwner : Bool) : Except SwapException Unit × AtomicSwapTransaction F G :=
  if isUfoOwner then
    let tx := tx.UpdateOnNextTip
    if IsUfoLockTimeExpired env tx then
      -- If we already got SecretPrivateKey for RedeemTx, don't send refundTx,
      -- because it looks like we got rollback and we just should rerun TX's.
      match (tx.GetParameter .AtomicSwapSecretPrivateKey .UFO_REDEEM_TX).bind
          Value.asScalar with
      | none => (.ok (), tx.SetNextState .SendingUfoRefundTX)
      | some _ => UpdateImpl.extract env tx
    else
      UpdateImpl.extract env tx
  else
    match CompleteUfoWithdrawTx env tx .UFO_REDEEM_TX with
    | (.error e, tx) => (.error e, tx)
    | (.ok false, tx) => (.ok (), tx)
    | (.ok true, tx) => (.ok (), tx.SetNextState .CompleteSwap)

/-- Part of `UpdateImpl`: `case State::SendingUfoRefundTX`. -/
def UpdateImpl.SendingUfoRefundTX (env : Env F G) (tx : AtomicSwapTransaction F G)
    (isUfoOwner : Bool) : Except SwapException Unit × AtomicSwapTransaction F G :=
  -- assert(isUfoOwner)
  let tx := if isUfoOwner then tx else { tx with assertFailures := tx.assertFailures + 1 }
  if !IsUfoLockTimeExpired env tx then
    (.ok (), tx.UpdateOnNextTip)
  else
  match CompleteUfoWithdrawTx env tx .UFO_REFUND_TX with
  | (.error e, tx) => (.error e, tx)
  | (.ok false, tx) => (.ok (), tx)
  | (.ok true, tx) => (.ok (), tx.SetNextState .Refunded)

/-- Part of `UpdateImpl`: `case State::CompleteSwap`. -/
def UpdateImpl.CompleteSwap (tx : AtomicSwapTransaction F G) : AtomicSwapTransaction F G :=
  (tx.UpdateTxDescription .Completed).call .on_tx_completed

/-- Part of `UpdateImpl`: `case State::Canceled`. -/
def UpdateImpl.Canceled (env : Env F G) (tx : AtomicSwapTransaction F G) :
    AtomicSwapTransaction F G :=
  let tx := NotifyFailure env tx .Canceled
  let tx := tx.UpdateTxDescription .Canceled
  let tx := tx.RollbackTx
  tx.call .on_tx_completed

/-- Part of `UpdateImpl`: `case State::Failed`. The read of `FailureReason` only
chooses the line of the log. -/
def UpdateImpl.Failed (tx : AtomicSwapTransaction F G) : AtomicSwapTransaction F G :=
  (tx.UpdateTxDescription .Failed).call .on_tx_completed

/-- Part of `UpdateImpl`: `case State::Refunded`. -/
def UpdateImpl.Refunded (tx : AtomicSwapTransaction F G) : AtomicSwapTransaction F G :=
  (tx.UpdateTxDescription .Failed).call .on_tx_completed

/-- The `try` block of `UpdateImpl`. The state is read after `CheckSubTxFailures`. -/
def UpdateImpl.body (env : Env F G) (tx : AtomicSwapTransaction F G) :
    Except SwapException Unit × AtomicSwapTransaction F G :=
  let tx := CheckSubTxFailures env tx
  let state := tx.GetState kDefaultSubTxID
  let isUfoOwner := tx.IsUfoSide.1
  let tx := tx.IsUfoSide.2
  match state with
  | .Initial => UpdateImpl.Initial env tx
  | .BuildingUfoLockTX => UpdateImpl.BuildingUfoLockTX env tx
  | .BuildingUfoRefundTX =>
    UpdateImpl.BuildingUfoWithdrawTX env tx .UFO_REFUND_TX .BuildingUfoRedeemTX
  | .BuildingUfoRedeemTX =>
    UpdateImpl.BuildingUfoWithdrawTX env tx .UFO_REDEEM_TX .HandlingContractTX
  | .HandlingContractTX => UpdateImpl.HandlingContractTX env tx isUfoOwner
  | .SendingRefundTX => UpdateImpl.SendingRefundTX env tx isUfoOwner
  | .SendingRedeemTX => UpdateImpl.SendingRedeemTX env tx isUfoOwner
  | .SendingUfoLockTX => UpdateImpl.SendingUfoLockTX env tx isUfoOwner
  | .SendingUfoRedeemTX => UpdateImpl.SendingUfoRedeemTX env tx isUfoOwner
  | .SendingUfoRefundTX => UpdateImpl.SendingUfoRefundTX env tx isUfoOwner
  | .CompleteSwap => (.ok (), UpdateImpl.CompleteSwap tx)
  | .Canceled => (.ok (), UpdateImpl.Canceled env tx)
  | .Failed => (.ok (), UpdateImpl.Failed tx)
  | .Refunded => (.ok (), UpdateImpl.Refunded tx)

/-- Method `AtomicSwapTransaction::UpdateImpl`: one turn. `UninitilizedSecondSide` is
caught and dropped; any other exception leaves the method. -/
def UpdateImpl (env : Env F G) (tx : AtomicSwapTransaction F G) :
    Except SwapException Unit × AtomicSwapTransaction F G :=
  match UpdateImpl.body env tx with
  | (.error .UninitilizedSecondSide, tx) => (.ok (), tx)
  | (r, tx) => (r, tx)

end Turn

end AtomicSwapTransaction

/-! ## Predicates on the trace of messages -/

namespace AtomicSwapTransaction

variable {F G : Type}

/-- The message does not carry the parameter id `AtomicSwapSecretPrivateKey`. -/
def OmitsSecret (msg : SetTxParameter F G) : Prop :=
  TxParameterID.AtomicSwapSecretPrivateKey ∉ msg.ids

/-- From `before` to `after` the outbox only grew, and every message handed to
`SendTxParameters` in between satisfies `P`. -/
def OnlySent (P : SetTxParameter F G → Prop) (before after : AtomicSwapTransaction F G) :
    Prop :=
  ∃ new : List (SetTxParameter F G × Bool),
    after.outbox = new ++ before.outbox ∧ ∀ m ∈ new, P m.1

/-- From `before` to `after` exactly one message was handed to
`SendTxParameters`, and it satisfies `P`. -/
def SentOne (P : SetTxParameter F G → Prop) (before after : AtomicSwapTransaction F G) :
    Prop :=
  ∃ (msg : SetTxParameter F G) (ok : Bool),
    after.outbox = (msg, ok) :: before.outbox ∧ P msg

/-- The object `OnFailed` switches on: after the optional notification, the
write of `InternalFailureReason` and the call of `IsUfoSide`. -/
def OnFailed.entry (env : Env F G) (tx : AtomicSwapTransaction F G)
    (reason : TxFailureReason) (notify : Bool) : AtomicSwapTransaction F G :=
  (((if notify then NotifyFailure env tx reason else tx).SetParameter
    .InternalFailureReason (.reason reason)).IsUfoSide).2

/-- The top state `OnFailed` moves the swap to, if it moves it. -/
def OnFailed.next (state : State) (isUfoSide : Bool) : Option State :=
  match state with
  | .Initial
  | .BuildingUfoLockTX
  | .BuildingUfoRedeemTX
  | .BuildingUfoRefundTX
  | .HandlingContractTX => some .Failed
  | .SendingUfoLockTX => if isUfoSide then some .Failed else some .SendingRefundTX
  | .SendingUfoRedeemTX => if isUfoSide then none else some .SendingRefundTX
  | _ => none

/-- From `before` to `after` no call was made on the gateway or on the wallet,
the top-level parameters other than `InternalFailureReason`, `Status` and
`State` are as they were, and the top state is as it was or is `Failed` or
`SendingRefundTX`. -/
def Quiet (before after : AtomicSwapTransaction F G) : Prop :=
  after.calls = before.calls
  ∧ (∀ id : TxParameterID, id ≠ .InternalFailureReason → id ≠ .Status → id ≠ .State →
      after.params kDefaultSubTxID id = before.params kDefaultSubTxID id)
  ∧ (after.GetState kDefaultSubTxID = before.GetState kDefaultSubTxID
      ∨ after.GetState kDefaultSubTxID = .Failed
      ∨ after.GetState kDefaultSubTxID = .SendingRefundTX)

/-- The parameters were produced by `InitNewSwap`, optionally followed by
`AcceptSwapParameters`. -/
def producedByInitNewSwap (parameters : TxParameters F G) : Prop :=
  ∃ (createTime : Nat) (myID : ByteBuffer) (minHeight amount fee swapCoin swapAmount : Nat)
    (isUfoSide : Bool) (lifetime responseTime : Nat),
    parameters = InitNewSwap createTime myID minHeight amount fee swapCoin swapAmount
      isUfoSide lifetime responseTime
    ∨ ∃ acceptorID : ByteBuffer,
      AcceptSwapParameters (InitNewSwap createTime myID minHeight amount fee swapCoin
        swapAmount isUfoSide lifetime responseTime) acceptorID = some parameters

/-- The turn that starts here asks the adapter of the second side: it starts in
`Initial` or `HandlingContractTX` with no failure recorded for the foreign
lock, in `SendingRefundTX`, in `SendingRedeemTX`, or on the foreign side in
`SendingUfoLockTX` (where `m_LockTx` is empty). -/
def consultsSecondSide (tx : AtomicSwapTransaction F G) : Prop :=
  ((tx.GetState kDefaultSubTxID = .Initial ∨ tx.GetState kDefaultSubTxID = .HandlingContractTX)
    ∧ (tx.GetParameter .InternalFailureReason .LOCK_TX).bind Value.asReason = none)
  ∨ tx.GetState kDefaultSubTxID = .SendingRefundTX
  ∨ tx.GetState kDefaultSubTxID = .SendingRedeemTX
  ∨ (tx.GetState kDefaultSubTxID = .SendingUfoLockTX ∧ tx.IsUfoSide.1 = false
    ∧ tx.m_LockTx = none)

/-- The call hands a Redeem or a Refund transaction to the gateway. -/
def registersWithdraw : Call → Prop
  | .register_tx _ subTxID => subTxID = .UFO_REDEEM_TX ∨ subTxID = .UFO_REFUND_TX
  | _ => False

/-- From `before` to `after` the trace of calls only grew, and every call made
in between satisfies `P`. -/
def OnlyCalled (P : Call → Prop) (before after : AtomicSwapTransaction F G) : Prop :=
  ∃ new : List Call, after.calls = new ++ before.calls ∧ ∀ c ∈ new, P c

/-- The parameter ids that the store of a swap under way holds. -/
def storedIds : List TxParameterID :=
  [.MinHeight, .PeerResponseHeight, .Fee, .Amount, .AtomicSwapAmount, .AtomicSwapIsUfoSide,
    .IsSender, .IsInitiator, .MyID]

/-- The terminal states in the words of the spec: `CompleteSwap`, `Canceled`,
`Failed` and `Refunded`. -/
def isTerminal (state : State) : Prop :=
  state = .CompleteSwap ∨ state = .Canceled ∨ state = .Failed ∨ state = .Refunded

/-- The parameter ids that `AcceptSwapParameters` writes. -/
def acceptedIds : List TxParameterID :=
  [.PeerID, .MyID, .IsSender, .AtomicSwapIsUfoSide, .IsInitiator]

end AtomicSwapTransaction

/-! ## Concrete swaps used to evaluate the definitions -/

namespace Example

open AtomicSwapTransaction

/-- A swap over the integers with an empty store and no trace. -/
def blank : AtomicSwapTransaction Int Int :=
  { params := fun _ _ => none
    m_IsUfoSide := none
    m_IsSender := none
    m_Amount := none
    m_LockTx := none
    m_WithdrawTx := none
    m_secondSide := none
    outbox := []
    rollbacks := 0
    asyncUpdates := 0
    tipUpdates := 0
    assertFailures := 0
    calls := [] }

/-- A swap in the given top state on the given side. -/
def swapIn (state : State) (isUfoSide : Bool) : AtomicSwapTransaction Int Int :=
  (blank.SetParameter .AtomicSwapIsUfoSide (.bool isUfoSide)).SetState (.state state)

/-- A shared builder that leaves the store alone. It holds the nonce `5` and
the excess `3`, its partial signature is `-(5 + 15 * 3) = -50`, and it finds the
peer's data when the store has them. -/
def builder (subTxID : SubTxID) (amount fee : Nat) : SharedTxBuilder Int Int :=
  { GetSubTxID := subTxID
    GetAmount := amount
    GetFee := fee
    GetSharedParameters := fun _ => true
    GetInitialTxParams := fun _ => true
    InitTx := fun _ p => p
    GenerateNonce := fun p => p
    CreateKernel := fun p => p
    GetPeerPublicExcessAndNonce := fun p =>
      (p subTxID .PeerPublicExcess).isSome && (p subTxID .PeerPublicNonce).isSome
    SignPartial := fun p => p
    GetPeerSignature := fun p => (p subTxID .PeerSignature).isSome
    IsPeerSignatureValid := fun _ => true
    FinalizeSignature := fun p => p
    CreateTransaction := fun _ => []
    GetMinHeight := fun _ => 0
    GetPublicExcess := fun _ => 3
    GetPublicNonce := fun _ => 5
    GetPartialSignature := fun _ => -50
    GetOffset := fun _ => 0
    GetKernelHash := fun _ => [1, 2, 3] }

/-- A lock builder that leaves the store alone. It finds the peer's data when
the store has them, and the only peer signature it accepts is `-37`. -/
def lockBuilder (amount fee : Nat) : LockTxBuilder Int Int :=
  { GetInitialTxParams := fun _ => true
    SelectInputs := fun p => p
    AddChange := fun p => p
    GenerateOffset := fun p => p
    CreateInputs := fun p => p
    CreateOutputs := fun p => (false, p)
    GenerateNonce := fun p => p
    LoadSharedParameters := fun p => p
    UpdateMaxHeight := fun p => (true, p)
    GetPeerPublicExcessAndNonce := fun p =>
      (p .UFO_LOCK_TX .PeerPublicExcess).isSome && (p .UFO_LOCK_TX .PeerPublicNonce).isSome
    CreateKernel := fun p => p
    SignPartial := fun p => p
    CreateSharedUTXOProofPart2 := fun _ p => (true, p)
    CreateSharedUTXOProofPart3 := fun _ p => (true, p)
    GetPeerSignature := fun p => (p .UFO_LOCK_TX .PeerSignature).isSome
    IsPeerSignatureValid := fun p =>
      decide (p .UFO_LOCK_TX .PeerSignature = some (.scalar (-37)))
    FinalizeSignature := fun p => p
    CreateTransaction := fun _ => [amount, fee]
    GetMinHeight := fun _ => 0
    GetFee := fee
    GetMaxHeight := fun _ => 1000
    GetPublicExcess := fun _ => 3
    GetPublicNonce := fun _ => 5
    GetPartialSignature := fun _ => -50
    GetOffset := fun _ => 0
    GetRangeProofInitialPart2 := fun _ => [2]
    GetSharedProofPart3 := fun _ => [3]
    GetPublicSharedBlindingFactor := fun _ => 11 }

/-- A foreign side adapter that is always ready: every capability answers
`true`, and the lock time it chooses is `1000`. -/
def secondSide : SecondSide Int Int :=
  { Initialize := fun _ => true
    InitLockTime := fun _ => 1000
    ValidateLockTime := fun _ => true
    HasEnoughTimeToProcessLockTx := fun _ => true
    SendLockTx := fun _ => true
    ConfirmLockTx := fun _ => true
    IsLockTimeExpired := fun _ => false
    SendRefund := fun _ => true
    ConfirmRefundTx := fun _ => true
    SendRedeem := fun _ => true
    ConfirmRedeemTx := fun _ => true
    AddTxDetails := fun _ msg => msg.AddParameter (.Other 0) (.bytes [7]) }

/-- The integers as the group, generated by `1`; every message is delivered;
the challenge for the nonce `5 + 7` and the hash `[1, 2, 3]` is `15`. The
factory of coin `0` gives the adapter `secondSide`, the factory of coin `1`
gives no adapter, and no other coin has a factory. -/
def env : Env Int Int :=
  { SharedTxBuilder := builder
    LockTxBuilder := lockBuilder
    m_factories := fun coin =>
      if coin = 0 then some (fun _ _ => some secondSide)
      else if coin = 1 then some (fun _ _ => none)
      else none
    sendOk := fun _ _ => true
    challenge := fun p m => p + m.length
    generator := 1
    IsValid := fun _ _ => true
    kMinFeeInGroth := 100
    s_ProtoVersion := 4
    tip := some 151
    kUfoLockTimeInBlocks := 720
    Ok := 1
    InvalidContext := 2 }

/-- A native-side swap building its Redeem sub-tx. The peer has the nonce `7`
and the excess `2`, so its partial signature is `-(7 + 15 * 2) = -37`; it sent
`-37 + 9`, the secret being `9`. The store already holds another secret public
key, `4`, for the Redeem sub-tx. -/
def redeemNative : AtomicSwapTransaction Int Int :=
  (((((((swapIn .BuildingUfoRedeemTX true).SetParameter
    .Amount (.u64 1000) .UFO_REDEEM_TX).SetParameter
    .Fee (.u64 100) .UFO_REDEEM_TX).SetParameter
    .PeerPublicNonce (.point 7) .UFO_REDEEM_TX).SetParameter
    .PeerPublicExcess (.point 2) .UFO_REDEEM_TX).SetParameter
    .PeerSignature (.scalar (-37 + 9)) .UFO_REDEEM_TX).SetParameter
    .AtomicSwapSecretPublicKey (.point 4) .UFO_REDEEM_TX)

/-- The native-side swap after the peer published the Redeem kernel, signed
with `-50 + -37`. -/
def redeemPublished : AtomicSwapTransaction Int Int :=
  ((swapIn .SendingUfoRedeemTX true).SetParameter
    .PeerSignature (.scalar (-37 + 9)) .UFO_REDEEM_TX).SetParameter
    .Kernel (.kernel ⟨5, ⟨12, -50 + -37⟩, 100⟩) .UFO_REDEEM_TX

/-- A swap in the given top state on the given side to which the peer reported
the failure `Canceled`. -/
def peerFailed (state : State) (isUfoSide : Bool) : AtomicSwapTransaction Int Int :=
  (swapIn state isUfoSide).SetParameter .FailureReason (.reason .Canceled)

/-- A native-side swap that was refunded: the Lock kernel was proved at height
`100` and the Refund kernel at height `500`. -/
def nativeRefunded : AtomicSwapTransaction Int Int :=
  ((((swapIn .Refunded true).SetParameter
    .KernelProofHeight (.u64 100) .UFO_LOCK_TX).SetParameter
    .KernelUnconfirmedHeight (.u64 99) .UFO_LOCK_TX).SetParameter
    .KernelProofHeight (.u64 500) .UFO_REFUND_TX).SetParameter
    .KernelUnconfirmedHeight (.u64 499) .UFO_REFUND_TX

/-- A foreign-side swap that completed: the Lock kernel was proved at height
`100` and the Redeem kernel at height `120`. -/
def foreignRedeemed : AtomicSwapTransaction Int Int :=
  ((((swapIn .CompleteSwap false).SetParameter
    .KernelProofHeight (.u64 100) .UFO_LOCK_TX).SetParameter
    .KernelUnconfirmedHeight (.u64 99) .UFO_LOCK_TX).SetParameter
    .KernelProofHeight (.u64 120) .UFO_REDEEM_TX).SetParameter
    .KernelUnconfirmedHeight (.u64 119) .UFO_REDEEM_TX

/-- A native-side swap waiting in `HandlingContractTX` for the foreign lock, with
`PeerResponseHeight = 150` and nothing recorded for the Lock sub-tx. -/
def waiting : AtomicSwapTransaction Int Int :=
  (swapIn .HandlingContractTX true).SetParameter .PeerResponseHeight (.u64 150)

/-- The collaborators of `env` with a transport that takes no message. -/
def offline : Env Int Int :=
  { env with sendOk := fun _ _ => false }

/-- A foreign-side swap in `SendingUfoRedeemTX` whose Redeem transaction the node
answered with `InvalidContext` (code `2`), the Redeem kernel being recorded
unconfirmed at height `10`. Nothing is recorded for the default sub-tx. -/
def redeemRejected : AtomicSwapTransaction Int Int :=
  ((swapIn .SendingUfoRedeemTX false).SetParameter
    .TransactionRegistered (.u8 2) .UFO_REDEEM_TX).SetParameter
    .KernelUnconfirmedHeight (.u64 10) .UFO_REDEEM_TX

/-- A swap in the given state and side whose node answered the registration of
the sub-tx with the code `7`, which is neither `Ok` nor `InvalidContext`. -/
def refused (state : State) (isUfoSide : Bool) (subTxID : SubTxID) :
    AtomicSwapTransaction Int Int :=
  (swapIn state isUfoSide).SetParameter .TransactionRegistered (.u8 7) subTxID

/-- The parameters `InitNewSwap` gives for a native-side offer of `1000` for
`5` of coin `0`, from height `100`, with `50` blocks for the answer. -/
def offer : TxParameters Int Int :=
  InitNewSwap 0 [1] 100 1000 100 0 5 true 720 50

/-- The swap of the party that accepted `offer`, in `Initial`, with its public
key of the foreign chain. -/
def acceptor : AtomicSwapTransaction Int Int :=
  ({ blank with params := (AcceptSwapParameters offer [2]).getD offer }).SetParameter
    .AtomicSwapPublicKey (.bytes [9])

/-- A native-side swap in `BuildingUfoLockTX` whose Lock sub-tx is in
`Invitation` and holds the peer's excess, nonce and signature `sig`. -/
def lockSigned (sig : Int) : AtomicSwapTransaction Int Int :=
  ((((((swapIn .BuildingUfoLockTX true).SetParameter .Amount (.u64 1000)).SetParameter
    .Fee (.u64 100) .UFO_LOCK_TX).SetState (.subTxState .Invitation) .UFO_LOCK_TX).SetParameter
    .PeerPublicExcess (.point 2) .UFO_LOCK_TX).SetParameter
    .PeerPublicNonce (.point 7) .UFO_LOCK_TX).SetParameter
    .PeerSignature (.scalar sig) .UFO_LOCK_TX

/-- The collaborators of `Example.env` with a provider of the second side that
gives no adapter for any coin. -/
def unready : Env Int Int :=
  { env with m_factories := fun _ => some (fun _ _ => none) }

/-- A foreign-side swap for coin `0` in the given top state. -/
def foreignSwap (state : State) : AtomicSwapTransaction Int Int :=
  (swapIn state false).SetParameter .AtomicSwapCoin (.coin 0)

/-- A native-side swap of the amount `50`, below the withdraw fee `100` of
`Example.env`, in `BuildingUfoRefundTX`. -/
def smallSwap : AtomicSwapTransaction Int Int :=
  (swapIn .BuildingUfoRefundTX true).SetParameter .Amount (.u64 50)

end Example

/-! ## Lemmas on the store -/

namespace AtomicSwapTransaction

variable {F G : Type}

theorem GetState_SetNextState (tx : AtomicSwapTransaction F G) (s : State) :
    (tx.SetNextState s).GetState kDefaultSubTxID = s := by
  simp [SetNextState, SetState, SetParameter, UpdateAsync, GetState, GetParameter,
    Value.asState]

theorem GetState_IsUfoSide (tx : AtomicSwapTransaction F G) (sub : SubTxID) :
    tx.IsUfoSide.2.GetState sub = tx.GetState sub := by
  unfold IsUfoSide
  cases tx.m_IsUfoSide <;> rfl

theorem params_IsUfoSide (tx : AtomicSwapTransaction F G) :
    tx.IsUfoSide.2.params = tx.params := by
  unfold IsUfoSide
  cases tx.m_IsUfoSide <;> rfl

/-! ## Cancellation -/

/-- C5. In `Initial`, `BuildingUfoLockTX`, `BuildingUfoRedeemTX` and
`BuildingUfoRefundTX`, on either side, `Cancel` sets the top state to
`Canceled`. -/
theorem Cancel_before_contract (tx : AtomicSwapTransaction F G)
    (h : tx.GetState kDefaultSubTxID = .Initial
      ∨ tx.GetState kDefaultSubTxID = .BuildingUfoLockTX
      ∨ tx.GetState kDefaultSubTxID = .BuildingUfoRedeemTX
      ∨ tx.GetState kDefaultSubTxID = .BuildingUfoRefundTX) :
    tx.Cancel.GetState kDefaultSubTxID = .Canceled := by
  unfold Cancel
  rcases h with h | h | h | h <;> simp only [h] <;> exact GetState_SetNextState _ _

/-- Witness of C5: both sides, in `BuildingUfoRedeemTX`. -/
theorem Cancel_before_contract_witness :
    (Example.swapIn .BuildingUfoRedeemTX false).Cancel.GetState kDefaultSubTxID = .Canceled
    ∧ (Example.swapIn .BuildingUfoRedeemTX true).Cancel.GetState kDefaultSubTxID
        = .Canceled :=
  ⟨Cancel_before_contract _ (Or.inr (Or.inr (Or.inl rfl))),
   Cancel_before_contract _ (Or.inr (Or.inr (Or.inl rfl)))⟩

/-- C6, as stated, fails: a foreign-side swap (`IsUfoSide()` false) in
`HandlingContractTX` is still in `HandlingContractTX` after `Cancel`. -/
theorem Cancel_foreign_not_honored_counterexample :
    (Example.swapIn .HandlingContractTX false).GetState kDefaultSubTxID = .HandlingContractTX
    ∧ (Example.swapIn .HandlingContractTX false).IsUfoSide.1 = false
    ∧ (Example.swapIn .HandlingContractTX false).Cancel.GetState kDefaultSubTxID
        ≠ .Canceled := by
  refine ⟨rfl, rfl, ?_⟩
  decide

/-- C6, amended. In `HandlingContractTX`, `Cancel` is honored on the native
side (`IsUfoSide()` true): the top state becomes `Canceled`. -/
theorem Cancel_honored_on_native_side (tx : AtomicSwapTransaction F G)
    (hstate : tx.GetState kDefaultSubTxID = .HandlingContractTX)
    (hside : tx.IsUfoSide.1 = true) :
    tx.Cancel.GetState kDefaultSubTxID = .Canceled := by
  unfold Cancel
  simp only [hstate, hside]
  exact GetState_SetNextState _ _

/-- Witness of the amended C6. -/
theorem Cancel_honored_on_native_side_witness :
    (Example.swapIn .HandlingContractTX true).Cancel.GetState kDefaultSubTxID = .Canceled :=
  Cancel_honored_on_native_side (Example.swapIn .HandlingContractTX true) rfl rfl

/-- C7, as stated, fails: a native-side swap (`IsUfoSide()` true) in
`HandlingContractTX` is moved to `Canceled` by `Cancel`, and its parameter
`State` changes. -/
theorem Cancel_native_not_ignored_counterexample :
    (Example.swapIn .HandlingContractTX true).GetState kDefaultSubTxID = .HandlingContractTX
    ∧ (Example.swapIn .HandlingContractTX true).IsUfoSide.1 = true
    ∧ (Example.swapIn .HandlingContractTX true).Cancel.GetState kDefaultSubTxID
        ≠ .HandlingContractTX
    ∧ (Example.swapIn .HandlingContractTX true).Cancel.params
        ≠ (Example.swapIn .HandlingContractTX true).params := by
  refine ⟨rfl, rfl, by decide, fun h => ?_⟩
  have h2 := congrFun (congrFun h kDefaultSubTxID) TxParameterID.State
  simp [Cancel, Example.swapIn, Example.blank, GetState, GetParameter, SetState,
    SetParameter, SetNextState, UpdateAsync, IsUfoSide, Value.asState, Value.asBool,
    kDefaultSubTxID] at h2

/-- C7, amended. In `HandlingContractTX`, `Cancel` is ignored on the foreign
side (`IsUfoSide()` false): the top state stays `HandlingContractTX`, the
parameter store is unchanged, no message is sent, nothing is rolled back and
no update is scheduled. -/
theorem Cancel_ignored_on_foreign_side (tx : AtomicSwapTransaction F G)
    (hstate : tx.GetState kDefaultSubTxID = .HandlingContractTX)
    (hside : tx.IsUfoSide.1 = false) :
    tx.Cancel.GetState kDefaultSubTxID = .HandlingContractTX
    ∧ tx.Cancel.params = tx.params
    ∧ tx.Cancel.outbox = tx.outbox
    ∧ tx.Cancel.rollbacks = tx.rollbacks
    ∧ tx.Cancel.asyncUpdates = tx.asyncUpdates := by
  have hc : tx.Cancel = tx.IsUfoSide.2 := by
    unfold Cancel
    simp only [hstate, hside]
    rfl
  rw [hc, GetState_IsUfoSide, params_IsUfoSide]
  refine ⟨hstate, rfl, ?_, ?_, ?_⟩ <;>
  · unfold IsUfoSide
    cases tx.m_IsUfoSide <;> rfl

/-- Witness of the amended C7. -/
theorem Cancel_ignored_on_foreign_side_witness :
    (Example.swapIn .HandlingContractTX false).Cancel.GetState kDefaultSubTxID
      = .HandlingContractTX
    ∧ (Example.swapIn .HandlingContractTX false).Cancel.params
      = (Example.swapIn .HandlingContractTX false).params
    ∧ (Example.swapIn .HandlingContractTX false).Cancel.outbox
      = (Example.swapIn .HandlingContractTX false).outbox
    ∧ (Example.swapIn .HandlingContractTX false).Cancel.rollbacks
      = (Example.swapIn .HandlingContractTX false).rollbacks
    ∧ (Example.swapIn .HandlingContractTX false).Cancel.asyncUpdates
      = (Example.swapIn .HandlingContractTX false).asyncUpdates :=
  Cancel_ignored_on_foreign_side (Example.swapIn .HandlingContractTX false) rfl rfl

/-- C8. In every top state other than `Initial`, `BuildingUfoLockTX`,
`BuildingUfoRedeemTX`, `BuildingUfoRefundTX` and `HandlingContractTX`, on
either side, `Cancel` changes nothing: the whole object, and so the top state
and the parameter store, is as before. -/
theorem Cancel_after_contract (tx : AtomicSwapTransaction F G)
    (h1 : tx.GetState kDefaultSubTxID ≠ .Initial)
    (h2 : tx.GetState kDefaultSubTxID ≠ .BuildingUfoLockTX)
    (h3 : tx.GetState kDefaultSubTxID ≠ .BuildingUfoRedeemTX)
    (h4 : tx.GetState kDefaultSubTxID ≠ .BuildingUfoRefundTX)
    (h5 : tx.GetState kDefaultSubTxID ≠ .HandlingContractTX) :
    tx.Cancel = tx
    ∧ tx.Cancel.GetState kDefaultSubTxID = tx.GetState kDefaultSubTxID
    ∧ tx.Cancel.params = tx.params := by
  have hc : tx.Cancel = tx := by
    unfold Cancel
    cases hs : tx.GetState kDefaultSubTxID <;> simp_all
  rw [hc]
  exact ⟨rfl, rfl, rfl⟩

/-- Witness of C8: a native-side swap in `SendingUfoLockTX`. -/
theorem Cancel_after_contract_witness :
    (Example.swapIn .SendingUfoLockTX true).Cancel = Example.swapIn .SendingUfoLockTX true
    ∧ (Example.swapIn .SendingUfoLockTX true).Cancel.GetState kDefaultSubTxID
        = (Example.swapIn .SendingUfoLockTX true).GetState kDefaultSubTxID
    ∧ (Example.swapIn .SendingUfoLockTX true).Cancel.params
        = (Example.swapIn .SendingUfoLockTX true).params :=
  Cancel_after_contract (Example.swapIn .SendingUfoLockTX true)
    (by decide) (by decide) (by decide) (by decide) (by decide)

/-! ## Failure classification -/

theorem OnFailed.entry_GetState (env : Env F G) (tx : AtomicSwapTransaction F G)
    (reason : TxFailureReason) (notify : Bool) (sub : SubTxID) :
    (OnFailed.entry env tx reason notify).GetState sub = tx.GetState sub := by
  unfold OnFailed.entry
  rw [GetState_IsUfoSide]
  cases notify <;>
    simp [NotifyFailure, SendTxParameters, SetParameter, GetState, GetParameter]

theorem OnFailed.entry_rollbacks (env : Env F G) (tx : AtomicSwapTransaction F G)
    (reason : TxFailureReason) (notify : Bool) :
    (OnFailed.entry env tx reason notify).rollbacks = tx.rollbacks := by
  unfold OnFailed.entry IsUfoSide
  cases notify <;> cases h : tx.m_IsUfoSide <;>
    simp [NotifyFailure, SendTxParameters, SetParameter, h]

theorem OnFailed.entry_side (env : Env F G) (tx : AtomicSwapTransaction F G)
    (reason : TxFailureReason) (notify : Bool) :
    (((if notify then NotifyFailure env tx reason else tx).SetParameter
      .InternalFailureReason (.reason reason)).IsUfoSide).1 = tx.IsUfoSide.1 := by
  unfold IsUfoSide
  cases notify <;> cases h : tx.m_IsUfoSide <;>
    simp [NotifyFailure, SendTxParameters, SetParameter, GetParameter, h]

theorem OnFailed.entry_state (env : Env F G) (tx : AtomicSwapTransaction F G)
    (reason : TxFailureReason) (notify : Bool) :
    ((if notify then NotifyFailure env tx reason else tx).SetParameter
      .InternalFailureReason (.reason reason)).GetState kDefaultSubTxID
      = tx.GetState kDefaultSubTxID := by
  cases notify <;>
    simp [NotifyFailure, SendTxParameters, SetParameter, GetState, GetParameter]

theorem GetState_RollbackTx_SetNextState (tx : AtomicSwapTransaction F G) (s : State) :
    (tx.RollbackTx.SetNextState s).GetState kDefaultSubTxID = s :=
  GetState_SetNextState _ _

theorem rollbacks_SetNextState (tx : AtomicSwapTransaction F G) (s : State) :
    (tx.SetNextState s).rollbacks = tx.rollbacks := rfl

/-- What `OnFailed` does, case by case, in terms of `OnFailed.entry`. -/
theorem OnFailed_eq (env : Env F G) (tx : AtomicSwapTransaction F G)
    (reason : TxFailureReason) (notify : Bool) :
    OnFailed env tx reason notify =
      match tx.GetState kDefaultSubTxID with
      | .Initial => (OnFailed.entry env tx reason notify).SetNextState .Failed
      | .BuildingUfoLockTX
      | .BuildingUfoRedeemTX
      | .BuildingUfoRefundTX
      | .HandlingContractTX =>
        (OnFailed.entry env tx reason notify).RollbackTx.SetNextState .Failed
      | .SendingUfoLockTX =>
        if tx.IsUfoSide.1 then
          (OnFailed.entry env tx reason notify).RollbackTx.SetNextState .Failed
        else (OnFailed.entry env tx reason notify).SetNextState .SendingRefundTX
      | .SendingUfoRedeemTX =>
        if tx.IsUfoSide.1 then
          { OnFailed.entry env tx reason notify with
            assertFailures := (OnFailed.entry env tx reason notify).assertFailures + 1 }
        else (OnFailed.entry env tx reason notify).SetNextState .SendingRefundTX
      | .SendingRedeemTX =>
        if tx.IsUfoSide.1 then OnFailed.entry env tx reason notify
        else
          { OnFailed.entry env tx reason notify with
            assertFailures := (OnFailed.entry env tx reason notify).assertFailures + 1 }
      | _ => OnFailed.entry env tx reason notify := by
  unfold OnFailed
  simp only [OnFailed.entry_state, OnFailed.entry_side]
  cases tx.GetState kDefaultSubTxID <;> rfl

/-- C9. For every reason, notify flag and side: in `Initial`, `OnFailed` sets
the top state to `Failed` and does not call `RollbackTx`; in
`BuildingUfoLockTX`, `BuildingUfoRedeemTX`, `BuildingUfoRefundTX` and
`HandlingContractTX` it calls `RollbackTx` once and sets the top state to
`Failed`. -/
theorem OnFailed_before_lock (env : Env F G) (tx : AtomicSwapTransaction F G)
    (reason : TxFailureReason) (notify : Bool)
    (h : tx.GetState kDefaultSubTxID = .Initial
      ∨ tx.GetState kDefaultSubTxID = .BuildingUfoLockTX
      ∨ tx.GetState kDefaultSubTxID = .BuildingUfoRedeemTX
      ∨ tx.GetState kDefaultSubTxID = .BuildingUfoRefundTX
      ∨ tx.GetState kDefaultSubTxID = .HandlingContractTX) :
    (OnFailed env tx reason notify).GetState kDefaultSubTxID = .Failed
    ∧ (OnFailed env tx reason notify).rollbacks
        = if tx.GetState kDefaultSubTxID = .Initial then tx.rollbacks
          else tx.rollbacks + 1 := by
  rw [OnFailed_eq]
  rcases h with h | h | h | h | h <;> simp only [h] <;>
    refine ⟨GetState_SetNextState _ _, ?_⟩ <;>
    simp [rollbacks_SetNextState, RollbackTx, OnFailed.entry_rollbacks]

/-- Witness of C9: a foreign-side swap in `Initial` and a native-side swap in
`HandlingContractTX`, with and without notification. -/
theorem OnFailed_before_lock_witness :
    ((OnFailed Example.env (Example.swapIn .Initial false) .Canceled true).GetState
        kDefaultSubTxID = .Failed
      ∧ (OnFailed Example.env (Example.swapIn .Initial false) .Canceled true).rollbacks = 0)
    ∧ ((OnFailed Example.env (Example.swapIn .HandlingContractTX true)
          .TransactionExpired false).GetState kDefaultSubTxID = .Failed
      ∧ (OnFailed Example.env (Example.swapIn .HandlingContractTX true)
          .TransactionExpired false).rollbacks = 1) :=
  ⟨OnFailed_before_lock Example.env (Example.swapIn .Initial false) .Canceled true
      (Or.inl rfl),
   OnFailed_before_lock Example.env (Example.swapIn .HandlingContractTX true)
      .TransactionExpired false (Or.inr (Or.inr (Or.inr (Or.inr rfl))))⟩

/-- C10. For every reason and notify flag, `OnFailed` on a native-side swap
(`IsUfoSide()` true) in `SendingUfoLockTX` calls `RollbackTx` once and sets
the top state to `Failed`. -/
theorem OnFailed_SendingUfoLockTX_native (env : Env F G) (tx : AtomicSwapTransaction F G)
    (reason : TxFailureReason) (notify : Bool)
    (hstate : tx.GetState kDefaultSubTxID = .SendingUfoLockTX)
    (hside : tx.IsUfoSide.1 = true) :
    (OnFailed env tx reason notify).GetState kDefaultSubTxID = .Failed
    ∧ (OnFailed env tx reason notify).rollbacks = tx.rollbacks + 1 := by
  rw [OnFailed_eq]
  simp only [hstate, hside, if_true]
  refine ⟨GetState_SetNextState _ _, ?_⟩
  simp [rollbacks_SetNextState, RollbackTx, OnFailed.entry_rollbacks]

/-- Witness of C10. -/
theorem OnFailed_SendingUfoLockTX_native_witness :
    (OnFailed Example.env (Example.swapIn .SendingUfoLockTX true) .FailedToRegister
        true).GetState kDefaultSubTxID = .Failed
    ∧ (OnFailed Example.env (Example.swapIn .SendingUfoLockTX true) .FailedToRegister
        true).rollbacks = (Example.swapIn .SendingUfoLockTX true).rollbacks + 1 :=
  OnFailed_SendingUfoLockTX_native Example.env (Example.swapIn .SendingUfoLockTX true)
    .FailedToRegister true rfl rfl

/-! ## The adaptor secret -/

theorem GetParameter_IsUfoSide (tx : AtomicSwapTransaction F G) (id : TxParameterID)
    (sub : SubTxID) : tx.IsUfoSide.2.GetParameter id sub = tx.GetParameter id sub := by
  unfold GetParameter
  rw [params_IsUfoSide]

theorem GetSubTxState_SetState (tx : AtomicSwapTransaction F G) (s : SubTxState)
    (sub : SubTxID) : (tx.SetState (.subTxState s) sub).GetSubTxState sub = s := by
  simp [SetState, SetParameter, GetSubTxState, GetParameter, Value.asSubTxState]

section Secret

variable [CommRing F] [AddCommGroup G] [Module F G] [DecidableEq G]

/-- The block `save SecretPublicKey` when the three peer values are present. -/
theorem saveSecretPublicKey_eq (env : Env F G) (tx : AtomicSwapTransaction F G)
    (sub : SubTxID) (builder : SharedTxBuilder F G) (N E : G) (k : F)
    (hN : tx.GetParameter .PeerPublicNonce sub = some (.point N))
    (hk : tx.GetParameter .PeerSignature sub = some (.scalar k))
    (hE : tx.GetParameter .PeerPublicExcess sub = some (.point E)) :
    ((BuildUfoWithdrawTx.saveSecretPublicKey env tx sub builder).1 = .ok ())
    ∧ (BuildUfoWithdrawTx.saveSecretPublicKey env tx sub builder).2.GetParameter
        .AtomicSwapSecretPublicKey sub
      = some (.point (k • env.generator
          + env.challenge (builder.GetPublicNonce tx.params + N)
              (builder.GetKernelHash tx.params) • E + N)) := by
  unfold BuildUfoWithdrawTx.saveSecretPublicKey GetMandatoryParameter
  simp only [hN, hk, hE, Option.bind, Value.asPoint, Value.asScalar]
  constructor
  · trivial
  · simp [SetParameter, GetParameter]

/-- The native side of `BuildUfoWithdrawTx` for the Redeem sub-tx, once the
peer's signature is present: the result and the object, in terms of the block
`save SecretPublicKey`. -/
theorem BuildUfoWithdrawTx_native_redeem (env : Env F G)
    (tx tx' : AtomicSwapTransaction F G) (resultTx : Option Transaction)
    (builder : SharedTxBuilder F G) (subTxState : SubTxState) (isTxOwner : Bool)
    (N E : G) (k : F)
    (hneg : BuildUfoWithdrawTx.negotiate env tx .UFO_REDEEM_TX
      = (.ok (.inr (builder, subTxState, isTxOwner)), tx'))
    (hside : tx'.IsUfoSide.1 = true)
    (hN : tx'.GetParameter .PeerPublicNonce .UFO_REDEEM_TX = some (.point N))
    (hk : tx'.GetParameter .PeerSignature .UFO_REDEEM_TX = some (.scalar k))
    (hE : tx'.GetParameter .PeerPublicExcess .UFO_REDEEM_TX = some (.point E)) :
    BuildUfoWithdrawTx env tx .UFO_REDEEM_TX resultTx
      = (.ok (.Constructed, resultTx),
          (BuildUfoWithdrawTx.saveSecretPublicKey env tx'.IsUfoSide.2 .UFO_REDEEM_TX
            builder).2.SetState (.subTxState .Constructed) .UFO_REDEEM_TX) := by
  have h := saveSecretPublicKey_eq env tx'.IsUfoSide.2 .UFO_REDEEM_TX builder N E k
    (by rw [GetParameter_IsUfoSide]; exact hN) (by rw [GetParameter_IsUfoSide]; exact hk)
    (by rw [GetParameter_IsUfoSide]; exact hE)
  have hpair : tx'.IsUfoSide = (true, tx'.IsUfoSide.2) := by
    rw [← hside]
  unfold BuildUfoWithdrawTx
  rw [hneg]
  simp only [if_true]
  rw [hpair]
  simp only [if_true]
  generalize BuildUfoWithdrawTx.saveSecretPublicKey env tx'.IsUfoSide.2 .UFO_REDEEM_TX
    builder = r at h ⊢
  obtain ⟨r1, r2⟩ := r
  obtain ⟨h1, -⟩ := h
  simp only at h1
  subst h1
  rfl

/-- C2. On the native side (`IsUfoSide()` true), when `BuildUfoWithdrawTx` for
the Redeem sub-tx finds the peer's nonce `N`, excess `E` and signature `k`,
it stores `AtomicSwapSecretPublicKey = E * e + N + G * k` for the Redeem
sub-tx, `e` being the challenge for the aggregate nonce and the kernel hash.
So if `k = σ + s` with `σ` a valid partial signature
(`G * σ + E * e + N = 0`), the stored point is `G * s`. -/
theorem BuildUfoWithdrawTx_secretPublicKey (env : Env F G)
    (tx tx' : AtomicSwapTransaction F G) (resultTx : Option Transaction)
    (builder : SharedTxBuilder F G) (subTxState : SubTxState) (isTxOwner : Bool)
    (N E : G) (k : F)
    (hneg : BuildUfoWithdrawTx.negotiate env tx .UFO_REDEEM_TX
      = (.ok (.inr (builder, subTxState, isTxOwner)), tx'))
    (hside : tx'.IsUfoSide.1 = true)
    (hN : tx'.GetParameter .PeerPublicNonce .UFO_REDEEM_TX = some (.point N))
    (hk : tx'.GetParameter .PeerSignature .UFO_REDEEM_TX = some (.scalar k))
    (hE : tx'.GetParameter .PeerPublicExcess .UFO_REDEEM_TX = some (.point E)) :
    (BuildUfoWithdrawTx env tx .UFO_REDEEM_TX resultTx).2.GetParameter
        .AtomicSwapSecretPublicKey .UFO_REDEEM_TX
      = some (.point
          (env.challenge (builder.GetPublicNonce tx'.params + N)
              (builder.GetKernelHash tx'.params) • E + N + k • env.generator))
    ∧ ∀ σ s : F, k = σ + s →
        σ • env.generator
          + env.challenge (builder.GetPublicNonce tx'.params + N)
              (builder.GetKernelHash tx'.params) • E + N = 0 →
        (BuildUfoWithdrawTx env tx .UFO_REDEEM_TX resultTx).2.GetParameter
            .AtomicSwapSecretPublicKey .UFO_REDEEM_TX
          = some (.point (s • env.generator)) := by
  have h := saveSecretPublicKey_eq env tx'.IsUfoSide.2 .UFO_REDEEM_TX builder N E k
    (by rw [GetParameter_IsUfoSide]; exact hN) (by rw [GetParameter_IsUfoSide]; exact hk)
    (by rw [GetParameter_IsUfoSide]; exact hE)
  rw [params_IsUfoSide] at h
  have hstored : (BuildUfoWithdrawTx env tx .UFO_REDEEM_TX resultTx).2.GetParameter
      .AtomicSwapSecretPublicKey .UFO_REDEEM_TX
      = some (.point (k • env.generator
          + env.challenge (builder.GetPublicNonce tx'.params + N)
              (builder.GetKernelHash tx'.params) • E + N)) := by
    rw [BuildUfoWithdrawTx_native_redeem env tx tx' resultTx builder subTxState isTxOwner
      N E k hneg hside hN hk hE, ← h.2]
    simp [SetState, SetParameter, GetParameter]
  refine ⟨?_, ?_⟩
  · rw [hstored]
    congr 2
    abel
  · intro σ s hks hvalid
    rw [hstored, hks, add_smul]
    congr 2
    calc σ • env.generator + s • env.generator
          + env.challenge (builder.GetPublicNonce tx'.params + N)
              (builder.GetKernelHash tx'.params) • E + N
        = s • env.generator + (σ • env.generator
          + env.challenge (builder.GetPublicNonce tx'.params + N)
              (builder.GetKernelHash tx'.params) • E + N) := by abel
      _ = s • env.generator := by rw [hvalid, add_zero]

/-- Witness of C2: the peer sent `-37 + 9`, and `-37` is its valid partial
signature for the challenge `15`; the stored point is `9`. -/
theorem BuildUfoWithdrawTx_secretPublicKey_witness :
    (BuildUfoWithdrawTx Example.env Example.redeemNative .UFO_REDEEM_TX none).2.GetParameter
        .AtomicSwapSecretPublicKey .UFO_REDEEM_TX
      = some (.point (9 • Example.env.generator)) :=
  (BuildUfoWithdrawTx_secretPublicKey Example.env Example.redeemNative
    (BuildUfoWithdrawTx.negotiate Example.env Example.redeemNative .UFO_REDEEM_TX).2 none
    (Example.builder .UFO_REDEEM_TX 1000 100) .Initial false 7 2 (-37 + 9)
    rfl rfl rfl rfl rfl).2 (-37) 9 rfl (by decide)

/-- C3, as stated, fails. The store of the native-side swap
`Example.redeemNative` holds the secret public key `4` for the Redeem sub-tx;
the point derived from the peer's signature is `9`; yet `BuildUfoWithdrawTx`
returns `Constructed`, the Redeem sub-tx is in `SubTxState::Constructed`, and
the stored key has been replaced by `9`. -/
theorem BuildUfoWithdrawTx_no_comparison_counterexample :
    Example.redeemNative.IsUfoSide.1 = true
    ∧ Example.redeemNative.GetParameter .AtomicSwapSecretPublicKey .UFO_REDEEM_TX
        = some (.point 4)
    ∧ (BuildUfoWithdrawTx Example.env Example.redeemNative .UFO_REDEEM_TX none).1
        = .ok (.Constructed, none)
    ∧ (BuildUfoWithdrawTx Example.env Example.redeemNative .UFO_REDEEM_TX
        none).2.GetSubTxState .UFO_REDEEM_TX = .Constructed
    ∧ (BuildUfoWithdrawTx Example.env Example.redeemNative .UFO_REDEEM_TX
        none).2.GetParameter .AtomicSwapSecretPublicKey .UFO_REDEEM_TX = some (.point 9)
    ∧ (BuildUfoWithdrawTx Example.env Example.redeemNative .UFO_REDEEM_TX
        none).2.assertFailures = 0 := by
  refine ⟨rfl, rfl, rfl, rfl, rfl, rfl⟩

/-- C3, amended. On the native side, `BuildUfoWithdrawTx` for the Redeem sub-tx
compares the derived point with nothing: whenever the peer's nonce `N`, excess
`E` and signature `k` are present, whatever the signature and whatever secret
public key the store held before, it stores the derived point
`G * k + E * e + N` as `AtomicSwapSecretPublicKey` of the Redeem sub-tx,
returns `Constructed`, and the Redeem sub-tx is in `SubTxState::Constructed`. -/
theorem BuildUfoWithdrawTx_redeem_always_constructed (env : Env F G)
    (tx tx' : AtomicSwapTransaction F G) (resultTx : Option Transaction)
    (builder : SharedTxBuilder F G) (subTxState : SubTxState) (isTxOwner : Bool)
    (N E : G) (k : F)
    (hneg : BuildUfoWithdrawTx.negotiate env tx .UFO_REDEEM_TX
      = (.ok (.inr (builder, subTxState, isTxOwner)), tx'))
    (hside : tx'.IsUfoSide.1 = true)
    (hN : tx'.GetParameter .PeerPublicNonce .UFO_REDEEM_TX = some (.point N))
    (hk : tx'.GetParameter .PeerSignature .UFO_REDEEM_TX = some (.scalar k))
    (hE : tx'.GetParameter .PeerPublicExcess .UFO_REDEEM_TX = some (.point E)) :
    (BuildUfoWithdrawTx env tx .UFO_REDEEM_TX resultTx).1 = .ok (.Constructed, resultTx)
    ∧ (BuildUfoWithdrawTx env tx .UFO_REDEEM_TX resultTx).2.GetSubTxState .UFO_REDEEM_TX
        = .Constructed
    ∧ (BuildUfoWithdrawTx env tx .UFO_REDEEM_TX resultTx).2.GetParameter
        .AtomicSwapSecretPublicKey .UFO_REDEEM_TX
      = some (.point (k • env.generator
          + env.challenge (builder.GetPublicNonce tx'.params + N)
              (builder.GetKernelHash tx'.params) • E + N)) := by
  have hN2 : tx'.IsUfoSide.2.GetParameter .PeerPublicNonce .UFO_REDEEM_TX
      = some (.point N) := by
    rw [GetParameter_IsUfoSide]
    exact hN
  have hk2 : tx'.IsUfoSide.2.GetParameter .PeerSignature .UFO_REDEEM_TX
      = some (.scalar k) := by
    rw [GetParameter_IsUfoSide]
    exact hk
  have hE2 : tx'.IsUfoSide.2.GetParameter .PeerPublicExcess .UFO_REDEEM_TX
      = some (.point E) := by
    rw [GetParameter_IsUfoSide]
    exact hE
  rw [BuildUfoWithdrawTx_native_redeem env tx tx' resultTx builder subTxState isTxOwner
    N E k hneg hside hN hk hE]
  refine ⟨rfl, GetSubTxState_SetState _ _ _, ?_⟩
  -- the block `save SecretPublicKey` writes the point, and `SetState` keeps it
  unfold BuildUfoWithdrawTx.saveSecretPublicKey GetMandatoryParameter
  simp only [hN2, hk2, hE2, Option.bind, Value.asPoint, Value.asScalar]
  simp [SetState, SetParameter, GetParameter, params_IsUfoSide]

/-- Witness of the amended C3: the store of `Example.redeemNative` held the secret
public key `4`; the peer sent `-37 + 9`, the derived point is `9`, and after
`BuildUfoWithdrawTx` the store holds `9` and the Redeem sub-tx is
`Constructed`. -/
theorem BuildUfoWithdrawTx_redeem_always_constructed_witness :
    Example.redeemNative.GetParameter .AtomicSwapSecretPublicKey .UFO_REDEEM_TX
        = some (.point 4)
    ∧ (BuildUfoWithdrawTx Example.env Example.redeemNative .UFO_REDEEM_TX none).1
        = .ok (.Constructed, none)
    ∧ (BuildUfoWithdrawTx Example.env Example.redeemNative .UFO_REDEEM_TX
        none).2.GetSubTxState .UFO_REDEEM_TX = .Constructed
    ∧ (BuildUfoWithdrawTx Example.env Example.redeemNative .UFO_REDEEM_TX
        none).2.GetParameter .AtomicSwapSecretPublicKey .UFO_REDEEM_TX
      = some (.point 9) :=
  have h := BuildUfoWithdrawTx_redeem_always_constructed Example.env Example.redeemNative
    (BuildUfoWithdrawTx.negotiate Example.env Example.redeemNative .UFO_REDEEM_TX).2 none
    (Example.builder .UFO_REDEEM_TX 1000 100) .Initial false 7 2 (-37 + 9)
    rfl rfl rfl rfl rfl
  ⟨rfl, h.1, h.2.1, h.2.2.trans rfl⟩

end Secret

section Extract

variable [CommRing F]

/-- C1. Adaptor-secret round trip. If the kernel of the Redeem sub-tx is signed
with the aggregate `σown + σpeer`, the stored `PeerSignature` is the adapted
partial `σpeer + s`, and the builder's own partial signature is `σown`, then
`ExtractSecretPrivateKey` returns and stores
`AtomicSwapSecretPrivateKey = s` for the Redeem sub-tx. -/
theorem ExtractSecretPrivateKey_roundtrip (env : Env F G) (tx : AtomicSwapTransaction F G)
    (kernel : TxKernel F G) (σown σpeer s : F)
    (hkernel : tx.GetParameter .Kernel .UFO_REDEEM_TX = some (.kernel kernel))
    (hfull : kernel.m_Signature.m_k = σown + σpeer)
    (hpeer : (ExtractSecretPrivateKey.signed env tx).GetParameter .PeerSignature
      .UFO_REDEEM_TX = some (.scalar (σpeer + s)))
    (hown : (env.SharedTxBuilder .UFO_REDEEM_TX 0 0).GetPartialSignature
      (ExtractSecretPrivateKey.signed env tx).params = σown) :
    (ExtractSecretPrivateKey env tx).1 = .ok ()
    ∧ (ExtractSecretPrivateKey env tx).2.GetParameter .AtomicSwapSecretPrivateKey
        .UFO_REDEEM_TX = some (.scalar s) := by
  unfold ExtractSecretPrivateKey.signed at hpeer hown
  unfold ExtractSecretPrivateKey GetMandatoryParameter
  simp only [hkernel, hpeer, hown, hfull, Option.bind, Value.asKernel, Value.asScalar]
  refine ⟨trivial, ?_⟩
  simp only [SetParameter, GetParameter, and_self, if_true]
  have harith : σpeer + s + σown + -(σown + σpeer) = s := by ring
  rw [harith]

/-- Witness of C1: own partial `-50`, peer partial `-37`, secret `9`. -/
theorem ExtractSecretPrivateKey_roundtrip_witness :
    (ExtractSecretPrivateKey Example.env Example.redeemPublished).1 = .ok ()
    ∧ (ExtractSecretPrivateKey Example.env Example.redeemPublished).2.GetParameter
        .AtomicSwapSecretPrivateKey .UFO_REDEEM_TX = some (.scalar 9) :=
  ExtractSecretPrivateKey_roundtrip Example.env Example.redeemPublished
    ⟨5, ⟨12, -50 + -37⟩, 100⟩ (-50) (-37) 9 rfl rfl rfl rfl

end Extract

/-! ## No message carries the secret -/

theorem onlySent_of_outbox_eq {P : SetTxParameter F G → Prop}
    {a b : AtomicSwapTransaction F G} (h : b.outbox = a.outbox) : OnlySent P a b :=
  ⟨[], by simp [h], by simp⟩

theorem onlySent_refl {P : SetTxParameter F G → Prop} (a : AtomicSwapTransaction F G) :
    OnlySent P a a :=
  onlySent_of_outbox_eq rfl

theorem onlySent_trans {P : SetTxParameter F G → Prop}
    {a b c : AtomicSwapTransaction F G} (h1 : OnlySent P a b) (h2 : OnlySent P b c) :
    OnlySent P a c := by
  obtain ⟨n1, e1, p1⟩ := h1
  obtain ⟨n2, e2, p2⟩ := h2
  refine ⟨n2 ++ n1, by rw [e2, e1, List.append_assoc], ?_⟩
  intro m hm
  rcases List.mem_append.1 hm with h | h
  · exact p2 m h
  · exact p1 m h

theorem onlySent_step {P : SetTxParameter F G → Prop}
    {a b c : AtomicSwapTransaction F G} (h : c.outbox = b.outbox) (h2 : OnlySent P a b) :
    OnlySent P a c :=
  onlySent_trans h2 (onlySent_of_outbox_eq h)

theorem GetAmount_outbox (tx : AtomicSwapTransaction F G) :
    tx.GetAmount.2.outbox = tx.outbox := by
  unfold GetAmount
  split
  · rfl
  · split <;> rfl

theorem IsSender_outbox (tx : AtomicSwapTransaction F G) :
    tx.IsSender.2.outbox = tx.outbox := by
  unfold IsSender
  split
  · rfl
  · split <;> rfl

theorem IsUfoSide_outbox (tx : AtomicSwapTransaction F G) :
    tx.IsUfoSide.2.outbox = tx.outbox := by
  unfold IsUfoSide
  split <;> rfl

theorem outbox_of_GetAmount {tx tx1 : AtomicSwapTransaction F G}
    {r : Except SwapException Nat} (h : tx.GetAmount = (r, tx1)) :
    tx1.outbox = tx.outbox := by
  have h2 := GetAmount_outbox tx
  rw [h] at h2
  exact h2

theorem outbox_of_IsSender {tx tx1 : AtomicSwapTransaction F G}
    {r : Except SwapException Bool} (h : tx.IsSender = (r, tx1)) :
    tx1.outbox = tx.outbox := by
  have h2 := IsSender_outbox tx
  rw [h] at h2
  exact h2

theorem outbox_of_IsUfoSide {tx tx1 : AtomicSwapTransaction F G}
    {r : Bool} (h : tx.IsUfoSide = (r, tx1)) :
    tx1.outbox = tx.outbox := by
  have h2 := IsUfoSide_outbox tx
  rw [h] at h2
  exact h2

theorem onlySent_step_GetAmount {P : SetTxParameter F G → Prop}
    {a b : AtomicSwapTransaction F G} (h : OnlySent P a b) : OnlySent P a b.GetAmount.2 :=
  onlySent_step (GetAmount_outbox b) h

theorem onlySent_step_IsUfoSide {P : SetTxParameter F G → Prop}
    {a b : AtomicSwapTransaction F G} (h : OnlySent P a b) : OnlySent P a b.IsUfoSide.2 :=
  onlySent_step (IsUfoSide_outbox b) h

theorem onlySent_step_withSubParams {P : SetTxParameter F G → Prop}
    {a b : AtomicSwapTransaction F G} (sub : SubTxID)
    (f : TxParameters F G → TxParameters F G)
    (h : OnlySent P a b) : OnlySent P a (b.withSubParams sub f) :=
  onlySent_step rfl h

theorem onlySent_step_SetParameter {P : SetTxParameter F G → Prop}
    {a b : AtomicSwapTransaction F G} (id : TxParameterID) (v : Value F G) (sub : SubTxID)
    (h : OnlySent P a b) : OnlySent P a (b.SetParameter id v sub) :=
  onlySent_step rfl h

theorem onlySent_step_SetState {P : SetTxParameter F G → Prop}
    {a b : AtomicSwapTransaction F G} (v : Value F G) (sub : SubTxID)
    (h : OnlySent P a b) : OnlySent P a (b.SetState v sub) :=
  onlySent_step rfl h

theorem onlySent_SendTxParameters {P : SetTxParameter F G → Prop} (env : Env F G)
    (tx : AtomicSwapTransaction F G) (msg : SetTxParameter F G) (h : P msg) :
    OnlySent P tx (SendTxParameters env tx msg).2 :=
  ⟨[(msg, env.sendOk tx msg)], rfl, by simpa using h⟩

theorem OmitsSecret_failure (reason : TxFailureReason) :
    OmitsSecret (SetTxParameter.empty.AddParameter .FailureReason (.reason reason) :
      SetTxParameter F G) := by
  simp [OmitsSecret, SetTxParameter.ids, SetTxParameter.AddParameter, SetTxParameter.empty]

theorem OnFailed.entry_outbox (env : Env F G) (tx : AtomicSwapTransaction F G)
    (reason : TxFailureReason) (notify : Bool) :
    (OnFailed.entry env tx reason notify).outbox
      = (if notify then NotifyFailure env tx reason else tx).outbox := by
  unfold OnFailed.entry IsUfoSide
  cases notify <;> cases h : tx.m_IsUfoSide <;>
    simp [NotifyFailure, SendTxParameters, SetParameter, h]

theorem OnFailed_outbox (env : Env F G) (tx : AtomicSwapTransaction F G)
    (reason : TxFailureReason) (notify : Bool) :
    (OnFailed env tx reason notify).outbox
      = (if notify then NotifyFailure env tx reason else tx).outbox := by
  rw [OnFailed_eq, ← OnFailed.entry_outbox]
  cases tx.GetState kDefaultSubTxID <;> simp only [] <;> (try split) <;> rfl

theorem onlySent_NotifyFailure (env : Env F G) (tx : AtomicSwapTransaction F G)
    (reason : TxFailureReason) : OnlySent OmitsSecret tx (NotifyFailure env tx reason) :=
  onlySent_SendTxParameters env tx _ (OmitsSecret_failure reason)

theorem onlySent_OnFailed (env : Env F G) (tx : AtomicSwapTransaction F G)
    (reason : TxFailureReason) (notify : Bool) :
    OnlySent OmitsSecret tx (OnFailed env tx reason notify) := by
  cases notify
  · exact onlySent_of_outbox_eq (by rw [OnFailed_outbox]; rfl)
  · exact onlySent_trans (onlySent_NotifyFailure env tx reason)
      (onlySent_of_outbox_eq (by rw [OnFailed_outbox]; rfl))

theorem onlySent_step_OnFailed (env : Env F G)
    {a b : AtomicSwapTransaction F G} (reason : TxFailureReason) (notify : Bool)
    (h : OnlySent OmitsSecret a b) :
    OnlySent OmitsSecret a (OnFailed env b reason notify) :=
  onlySent_trans h (onlySent_OnFailed env b reason notify)

theorem onlySent_step_OnSubTxFailed (env : Env F G)
    {a b : AtomicSwapTransaction F G} (reason : TxFailureReason) (sub : SubTxID)
    (notify : Bool) (h : OnlySent OmitsSecret a b) :
    OnlySent OmitsSecret a (OnSubTxFailed env b reason sub notify) := by
  unfold OnSubTxFailed
  split
  · split
    · exact h
    · exact onlySent_step_OnFailed env _ _ (onlySent_step_SetParameter _ _ _ h)
  · exact onlySent_step_OnFailed env _ _ (onlySent_step_SetParameter _ _ _ h)

/-- The tail shared by the senders: send, and fail when the transport refuses. -/
theorem onlySent_send_or_fail (env : Env F G) {a : AtomicSwapTransaction F G}
    (tx : AtomicSwapTransaction F G) (msg : SetTxParameter F G) (h : OmitsSecret msg)
    (ha : OnlySent OmitsSecret a tx) :
    OnlySent OmitsSecret a
      (if !(SendTxParameters env tx msg).1 then
        OnFailed env (SendTxParameters env tx msg).2 .FailedToSendParameters false
      else (SendTxParameters env tx msg).2) := by
  split
  · exact onlySent_step_OnFailed env _ _
      (onlySent_trans ha (onlySent_SendTxParameters env tx msg h))
  · exact onlySent_trans ha (onlySent_SendTxParameters env tx msg h)

theorem onlySent_send_or_fail_snd {α : Type} (env : Env F G) {a : AtomicSwapTransaction F G}
    (tx : AtomicSwapTransaction F G) (msg : SetTxParameter F G) (r : α)
    (h : OmitsSecret msg) (ha : OnlySent OmitsSecret a tx) :
    OnlySent OmitsSecret a
      (if !(SendTxParameters env tx msg).1 then
        (r, OnFailed env (SendTxParameters env tx msg).2 .FailedToSendParameters false)
      else (r, (SendTxParameters env tx msg).2)).2 := by
  split
  · exact onlySent_step_OnFailed env _ _
      (onlySent_trans ha (onlySent_SendTxParameters env tx msg h))
  · exact onlySent_trans ha (onlySent_SendTxParameters env tx msg h)

theorem onlySent_SendInvitation (env : Env F G) (tx : AtomicSwapTransaction F G) :
    OnlySent OmitsSecret tx (SendInvitation env tx).2 := by
  unfold SendInvitation
  repeat' split
  all_goals first | exact onlySent_of_outbox_eq (by rfl) | skip
  · exact onlySent_of_outbox_eq (outbox_of_GetAmount (by assumption))
  · exact onlySent_of_outbox_eq (outbox_of_GetAmount (by assumption))
  · exact onlySent_of_outbox_eq
      ((outbox_of_IsSender (by assumption)).trans (outbox_of_GetAmount (by assumption)))
  · refine onlySent_send_or_fail_snd env _ _ _ ?_ (onlySent_of_outbox_eq
      ((outbox_of_IsUfoSide (by assumption)).trans
        ((outbox_of_IsSender (by assumption)).trans (outbox_of_GetAmount (by assumption)))))
    simp [OmitsSecret, SetTxParameter.ids, SetTxParameter.AddParameter, SetTxParameter.empty]

theorem onlySent_SendLockTxInvitation (env : Env F G) (tx : AtomicSwapTransaction F G)
    (lockBuilder : LockTxBuilder F G) :
    OnlySent OmitsSecret tx (SendLockTxInvitation env tx lockBuilder).2 := by
  unfold SendLockTxInvitation
  split
  · exact onlySent_refl tx
  · refine onlySent_send_or_fail_snd env _ _ _ ?_ (onlySent_refl tx)
    simp [OmitsSecret, SetTxParameter.ids, SetTxParameter.AddParameter, SetTxParameter.empty]

theorem onlySent_SendLockTxConfirmation (env : Env F G) (tx : AtomicSwapTransaction F G)
    (lockBuilder : LockTxBuilder F G) :
    OnlySent OmitsSecret tx (SendLockTxConfirmation env tx lockBuilder) := by
  unfold SendLockTxConfirmation
  refine onlySent_send_or_fail env tx _ ?_ (onlySent_refl tx)
  simp [OmitsSecret, SetTxParameter.ids, SetTxParameter.AddParameter, SetTxParameter.empty]

theorem onlySent_step_SendSharedTxInvitation (env : Env F G)
    {a b : AtomicSwapTransaction F G} (builder : SharedTxBuilder F G)
    (h : OnlySent OmitsSecret a b) :
    OnlySent OmitsSecret a (SendSharedTxInvitation env b builder) := by
  unfold SendSharedTxInvitation
  refine onlySent_send_or_fail env b _ ?_ h
  simp [OmitsSecret, SetTxParameter.ids, SetTxParameter.AddParameter, SetTxParameter.empty]

theorem onlySent_step_ConfirmSharedTxInvitation (env : Env F G)
    {a b : AtomicSwapTransaction F G} (builder : SharedTxBuilder F G)
    (h : OnlySent OmitsSecret a b) :
    OnlySent OmitsSecret a (ConfirmSharedTxInvitation env b builder) := by
  unfold ConfirmSharedTxInvitation
  refine onlySent_send_or_fail env b _ ?_ h
  simp [OmitsSecret, SetTxParameter.ids, SetTxParameter.AddParameter, SetTxParameter.empty]

theorem onlySent_amounts (env : Env F G) (tx : AtomicSwapTransaction F G) (sub : SubTxID) :
    OnlySent OmitsSecret tx (BuildUfoWithdrawTx.amounts env tx sub).2 := by
  unfold BuildUfoWithdrawTx.amounts
  split
  · exact onlySent_refl tx
  · split
    · exact onlySent_step_GetAmount (onlySent_refl tx)
    · exact onlySent_step_SetParameter _ _ _ (onlySent_step_SetParameter _ _ _
        (onlySent_step_GetAmount (onlySent_refl tx)))

theorem onlySent_isTxOwner (tx : AtomicSwapTransaction F G) (sub : SubTxID) :
    OnlySent OmitsSecret tx (BuildUfoWithdrawTx.isTxOwner tx sub).2 := by
  unfold BuildUfoWithdrawTx.isTxOwner
  split
  · exact onlySent_step_IsUfoSide (onlySent_refl tx)
  · exact onlySent_step_IsUfoSide (onlySent_step_IsUfoSide (onlySent_refl tx))

theorem onlySent_exchange (env : Env F G) (tx : AtomicSwapTransaction F G) (sub : SubTxID)
    (builder : SharedTxBuilder F G) (subTxState : SubTxState) (isTxOwner : Bool) :
    OnlySent OmitsSecret tx
      (BuildUfoWithdrawTx.exchange env tx sub builder subTxState isTxOwner).2 := by
  unfold BuildUfoWithdrawTx.exchange
  simp only []
  split_ifs
  all_goals
    repeat (first
      | exact onlySent_refl tx
      | with_reducible apply onlySent_step_SetState
      | with_reducible apply onlySent_step_SendSharedTxInvitation
      | with_reducible apply onlySent_step_ConfirmSharedTxInvitation
      | with_reducible apply onlySent_step_withSubParams)

theorem onlySent_negotiate (env : Env F G) (tx : AtomicSwapTransaction F G)
    (sub : SubTxID) :
    OnlySent OmitsSecret tx (BuildUfoWithdrawTx.negotiate env tx sub).2 := by
  unfold BuildUfoWithdrawTx.negotiate
  simp only []
  split
  · exact onlySent_amounts env tx sub
  · split <;>
      exact onlySent_trans (onlySent_amounts env tx sub)
        (onlySent_trans (onlySent_isTxOwner _ sub) (onlySent_exchange env _ sub _ _ _))

theorem onlySent_of_negotiate (env : Env F G) {tx tx1 : AtomicSwapTransaction F G}
    {sub : SubTxID}
    {r : Except SwapException (SubTxState ⊕ (SharedTxBuilder F G × SubTxState × Bool))}
    (h : BuildUfoWithdrawTx.negotiate env tx sub = (r, tx1)) :
    OnlySent OmitsSecret tx tx1 := by
  have h2 := onlySent_negotiate env tx sub
  rw [h] at h2
  exact h2

theorem onlySent_step_finish (env : Env F G) {a : AtomicSwapTransaction F G}
    (tx : AtomicSwapTransaction F G) (sub : SubTxID)
    (builder : SharedTxBuilder F G) (subTxState : SubTxState) (isTxOwner : Bool)
    (resultTx : Option Transaction) (h : OnlySent OmitsSecret a tx) :
    OnlySent OmitsSecret a
      (BuildUfoWithdrawTx.finish env tx sub builder subTxState isTxOwner resultTx).2 := by
  unfold BuildUfoWithdrawTx.finish
  simp only []
  split_ifs
  all_goals
    repeat (first
      | exact h
      | with_reducible apply onlySent_step_SetState
      | with_reducible apply onlySent_step_OnSubTxFailed
      | with_reducible apply onlySent_step_withSubParams)

theorem onlySent_of_finish (env : Env F G) {a tx tx1 : AtomicSwapTransaction F G}
    {sub : SubTxID} {builder : SharedTxBuilder F G} {subTxState : SubTxState}
    {isTxOwner : Bool} {resultTx : Option Transaction}
    {r : SubTxState × Option Transaction}
    (h : BuildUfoWithdrawTx.finish env tx sub builder subTxState isTxOwner resultTx
      = (r, tx1))
    (ha : OnlySent OmitsSecret a tx) :
    OnlySent OmitsSecret a tx1 := by
  have h2 := onlySent_step_finish env tx sub builder subTxState isTxOwner resultTx ha
  rw [h] at h2
  exact h2

theorem send_or_fail_outbox (env : Env F G) (tx : AtomicSwapTransaction F G)
    (msg : SetTxParameter F G) :
    (if !(SendTxParameters env tx msg).1 then
        OnFailed env (SendTxParameters env tx msg).2 .FailedToSendParameters false
      else (SendTxParameters env tx msg).2).outbox
      = (msg, env.sendOk tx msg) :: tx.outbox := by
  split
  · rw [OnFailed_outbox]
    rfl
  · rfl

theorem sentOne_NotifyFailure (env : Env F G) (tx : AtomicSwapTransaction F G)
    (reason : TxFailureReason) : SentOne OmitsSecret tx (NotifyFailure env tx reason) :=
  ⟨_, _, rfl, OmitsSecret_failure reason⟩

theorem sentOne_SendLockTxConfirmation (env : Env F G) (tx : AtomicSwapTransaction F G)
    (lockBuilder : LockTxBuilder F G) :
    SentOne OmitsSecret tx (SendLockTxConfirmation env tx lockBuilder) := by
  unfold SendLockTxConfirmation
  refine ⟨_, _, send_or_fail_outbox env tx _, ?_⟩
  simp [OmitsSecret, SetTxParameter.ids, SetTxParameter.AddParameter, SetTxParameter.empty]

theorem sentOne_SendSharedTxInvitation (env : Env F G) (tx : AtomicSwapTransaction F G)
    (builder : SharedTxBuilder F G) :
    SentOne OmitsSecret tx (SendSharedTxInvitation env tx builder) := by
  unfold SendSharedTxInvitation
  refine ⟨_, _, send_or_fail_outbox env tx _, ?_⟩
  simp [OmitsSecret, SetTxParameter.ids, SetTxParameter.AddParameter, SetTxParameter.empty]

theorem sentOne_ConfirmSharedTxInvitation (env : Env F G) (tx : AtomicSwapTransaction F G)
    (builder : SharedTxBuilder F G) :
    SentOne OmitsSecret tx (ConfirmSharedTxInvitation env tx builder) := by
  unfold ConfirmSharedTxInvitation
  refine ⟨_, _, send_or_fail_outbox env tx _, ?_⟩
  simp [OmitsSecret, SetTxParameter.ids, SetTxParameter.AddParameter, SetTxParameter.empty]

section Adapted

variable [CommRing F]

theorem onlySent_of_sendAdaptedSignature (env : Env F G)
    {a tx tx1 : AtomicSwapTransaction F G} {builder : SharedTxBuilder F G} {r : Bool}
    (h : BuildUfoWithdrawTx.sendAdaptedSignature env tx builder = (r, tx1))
    (ha : OnlySent OmitsSecret a tx) :
    OnlySent OmitsSecret a tx1 := by
  have h2 : OnlySent OmitsSecret a
      (BuildUfoWithdrawTx.sendAdaptedSignature env tx builder).2 := by
    unfold BuildUfoWithdrawTx.sendAdaptedSignature
    refine onlySent_trans ha (onlySent_SendTxParameters env tx _ ?_)
    simp [OmitsSecret, SetTxParameter.ids, SetTxParameter.AddParameter,
      SetTxParameter.empty]
  rw [h] at h2
  exact h2

theorem sentOne_sendAdaptedSignature (env : Env F G) (tx : AtomicSwapTransaction F G)
    (builder : SharedTxBuilder F G) :
    SentOne OmitsSecret tx (BuildUfoWithdrawTx.sendAdaptedSignature env tx builder).2 := by
  unfold BuildUfoWithdrawTx.sendAdaptedSignature
  refine ⟨_, _, rfl, ?_⟩
  simp [OmitsSecret, SetTxParameter.ids, SetTxParameter.AddParameter, SetTxParameter.empty]

end Adapted

section Messages

variable [CommRing F] [AddCommGroup G] [Module F G] [DecidableEq G]

theorem saveSecretPublicKey_outbox (env : Env F G) (tx : AtomicSwapTransaction F G)
    (sub : SubTxID) (builder : SharedTxBuilder F G) :
    (BuildUfoWithdrawTx.saveSecretPublicKey env tx sub builder).2.outbox = tx.outbox := by
  unfold BuildUfoWithdrawTx.saveSecretPublicKey
  split
  · rfl
  · split
    · rfl
    · split
      · rfl
      · simp only []
        split <;> rfl

theorem onlySent_of_saveSecretPublicKey (env : Env F G) {a tx tx1 : AtomicSwapTransaction F G}
    {sub : SubTxID} {builder : SharedTxBuilder F G} {r : Except SwapException Unit}
    (h : BuildUfoWithdrawTx.saveSecretPublicKey env tx sub builder = (r, tx1))
    (ha : OnlySent OmitsSecret a tx) :
    OnlySent OmitsSecret a tx1 := by
  have h2 := saveSecretPublicKey_outbox env tx sub builder
  rw [h] at h2
  exact onlySent_step h2 ha

theorem onlySent_BuildUfoWithdrawTx (env : Env F G) (tx : AtomicSwapTransaction F G)
    (sub : SubTxID) (resultTx : Option Transaction) :
    OnlySent OmitsSecret tx (BuildUfoWithdrawTx env tx sub resultTx).2 := by
  unfold BuildUfoWithdrawTx
  repeat' split
  · exact onlySent_of_negotiate env (by assumption)
  · exact onlySent_of_negotiate env (by assumption)
  · exact onlySent_of_saveSecretPublicKey env (by assumption)
      (onlySent_step (outbox_of_IsUfoSide (by assumption))
        (onlySent_of_negotiate env (by assumption)))
  · exact onlySent_step_SetState _ _ (onlySent_of_saveSecretPublicKey env (by assumption)
      (onlySent_step (outbox_of_IsUfoSide (by assumption))
        (onlySent_of_negotiate env (by assumption))))
  · exact onlySent_step_OnFailed env _ _ (onlySent_of_sendAdaptedSignature env (by assumption)
      (onlySent_step (outbox_of_IsUfoSide (by assumption))
        (onlySent_of_negotiate env (by assumption))))
  · exact onlySent_of_finish env (by assumption)
      (onlySent_of_sendAdaptedSignature env (by assumption)
        (onlySent_step (outbox_of_IsUfoSide (by assumption))
          (onlySent_of_negotiate env (by assumption))))
  · exact onlySent_of_finish env (by assumption) (onlySent_of_negotiate env (by assumption))

/-- C4. No message built by the swap transaction carries the parameter id
`AtomicSwapSecretPrivateKey`. `NotifyFailure`, `SendLockTxConfirmation`,
`SendSharedTxInvitation`, `ConfirmSharedTxInvitation` and the foreign side's
Redeem signature message each hand exactly one message to
`SendTxParameters`, without that id among its parameter ids; `SendInvitation`
and `SendLockTxInvitation` (which can throw before sending) and the whole of
`BuildUfoWithdrawTx` only put messages without that id on top of the outbox. -/
theorem no_message_carries_secret_private_key (env : Env F G)
    (tx : AtomicSwapTransaction F G) (reason : TxFailureReason)
    (lockBuilder : LockTxBuilder F G) (builder : SharedTxBuilder F G)
    (subTxID : SubTxID) (resultTx : Option Transaction) :
    SentOne OmitsSecret tx (NotifyFailure env tx reason)
    ∧ OnlySent OmitsSecret tx (SendInvitation env tx).2
    ∧ OnlySent OmitsSecret tx (SendLockTxInvitation env tx lockBuilder).2
    ∧ SentOne OmitsSecret tx (SendLockTxConfirmation env tx lockBuilder)
    ∧ SentOne OmitsSecret tx (SendSharedTxInvitation env tx builder)
    ∧ SentOne OmitsSecret tx (ConfirmSharedTxInvitation env tx builder)
    ∧ SentOne OmitsSecret tx (BuildUfoWithdrawTx.sendAdaptedSignature env tx builder).2
    ∧ OnlySent OmitsSecret tx (BuildUfoWithdrawTx env tx subTxID resultTx).2 :=
  ⟨sentOne_NotifyFailure env tx reason,
   onlySent_SendInvitation env tx,
   onlySent_SendLockTxInvitation env tx lockBuilder,
   sentOne_SendLockTxConfirmation env tx lockBuilder,
   sentOne_SendSharedTxInvitation env tx builder,
   sentOne_ConfirmSharedTxInvitation env tx builder,
   sentOne_sendAdaptedSignature env tx builder,
   onlySent_BuildUfoWithdrawTx env tx subTxID resultTx⟩

end Messages

/-! ## Re-org rollback, expiry and failures reported by the peer -/

theorem CheckExpired_cases (env : Env F G) (tx : AtomicSwapTransaction F G) :
    (Expired env tx
      ∧ CheckExpired env tx = (true, OnFailed env tx .TransactionExpired false))
    ∨ (¬ Expired env tx ∧ CheckExpired env tx = (false, tx)) := by
  unfold CheckExpired Expired
  rcases h1 : (tx.GetParameter .InternalFailureReason).bind Value.asReason with _ | r
  swap
  · right
    simp
  simp only [true_and]
  have hfinal : statusIsFinal tx ↔
      (match (tx.GetParameter .Status).bind Value.asStatus with
        | some s => s == .Failed || s == .Canceled || s == .Completed
        | none => false) = true := by
    unfold statusIsFinal
    rcases (tx.GetParameter .Status).bind Value.asStatus with _ | s
    · simp
    · cases s <;> simp
  split
  · rename_i hterm
    right
    exact ⟨fun h => h.1 (hfinal.2 hterm), rfl⟩
  · rename_i hterm
    have hnf : ¬ statusIsFinal tx := fun h => hterm (hfinal.1 h)
    simp only [hnf, not_false_eq_true, true_and]
    clear hfinal hterm hnf h1
    unfold expiryLimit lockIsRegistered GetTip
    generalize (tx.GetParameter .MaxHeight .UFO_LOCK_TX).bind Value.asU64 = mh
    generalize (tx.GetParameter .PeerResponseHeight).bind Value.asU64 = prh
    generalize (tx.GetParameter .TransactionRegistered .UFO_LOCK_TX).bind Value.asU8 = reg
    generalize (tx.GetParameter .KernelID .UFO_LOCK_TX).bind Value.asBytes = kid
    generalize (tx.GetParameter .KernelUnconfirmedHeight .UFO_LOCK_TX).bind Value.asU64 = kuh
    generalize env.tip = tip
    generalize OnFailed env tx .TransactionExpired false = failed
    have hlimit : ∀ lim : Option Nat,
        (∃ L, lim = some L
            ∧ ((¬((∃ n, reg = some n) ∧ ∃ k, kid = some k) ∧ ∃ t, tip = some t ∧ t > L)
              ∨ (((∃ n, reg = some n) ∧ ∃ k, kid = some k)
                ∧ ∃ u, kuh = some u ∧ u > 0 ∧ u ≥ L)))
          ∧ (match lim with
            | none => (false, tx)
            | some lockTxMaxHeight =>
              if (reg.isNone || kid.isNone) = true then
                match tip with
                | some m_Height =>
                  if m_Height > lockTxMaxHeight then (true, failed) else (false, tx)
                | none => (false, tx)
              else
                match kuh with
                | some lastUnconfirmedHeight =>
                  if lastUnconfirmedHeight > 0 then
                    if lastUnconfirmedHeight ≥ lockTxMaxHeight then (true, failed)
                    else (false, tx)
                  else (false, tx)
                | none => (false, tx)) = (true, failed)
        ∨ (¬ ∃ L, lim = some L
            ∧ ((¬((∃ n, reg = some n) ∧ ∃ k, kid = some k) ∧ ∃ t, tip = some t ∧ t > L)
              ∨ (((∃ n, reg = some n) ∧ ∃ k, kid = some k)
                ∧ ∃ u, kuh = some u ∧ u > 0 ∧ u ≥ L)))
          ∧ (match lim with
            | none => (false, tx)
            | some lockTxMaxHeight =>
              if (reg.isNone || kid.isNone) = true then
                match tip with
                | some m_Height =>
                  if m_Height > lockTxMaxHeight then (true, failed) else (false, tx)
                | none => (false, tx)
              else
                match kuh with
                | some lastUnconfirmedHeight =>
                  if lastUnconfirmedHeight > 0 then
                    if lastUnconfirmedHeight ≥ lockTxMaxHeight then (true, failed)
                    else (false, tx)
                  else (false, tx)
                | none => (false, tx)) = (false, tx) := by
      intro lim
      rcases lim with _ | L
      · right; simp
      · rcases reg with _ | n <;> rcases kid with _ | k <;> rcases tip with _ | t <;>
          rcases kuh with _ | u <;> simp <;> (try split_ifs) <;> (try simp_all) <;>
          (try omega)
    exact hlimit _


theorem proofAbove_iff (tx : AtomicSwapTransaction F G) (sub : SubTxID) (h : Nat) :
    Rollback.proofAbove tx sub h = true ↔ hasProofAbove tx sub h := by
  unfold Rollback.proofAbove hasProofAbove
  rcases hv : tx.GetParameter .KernelProofHeight sub with _ | v
  · simp
  · cases v <;> simp [Value.asU64]

theorem IsUfoSide_of_cached (tx : AtomicSwapTransaction F G) (b : Bool)
    (h : tx.m_IsUfoSide = some b) : tx.IsUfoSide = (b, tx) := by
  unfold IsUfoSide
  rw [h]

theorem IsUfoSide_snd_cached (tx : AtomicSwapTransaction F G) :
    tx.IsUfoSide.2.m_IsUfoSide = some tx.IsUfoSide.1 := by
  unfold IsUfoSide
  cases h : tx.m_IsUfoSide <;> simp [h]

theorem proofAbove_IsUfoSide (tx : AtomicSwapTransaction F G) (sub : SubTxID) (h : Nat) :
    Rollback.proofAbove tx.IsUfoSide.2 sub h = Rollback.proofAbove tx sub h := by
  unfold Rollback.proofAbove
  rw [GetParameter_IsUfoSide]

theorem proofAbove_reset_same (tx : AtomicSwapTransaction F G) (sub : SubTxID) (s : State)
    (h : Nat) : Rollback.proofAbove (Rollback.reset tx sub s) sub h = false := by
  cases sub <;>
    simp [Rollback.proofAbove, Rollback.reset, SetState, SetParameter, GetParameter,
      Value.asU64, kDefaultSubTxID]

theorem proofAbove_reset_other (tx : AtomicSwapTransaction F G) (sub sub' : SubTxID)
    (s : State) (h : Nat) (hne : sub ≠ sub') (hd : sub ≠ kDefaultSubTxID) :
    Rollback.proofAbove (Rollback.reset tx sub' s) sub h = Rollback.proofAbove tx sub h := by
  simp [Rollback.proofAbove, Rollback.reset, SetState, SetParameter, GetParameter, hne, hd]

theorem proofAbove_UpdateTxDescription (tx : AtomicSwapTransaction F G) (sub : SubTxID)
    (st : TxStatus) (h : Nat) :
    Rollback.proofAbove (tx.UpdateTxDescription st) sub h = Rollback.proofAbove tx sub h := by
  simp [Rollback.proofAbove, UpdateTxDescription, SetParameter, GetParameter]

/-- What `Rollback` does on the native side. -/
theorem Rollback_native (tx : AtomicSwapTransaction F G) (h : Nat)
    (hside : tx.IsUfoSide.1 = true) :
    Rollback tx h =
      (Rollback.proofAbove tx .UFO_REFUND_TX h || Rollback.proofAbove tx .UFO_LOCK_TX h,
        match Rollback.proofAbove tx .UFO_REFUND_TX h, Rollback.proofAbove tx .UFO_LOCK_TX h with
        | true, true =>
          (Rollback.reset (Rollback.reset tx.IsUfoSide.2 .UFO_REFUND_TX .SendingUfoRefundTX)
            .UFO_LOCK_TX .SendingUfoLockTX).UpdateTxDescription .InProgress
        | true, false =>
          (Rollback.reset tx.IsUfoSide.2 .UFO_REFUND_TX
            .SendingUfoRefundTX).UpdateTxDescription .InProgress
        | false, true =>
          (Rollback.reset tx.IsUfoSide.2 .UFO_LOCK_TX
            .SendingUfoLockTX).UpdateTxDescription .InProgress
        | false, false => tx.IsUfoSide.2) := by
  have hpair : tx.IsUfoSide = (true, tx.IsUfoSide.2) := by rw [← hside]
  unfold Rollback
  rw [hpair]
  simp only [if_true]
  rw [proofAbove_IsUfoSide]
  rcases h1 : Rollback.proofAbove tx .UFO_REFUND_TX h with _ | _ <;>
  rcases h2 : Rollback.proofAbove tx .UFO_LOCK_TX h with _ | _ <;>
  simp [proofAbove_reset_other, proofAbove_IsUfoSide, h1, h2, kDefaultSubTxID]

/-- What `Rollback` does on the foreign side. -/
theorem Rollback_foreign (tx : AtomicSwapTransaction F G) (h : Nat)
    (hside : tx.IsUfoSide.1 = false) :
    Rollback tx h =
      (Rollback.proofAbove tx .UFO_REDEEM_TX h,
        if Rollback.proofAbove tx .UFO_REDEEM_TX h then
          (Rollback.reset tx.IsUfoSide.2 .UFO_REDEEM_TX
            .SendingUfoRedeemTX).UpdateTxDescription .InProgress
        else tx.IsUfoSide.2) := by
  have hpair : tx.IsUfoSide = (false, tx.IsUfoSide.2) := by rw [← hside]
  unfold Rollback
  rw [hpair]
  simp only [Bool.false_eq_true, if_false]
  rw [proofAbove_IsUfoSide]
  rcases h1 : Rollback.proofAbove tx .UFO_REDEEM_TX h with _ | _ <;> simp


theorem params_reset (tx : AtomicSwapTransaction F G) (sub : SubTxID) (s : State)
    (sub' : SubTxID) (id : TxParameterID) :
    (Rollback.reset tx sub s).params sub' id =
      if sub' = kDefaultSubTxID ∧ id = .State then some (.state s)
      else if sub' = sub ∧ id = .KernelUnconfirmedHeight then some (.u64 0)
      else if sub' = sub ∧ id = .KernelProofHeight then some (.u64 0)
      else tx.params sub' id := by
  simp [Rollback.reset, SetState, SetParameter]

theorem params_UpdateTxDescription (tx : AtomicSwapTransaction F G) (st : TxStatus)
    (sub' : SubTxID) (id : TxParameterID) :
    (tx.UpdateTxDescription st).params sub' id =
      if sub' = kDefaultSubTxID ∧ id = .Status then some (.status st)
      else tx.params sub' id := by
  simp [UpdateTxDescription, SetParameter]


theorem rollbacks_IsUfoSide (tx : AtomicSwapTransaction F G) :
    tx.IsUfoSide.2.rollbacks = tx.rollbacks := by
  unfold IsUfoSide
  cases tx.m_IsUfoSide <;> rfl

/-! ## Failure classification, continued -/

/-- C11. For every reason and notify flag, `OnFailed` on a foreign-side swap
(`IsUfoSide()` false) in `SendingUfoLockTX` or `SendingUfoRedeemTX` sets the
top state to `SendingRefundTX`, not to `Failed`, and does not call
`RollbackTx`. -/
theorem OnFailed_foreign_to_refund (env : Env F G) (tx : AtomicSwapTransaction F G)
    (reason : TxFailureReason) (notify : Bool)
    (hstate : tx.GetState kDefaultSubTxID = .SendingUfoLockTX
      ∨ tx.GetState kDefaultSubTxID = .SendingUfoRedeemTX)
    (hside : tx.IsUfoSide.1 = false) :
    (OnFailed env tx reason notify).GetState kDefaultSubTxID = .SendingRefundTX
    ∧ (OnFailed env tx reason notify).GetState kDefaultSubTxID ≠ .Failed
    ∧ (OnFailed env tx reason notify).rollbacks = tx.rollbacks := by
  have hst : (OnFailed env tx reason notify).GetState kDefaultSubTxID = .SendingRefundTX := by
    rw [OnFailed_eq]
    rcases hstate with h | h <;> simp only [h, hside] <;> exact GetState_SetNextState _ _
  refine ⟨hst, by rw [hst]; decide, ?_⟩
  rw [OnFailed_eq]
  rcases hstate with h | h <;> simp only [h, hside] <;>
    simp [rollbacks_SetNextState, OnFailed.entry_rollbacks]

/-- Witness of C11: both states, with and without notification. -/
theorem OnFailed_foreign_to_refund_witness :
    ((OnFailed Example.env (Example.swapIn .SendingUfoLockTX false) .FailedToRegister
          true).GetState kDefaultSubTxID = .SendingRefundTX
      ∧ (OnFailed Example.env (Example.swapIn .SendingUfoLockTX false) .FailedToRegister
          true).GetState kDefaultSubTxID ≠ .Failed
      ∧ (OnFailed Example.env (Example.swapIn .SendingUfoLockTX false) .FailedToRegister
          true).rollbacks = (Example.swapIn .SendingUfoLockTX false).rollbacks)
    ∧ ((OnFailed Example.env (Example.swapIn .SendingUfoRedeemTX false) .SubTxFailed
          false).GetState kDefaultSubTxID = .SendingRefundTX
      ∧ (OnFailed Example.env (Example.swapIn .SendingUfoRedeemTX false) .SubTxFailed
          false).GetState kDefaultSubTxID ≠ .Failed
      ∧ (OnFailed Example.env (Example.swapIn .SendingUfoRedeemTX false) .SubTxFailed
          false).rollbacks = (Example.swapIn .SendingUfoRedeemTX false).rollbacks) :=
  ⟨OnFailed_foreign_to_refund Example.env (Example.swapIn .SendingUfoLockTX false)
      .FailedToRegister true (Or.inl rfl) rfl,
   OnFailed_foreign_to_refund Example.env (Example.swapIn .SendingUfoRedeemTX false)
      .SubTxFailed false (Or.inr rfl) rfl⟩

/-- The top state and the number of rollbacks after `OnFailed`. -/
theorem OnFailed_state_rollbacks (env : Env F G) (tx : AtomicSwapTransaction F G)
    (reason : TxFailureReason) (notify : Bool) :
    ((OnFailed env tx reason notify).GetState kDefaultSubTxID,
        (OnFailed env tx reason notify).rollbacks) =
      match tx.GetState kDefaultSubTxID with
      | .Initial => (.Failed, tx.rollbacks)
      | .BuildingUfoLockTX
      | .BuildingUfoRedeemTX
      | .BuildingUfoRefundTX
      | .HandlingContractTX => (.Failed, tx.rollbacks + 1)
      | .SendingUfoLockTX =>
        if tx.IsUfoSide.1 then (.Failed, tx.rollbacks + 1)
        else (.SendingRefundTX, tx.rollbacks)
      | .SendingUfoRedeemTX =>
        if tx.IsUfoSide.1 then (.SendingUfoRedeemTX, tx.rollbacks)
        else (.SendingRefundTX, tx.rollbacks)
      | s => (s, tx.rollbacks) := by
  have hassert : ({ OnFailed.entry env tx reason notify with
      assertFailures := (OnFailed.entry env tx reason notify).assertFailures + 1 } :
      AtomicSwapTransaction F G).GetState kDefaultSubTxID
      = tx.GetState kDefaultSubTxID := OnFailed.entry_GetState env tx reason notify _
  have hassertr : ({ OnFailed.entry env tx reason notify with
      assertFailures := (OnFailed.entry env tx reason notify).assertFailures + 1 } :
      AtomicSwapTransaction F G).rollbacks = tx.rollbacks :=
    OnFailed.entry_rollbacks env tx reason notify
  rw [OnFailed_eq]
  cases hs : tx.GetState kDefaultSubTxID <;> cases hb : tx.IsUfoSide.1 <;>
    simp only [Bool.false_eq_true, if_false, if_true, Prod.mk.injEq] <;>
    first
    | exact ⟨GetState_SetNextState _ _, by
        simp [rollbacks_SetNextState, RollbackTx, OnFailed.entry_rollbacks]⟩
    | exact ⟨by rw [hassert, hs], hassertr⟩
    | exact ⟨by rw [OnFailed.entry_GetState, hs], OnFailed.entry_rollbacks _ _ _ _⟩

/-- The top state and the number of rollbacks after `CheckExternalFailures`, when
a `FailureReason` is present. -/
theorem CheckExternalFailures_state_rollbacks (tx : AtomicSwapTransaction F G)
    (r : TxFailureReason)
    (hpresent : (tx.GetParameter .FailureReason).bind Value.asReason = some r) :
    ((CheckExternalFailures tx).2.GetState kDefaultSubTxID,
        (CheckExternalFailures tx).2.rollbacks) =
      match tx.GetState kDefaultSubTxID with
      | .Initial => (.Failed, tx.rollbacks)
      | .BuildingUfoLockTX
      | .BuildingUfoRedeemTX
      | .BuildingUfoRefundTX => (.Failed, tx.rollbacks + 1)
      | .HandlingContractTX =>
        if tx.IsUfoSide.1 then (.Failed, tx.rollbacks + 1)
        else (.HandlingContractTX, tx.rollbacks)
      | s => (s, tx.rollbacks) := by
  have hset : ∀ t : AtomicSwapTransaction F G,
      (t.SetState (.state .Failed)).GetState kDefaultSubTxID = .Failed := by
    intro t
    simp [SetState, SetParameter, GetState, GetParameter, Value.asState]
  unfold CheckExternalFailures
  rw [hpresent]
  cases hs : tx.GetState kDefaultSubTxID <;> simp only [Prod.mk.injEq]
  case HandlingContractTX =>
    have hpair : tx.IsUfoSide = (tx.IsUfoSide.1, tx.IsUfoSide.2) := rfl
    rw [hpair]
    cases hb : tx.IsUfoSide.1 <;> simp only [Bool.false_eq_true, if_false, if_true]
    · rw [GetState_IsUfoSide, hs, rollbacks_IsUfoSide]
    · rw [hset]
      show (State.Failed, tx.IsUfoSide.2.rollbacks + 1) = (State.Failed, tx.rollbacks + 1)
      rw [rollbacks_IsUfoSide]
  all_goals first
    | exact ⟨hset _, rfl⟩
    | exact ⟨hset _, trivial⟩
    | exact ⟨hs, rfl⟩
    | exact ⟨hs, trivial⟩


/-- C12, as stated, fails. A foreign-side swap in `HandlingContractTX` holds a
`FailureReason` from the peer: `CheckExternalFailures` leaves it in
`HandlingContractTX` without a rollback, while `OnFailed` moves it to `Failed`
with a rollback. -/
theorem CheckExternalFailures_differs_counterexample :
    (Example.peerFailed .HandlingContractTX false).GetParameter .FailureReason
        = some (.reason .Canceled)
    ∧ (CheckExternalFailures (Example.peerFailed .HandlingContractTX false)).2.GetState
        kDefaultSubTxID = .HandlingContractTX
    ∧ (CheckExternalFailures (Example.peerFailed .HandlingContractTX false)).2.rollbacks = 0
    ∧ (OnFailed Example.env (Example.peerFailed .HandlingContractTX false) .Canceled
        false).GetState kDefaultSubTxID = .Failed
    ∧ (OnFailed Example.env (Example.peerFailed .HandlingContractTX false) .Canceled
        false).rollbacks = 1 := by
  refine ⟨rfl, rfl, rfl, rfl, rfl⟩

/-- C12, amended. When a `FailureReason` is present, `CheckExternalFailures`
produces the top state and the rollback decision of `OnFailed(reason, notify)`
except in `HandlingContractTX` on the foreign side, in `SendingUfoLockTX`, and
in `SendingUfoRedeemTX` on the foreign side: there `CheckExternalFailures`
leaves the top state and the wallet alone, while `OnFailed` changes the top
state. -/
theorem CheckExternalFailures_vs_OnFailed (env : Env F G) (tx : AtomicSwapTransaction F G)
    (reason r : TxFailureReason) (notify : Bool)
    (hpresent : (tx.GetParameter .FailureReason).bind Value.asReason = some r) :
    (¬ peerFailureIgnored tx →
      (CheckExternalFailures tx).2.GetState kDefaultSubTxID
          = (OnFailed env tx reason notify).GetState kDefaultSubTxID
        ∧ (CheckExternalFailures tx).2.rollbacks = (OnFailed env tx reason notify).rollbacks)
    ∧ (peerFailureIgnored tx →
      (CheckExternalFailures tx).2.GetState kDefaultSubTxID = tx.GetState kDefaultSubTxID
        ∧ (CheckExternalFailures tx).2.rollbacks = tx.rollbacks
        ∧ (OnFailed env tx reason notify).GetState kDefaultSubTxID
          ≠ tx.GetState kDefaultSubTxID) := by
  have h1 := CheckExternalFailures_state_rollbacks tx r hpresent
  have h2 := OnFailed_state_rollbacks env tx reason notify
  unfold peerFailureIgnored
  cases hs : tx.GetState kDefaultSubTxID <;> cases hb : tx.IsUfoSide.1 <;>
    simp only [hs, hb, Bool.false_eq_true, if_false, if_true, Prod.mk.injEq] at h1 h2 <;>
    simp [h1.1, h1.2, h2.1, h2.2]

/-- Witness of the amended C12: the two sides in `HandlingContractTX`. -/
theorem CheckExternalFailures_vs_OnFailed_witness :
    ((CheckExternalFailures (Example.peerFailed .HandlingContractTX true)).2.GetState
          kDefaultSubTxID
        = (OnFailed Example.env (Example.peerFailed .HandlingContractTX true) .Canceled
            true).GetState kDefaultSubTxID
      ∧ (CheckExternalFailures (Example.peerFailed .HandlingContractTX true)).2.rollbacks
        = (OnFailed Example.env (Example.peerFailed .HandlingContractTX true) .Canceled
            true).rollbacks)
    ∧ ((CheckExternalFailures (Example.peerFailed .HandlingContractTX false)).2.GetState
          kDefaultSubTxID
        = (Example.peerFailed .HandlingContractTX false).GetState kDefaultSubTxID
      ∧ (CheckExternalFailures (Example.peerFailed .HandlingContractTX false)).2.rollbacks
        = (Example.peerFailed .HandlingContractTX false).rollbacks
      ∧ (OnFailed Example.env (Example.peerFailed .HandlingContractTX false) .Canceled
            true).GetState kDefaultSubTxID
        ≠ (Example.peerFailed .HandlingContractTX false).GetState kDefaultSubTxID) :=
  ⟨(CheckExternalFailures_vs_OnFailed Example.env (Example.peerFailed .HandlingContractTX true)
      .Canceled .Canceled true rfl).1 (by
        unfold peerFailureIgnored
        decide),
   (CheckExternalFailures_vs_OnFailed Example.env
      (Example.peerFailed .HandlingContractTX false) .Canceled .Canceled true rfl).2
      (Or.inl ⟨rfl, rfl⟩)⟩

/-- C14. For a native-side swap (`IsUfoSide()` true) whose Lock sub-tx has a
recorded `KernelProofHeight` above `h`, after `Rollback(h)` the Lock sub-tx has
`KernelProofHeight = 0` and `KernelUnconfirmedHeight = 0` and the top state is
`SendingUfoLockTX`. -/
theorem Rollback_lock (tx : AtomicSwapTransaction F G) (h p : Nat)
    (hside : tx.IsUfoSide.1 = true)
    (hp : tx.GetParameter .KernelProofHeight .UFO_LOCK_TX = some (.u64 p))
    (hgt : p > h) :
    (Rollback tx h).2.GetParameter .KernelProofHeight .UFO_LOCK_TX = some (.u64 0)
    ∧ (Rollback tx h).2.GetParameter .KernelUnconfirmedHeight .UFO_LOCK_TX = some (.u64 0)
    ∧ (Rollback tx h).2.GetState kDefaultSubTxID = .SendingUfoLockTX := by
  have hl : Rollback.proofAbove tx .UFO_LOCK_TX h = true :=
    (proofAbove_iff tx _ h).2 ⟨p, hp, hgt⟩
  rw [Rollback_native tx h hside, hl]
  rcases Rollback.proofAbove tx .UFO_REFUND_TX h with _ | _ <;>
    simp [GetParameter, GetState, params_reset, params_UpdateTxDescription, kDefaultSubTxID,
      Value.asState]


/-- Witness of C14: the Lock kernel was proved at `100`, the chain goes back to `50`. -/
theorem Rollback_lock_witness :
    (Rollback Example.nativeRefunded 50).2.GetParameter .KernelProofHeight .UFO_LOCK_TX
        = some (.u64 0)
    ∧ (Rollback Example.nativeRefunded 50).2.GetParameter .KernelUnconfirmedHeight
        .UFO_LOCK_TX = some (.u64 0)
    ∧ (Rollback Example.nativeRefunded 50).2.GetState kDefaultSubTxID = .SendingUfoLockTX :=
  Rollback_lock Example.nativeRefunded 50 100 rfl rfl (by decide)

/-- C13, as stated, fails. In the native-side swap `Example.nativeRefunded` the
Refund kernel was proved at `500` and the Lock kernel at `100`; after
`Rollback(50)` the Refund heights are `0` but the top state is
`SendingUfoLockTX`, not `SendingUfoRefundTX`. -/
theorem Rollback_refund_and_lock_counterexample :
    Example.nativeRefunded.IsUfoSide.1 = true
    ∧ Example.nativeRefunded.GetParameter .KernelProofHeight .UFO_REFUND_TX
        = some (.u64 500)
    ∧ (Rollback Example.nativeRefunded 50).2.GetParameter .KernelProofHeight .UFO_REFUND_TX
        = some (.u64 0)
    ∧ (Rollback Example.nativeRefunded 50).2.GetState kDefaultSubTxID = .SendingUfoLockTX
    ∧ (Rollback Example.nativeRefunded 50).2.GetState kDefaultSubTxID
        ≠ .SendingUfoRefundTX := by
  refine ⟨rfl, rfl, rfl, rfl, ?_⟩
  decide

/-- C13, amended. For a native-side swap whose Refund sub-tx has a recorded
`KernelProofHeight` above `h`, after `Rollback(h)` the Refund sub-tx has
`KernelProofHeight = 0` and `KernelUnconfirmedHeight = 0`, and the top state
is `SendingUfoRefundTX` unless the Lock sub-tx has a recorded
`KernelProofHeight` above `h` too, in which case it is `SendingUfoLockTX`. -/
theorem Rollback_refund (tx : AtomicSwapTransaction F G) (h p : Nat)
    (hside : tx.IsUfoSide.1 = true)
    (hp : tx.GetParameter .KernelProofHeight .UFO_REFUND_TX = some (.u64 p))
    (hgt : p > h) :
    (Rollback tx h).2.GetParameter .KernelProofHeight .UFO_REFUND_TX = some (.u64 0)
    ∧ (Rollback tx h).2.GetParameter .KernelUnconfirmedHeight .UFO_REFUND_TX = some (.u64 0)
    ∧ (¬ hasProofAbove tx .UFO_LOCK_TX h →
        (Rollback tx h).2.GetState kDefaultSubTxID = .SendingUfoRefundTX)
    ∧ (hasProofAbove tx .UFO_LOCK_TX h →
        (Rollback tx h).2.GetState kDefaultSubTxID = .SendingUfoLockTX) := by
  have hr : Rollback.proofAbove tx .UFO_REFUND_TX h = true :=
    (proofAbove_iff tx _ h).2 ⟨p, hp, hgt⟩
  rw [Rollback_native tx h hside, hr, ← proofAbove_iff]
  rcases Rollback.proofAbove tx .UFO_LOCK_TX h with _ | _ <;>
    simp [GetParameter, GetState, params_reset, params_UpdateTxDescription, kDefaultSubTxID,
      Value.asState]

/-- Witness of the amended C13: the chain goes back to `200`, above the Lock
proof; and to `50`, below it. -/
theorem Rollback_refund_witness :
    (Rollback Example.nativeRefunded 200).2.GetState kDefaultSubTxID = .SendingUfoRefundTX
    ∧ (Rollback Example.nativeRefunded 50).2.GetState kDefaultSubTxID = .SendingUfoLockTX :=
  ⟨(Rollback_refund Example.nativeRefunded 200 500 rfl rfl (by decide)).2.2.1
      (by rintro ⟨p, hp, hgt⟩
          have e : (some (Value.u64 p) : Option (Value Int Int)) = some (.u64 100) :=
            hp.symm.trans rfl
          simp only [Option.some.injEq, Value.u64.injEq] at e
          omega),
   (Rollback_refund Example.nativeRefunded 50 500 rfl rfl (by decide)).2.2.2
      ⟨100, rfl, by decide⟩⟩

/-- C15. For a foreign-side swap (`IsUfoSide()` false): if the Redeem sub-tx has a
recorded `KernelProofHeight` above `h`, then after `Rollback(h)` its
`KernelProofHeight` and `KernelUnconfirmedHeight` are `0` and the top state is
`SendingUfoRedeemTX`; and whatever `h`, `Rollback(h)` changes no parameter of
the Lock and Refund sub-txs. -/
theorem Rollback_redeem_foreign (tx : AtomicSwapTransaction F G) (h : Nat)
    (hside : tx.IsUfoSide.1 = false) :
    (hasProofAbove tx .UFO_REDEEM_TX h →
      (Rollback tx h).2.GetParameter .KernelProofHeight .UFO_REDEEM_TX = some (.u64 0)
      ∧ (Rollback tx h).2.GetParameter .KernelUnconfirmedHeight .UFO_REDEEM_TX
          = some (.u64 0)
      ∧ (Rollback tx h).2.GetState kDefaultSubTxID = .SendingUfoRedeemTX)
    ∧ ∀ id : TxParameterID,
        (Rollback tx h).2.GetParameter id .UFO_LOCK_TX = tx.GetParameter id .UFO_LOCK_TX
        ∧ (Rollback tx h).2.GetParameter id .UFO_REFUND_TX
            = tx.GetParameter id .UFO_REFUND_TX := by
  rw [Rollback_foreign tx h hside, ← proofAbove_iff]
  rcases Rollback.proofAbove tx .UFO_REDEEM_TX h with _ | _ <;>
    simp [GetParameter, GetState, params_reset, params_UpdateTxDescription, kDefaultSubTxID,
      Value.asState, params_IsUfoSide]

/-- Witness of C15: the Redeem kernel was proved at `120`, the chain goes back
to `110`. -/
theorem Rollback_redeem_foreign_witness :
    ((Rollback Example.foreignRedeemed 110).2.GetParameter .KernelProofHeight .UFO_REDEEM_TX
        = some (.u64 0)
      ∧ (Rollback Example.foreignRedeemed 110).2.GetParameter .KernelUnconfirmedHeight
          .UFO_REDEEM_TX = some (.u64 0)
      ∧ (Rollback Example.foreignRedeemed 110).2.GetState kDefaultSubTxID
          = .SendingUfoRedeemTX)
    ∧ (Rollback Example.foreignRedeemed 110).2.GetParameter .KernelProofHeight .UFO_LOCK_TX
        = some (.u64 100) :=
  ⟨(Rollback_redeem_foreign Example.foreignRedeemed 110 rfl).1 ⟨120, rfl, by decide⟩,
   ((Rollback_redeem_foreign Example.foreignRedeemed 110 rfl).2 .KernelProofHeight).1⟩

/-- C16. The result of `Rollback(h)` is `true` exactly when a relevant sub-tx has a
recorded `KernelProofHeight` above `h`: Refund or Lock on the native side,
Redeem on the foreign side. When it is `true` the status is `InProgress`
afterwards; when it is `false` the parameter store, and so the top state, all
kernel heights and the status, is unchanged. -/
theorem Rollback_result (tx : AtomicSwapTransaction F G) (h : Nat) :
    ((Rollback tx h).1 = true ↔
      (tx.IsUfoSide.1 = true
          ∧ (hasProofAbove tx .UFO_REFUND_TX h ∨ hasProofAbove tx .UFO_LOCK_TX h))
        ∨ (tx.IsUfoSide.1 = false ∧ hasProofAbove tx .UFO_REDEEM_TX h))
    ∧ ((Rollback tx h).1 = true →
        (Rollback tx h).2.GetParameter .Status = some (.status .InProgress))
    ∧ ((Rollback tx h).1 = false → (Rollback tx h).2.params = tx.params) := by
  simp only [← proofAbove_iff]
  cases hb : tx.IsUfoSide.1
  · rw [Rollback_foreign tx h hb]
    rcases Rollback.proofAbove tx .UFO_REDEEM_TX h with _ | _ <;>
      simp [GetParameter, params_UpdateTxDescription, kDefaultSubTxID, params_IsUfoSide]
  · rw [Rollback_native tx h hb]
    rcases Rollback.proofAbove tx .UFO_REFUND_TX h with _ | _ <;>
    rcases Rollback.proofAbove tx .UFO_LOCK_TX h with _ | _ <;>
      simp [GetParameter, params_UpdateTxDescription, kDefaultSubTxID, params_IsUfoSide]

theorem Rollback_of_cached_native (tx : AtomicSwapTransaction F G) (h : Nat)
    (hc : tx.m_IsUfoSide = some true)
    (h1 : Rollback.proofAbove tx .UFO_REFUND_TX h = false)
    (h2 : Rollback.proofAbove tx .UFO_LOCK_TX h = false) :
    Rollback tx h = (false, tx) := by
  have hs := IsUfoSide_of_cached tx true hc
  rw [Rollback_native tx h (by rw [hs]), h1, h2, hs]
  rfl

theorem Rollback_of_cached_foreign (tx : AtomicSwapTransaction F G) (h : Nat)
    (hc : tx.m_IsUfoSide = some false)
    (h1 : Rollback.proofAbove tx .UFO_REDEEM_TX h = false) :
    Rollback tx h = (false, tx) := by
  have hs := IsUfoSide_of_cached tx false hc
  rw [Rollback_foreign tx h (by rw [hs]), h1, hs]
  rfl

/-- C17. `Rollback` is idempotent: a second `Rollback(h)` returns `false` and
leaves the whole object, and so the top state, the kernel heights and the
status, as the first one left it. -/
theorem Rollback_idempotent (tx : AtomicSwapTransaction F G) (h : Nat) :
    Rollback (Rollback tx h).2 h = (false, (Rollback tx h).2) := by
  have hc := IsUfoSide_snd_cached tx
  cases hb : tx.IsUfoSide.1
  · rw [hb] at hc
    rw [Rollback_foreign tx h hb]
    rcases h1 : Rollback.proofAbove tx .UFO_REDEEM_TX h with _ | _ <;>
      simp only [Bool.false_eq_true, if_false, if_true]
    · exact Rollback_of_cached_foreign _ h hc (by rw [proofAbove_IsUfoSide, h1])
    · exact Rollback_of_cached_foreign _ h hc (by
        simp [proofAbove_UpdateTxDescription, proofAbove_reset_same])
  · rw [hb] at hc
    rw [Rollback_native tx h hb]
    rcases h1 : Rollback.proofAbove tx .UFO_REFUND_TX h with _ | _ <;>
    rcases h2 : Rollback.proofAbove tx .UFO_LOCK_TX h with _ | _ <;>
      exact Rollback_of_cached_native _ h hc
        (by simp [proofAbove_UpdateTxDescription, proofAbove_reset_same,
              proofAbove_reset_other, proofAbove_IsUfoSide, h1, kDefaultSubTxID])
        (by simp [proofAbove_UpdateTxDescription, proofAbove_reset_same,
              proofAbove_reset_other, proofAbove_IsUfoSide, h2, kDefaultSubTxID])


/-! ## Expiry -/

theorem CheckExpired_fst_iff (env : Env F G) (tx : AtomicSwapTransaction F G) :
    (CheckExpired env tx).1 = true ↔ Expired env tx := by
  rcases CheckExpired_cases env tx with ⟨he, hc⟩ | ⟨he, hc⟩
  · rw [hc]
    exact ⟨fun _ => he, fun _ => rfl⟩
  · rw [hc]
    exact ⟨fun h => Bool.noConfusion h, fun h => absurd h he⟩

theorem CheckExpired_of_true (env : Env F G) (tx : AtomicSwapTransaction F G)
    (h : (CheckExpired env tx).1 = true) :
    CheckExpired env tx = (true, OnFailed env tx .TransactionExpired false) := by
  rcases CheckExpired_cases env tx with ⟨_, hc⟩ | ⟨_, hc⟩
  · exact hc
  · rw [hc] at h
    exact Bool.noConfusion h

theorem CheckExpired_of_false (env : Env F G) (tx : AtomicSwapTransaction F G)
    (h : (CheckExpired env tx).1 = false) :
    CheckExpired env tx = (false, tx) := by
  rcases CheckExpired_cases env tx with ⟨_, hc⟩ | ⟨_, hc⟩
  · rw [hc] at h
    exact Bool.noConfusion h
  · exact hc

theorem OnFailed.entry_reason (env : Env F G) (tx : AtomicSwapTransaction F G)
    (reason : TxFailureReason) (notify : Bool) :
    (OnFailed.entry env tx reason notify).params kDefaultSubTxID .InternalFailureReason
      = some (.reason reason) := by
  unfold OnFailed.entry
  rw [params_IsUfoSide]
  simp [SetParameter, kDefaultSubTxID]

theorem OnFailed_reason (env : Env F G) (tx : AtomicSwapTransaction F G)
    (reason : TxFailureReason) (notify : Bool) :
    (OnFailed env tx reason notify).GetParameter .InternalFailureReason
      = some (.reason reason) := by
  have he := OnFailed.entry_reason env tx reason notify
  rw [OnFailed_eq]
  cases tx.GetState kDefaultSubTxID <;> cases tx.IsUfoSide.1 <;>
    simp [GetParameter, SetNextState, SetState, SetParameter, UpdateAsync, RollbackTx, he,
      kDefaultSubTxID] <;> exact he

/-- C18. `CheckExpired` returns `true` exactly when the swap is expired in the
words of the spec (`Expired`): no top-level `InternalFailureReason`, a status
other than `Failed`, `Canceled` and `Completed`, a limit `L` (the `MaxHeight`
of the Lock sub-tx, else `PeerResponseHeight`), and either the Lock sub-tx
lacks `TransactionRegistered` or `KernelID` and the tip is known and above
`L`, or it has both and its `KernelUnconfirmedHeight` is positive and at least
`L`. Whenever it returns `false` the object is unchanged. -/
theorem CheckExpired_iff_expired (env : Env F G) (tx : AtomicSwapTransaction F G) :
    ((CheckExpired env tx).1 = true ↔ Expired env tx)
    ∧ ((CheckExpired env tx).1 = false → (CheckExpired env tx).2 = tx) :=
  ⟨CheckExpired_fst_iff env tx, fun h => by rw [CheckExpired_of_false env tx h]⟩

/-- An instance of C18: with `PeerResponseHeight = 150` and nothing recorded for
the Lock sub-tx, the check is negative at tip `150`, where it changes nothing,
and positive at tip `151`. -/
theorem CheckExpired_iff_expired_witness :
    (CheckExpired (Example.env.atTip 150) Example.waiting).1 = false
    ∧ (CheckExpired (Example.env.atTip 150) Example.waiting).2 = Example.waiting
    ∧ (CheckExpired (Example.env.atTip 151) Example.waiting).1 = true :=
  ⟨rfl, (CheckExpired_iff_expired (Example.env.atTip 150) Example.waiting).2 rfl, rfl⟩

/-- C19. Whenever `CheckExpired` returns `true`, what it did to the swap is
`OnFailed(TransactionExpired, false)`: no message is handed to the transport,
the top-level `InternalFailureReason` is `TransactionExpired`, and the top
state is the one `OnFailed` gives; from `HandlingContractTX` that is `Failed`,
after one rollback of the wallet. -/
theorem CheckExpired_effect (env : Env F G) (tx : AtomicSwapTransaction F G)
    (hret : (CheckExpired env tx).1 = true) :
    (CheckExpired env tx).2 = OnFailed env tx .TransactionExpired false
    ∧ (CheckExpired env tx).2.outbox = tx.outbox
    ∧ (CheckExpired env tx).2.GetParameter .InternalFailureReason
        = some (.reason .TransactionExpired)
    ∧ (tx.GetState kDefaultSubTxID = .HandlingContractTX →
        (CheckExpired env tx).2.GetState kDefaultSubTxID = .Failed
        ∧ (CheckExpired env tx).2.rollbacks = tx.rollbacks + 1) := by
  rw [CheckExpired_of_true env tx hret]
  refine ⟨rfl, ?_, OnFailed_reason env tx _ _, ?_⟩
  · show (OnFailed env tx .TransactionExpired false).outbox = tx.outbox
    rw [OnFailed_outbox]
    rfl
  · intro hs
    have h2 := OnFailed_state_rollbacks env tx .TransactionExpired false
    simp only [hs, Prod.mk.injEq] at h2
    exact h2

/-- Witness of C19: the native-side swap in `HandlingContractTX` with
`PeerResponseHeight = 150` and no Lock registration, at tip `151`. -/
theorem CheckExpired_effect_witness :
    Example.waiting.IsUfoSide.1 = true
    ∧ Example.env.tip = some 151
    ∧ (CheckExpired Example.env Example.waiting).1 = true
    ∧ (CheckExpired Example.env Example.waiting).2.outbox = []
    ∧ (CheckExpired Example.env Example.waiting).2.GetParameter .InternalFailureReason
        = some (.reason .TransactionExpired)
    ∧ (CheckExpired Example.env Example.waiting).2.GetState kDefaultSubTxID = .Failed
    ∧ (CheckExpired Example.env Example.waiting).2.rollbacks = 1 :=
  ⟨rfl, rfl, rfl, (CheckExpired_effect Example.env Example.waiting rfl).2.1,
   (CheckExpired_effect Example.env Example.waiting rfl).2.2.1,
   ((CheckExpired_effect Example.env Example.waiting rfl).2.2.2 rfl).1,
   ((CheckExpired_effect Example.env Example.waiting rfl).2.2.2 rfl).2⟩

/-- C20. Expiry detection is monotone in the tip height: on the same object, if
`CheckExpired` returns `true` with the tip at `h`, it returns `true` with the
tip at any `h'` with `h ≤ h'`. -/
theorem CheckExpired_monotone (env : Env F G) (tx : AtomicSwapTransaction F G)
    (h h' : Nat) (hle : h ≤ h')
    (hret : (CheckExpired (env.atTip h) tx).1 = true) :
    (CheckExpired (env.atTip h') tx).1 = true := by
  rw [CheckExpired_fst_iff] at hret ⊢
  obtain ⟨h1, h2, L, hL, hcase⟩ := hret
  refine ⟨h1, h2, L, hL, ?_⟩
  rcases hcase with ⟨hreg, t, ht, hgt⟩ | hb
  · left
    refine ⟨hreg, h', rfl, ?_⟩
    have e : t = h := by
      have : (some h : Option Nat) = some t := ht
      simp only [Option.some.injEq] at this
      exact this.symm
    omega
  · exact Or.inr hb

/-- Witness of C20: tips `151` and `200` for the limit `150`. -/
theorem CheckExpired_monotone_witness :
    (CheckExpired (Example.env.atTip 200) Example.waiting).1 = true :=
  CheckExpired_monotone Example.env Example.waiting 151 200 (by decide) rfl

/-! ## Failures of sub-transactions -/

theorem asReason_eq_some (v : Option (Value F G)) (r : TxFailureReason) :
    v.bind Value.asReason = some r ↔ v = some (.reason r) := by
  rcases v with _ | v
  · simp
  · cases v <;> simp [Value.asReason]

theorem NotifyFailure_outbox (env : Env F G) (tx : AtomicSwapTransaction F G)
    (reason : TxFailureReason) :
    (NotifyFailure env tx reason).outbox
      = (SetTxParameter.empty.AddParameter .FailureReason (.reason reason),
          env.sendOk tx (SetTxParameter.empty.AddParameter .FailureReason (.reason reason)))
        :: tx.outbox := rfl

theorem GetState_SetParameter_of_ne (tx : AtomicSwapTransaction F G) (id : TxParameterID)
    (v : Value F G) (sub sub' : SubTxID) (h : sub ≠ sub' ∨ id ≠ .State) :
    (tx.SetParameter id v sub).GetState sub' = tx.GetState sub' := by
  unfold GetState GetParameter SetParameter
  have : ¬ (sub' = sub ∧ TxParameterID.State = id) := by
    rintro ⟨h1, h2⟩
    rcases h with h | h
    · exact h h1.symm
    · exact h h2.symm
  simp [this]

theorem OnFailed_params_of_ne (env : Env F G) (tx : AtomicSwapTransaction F G)
    (reason : TxFailureReason) (notify : Bool) (s : SubTxID) (i : TxParameterID)
    (h : s ≠ kDefaultSubTxID ∨ (i ≠ .InternalFailureReason ∧ i ≠ .State)) :
    (OnFailed env tx reason notify).params s i = tx.params s i := by
  have he : (OnFailed.entry env tx reason notify).params s i = tx.params s i := by
    unfold OnFailed.entry
    rw [params_IsUfoSide]
    cases notify <;> simp only [SetParameter, NotifyFailure, SendTxParameters] <;>
      rcases h with h | h <;> simp [h, kDefaultSubTxID] <;>
      (intro h1; simp_all [kDefaultSubTxID])
  rw [OnFailed_eq]
  cases tx.GetState kDefaultSubTxID <;> cases tx.IsUfoSide.1 <;>
    simp only [SetNextState, SetState, SetParameter, UpdateAsync, RollbackTx,
      Bool.false_eq_true, if_false, if_true] <;>
    first
    | exact he
    | (rcases h with h | h <;> simp [h, kDefaultSubTxID, he]
       all_goals (intro h1; simp_all [kDefaultSubTxID]))

theorem OnFailed_calls (env : Env F G) (tx : AtomicSwapTransaction F G)
    (reason : TxFailureReason) (notify : Bool) :
    (OnFailed env tx reason notify).calls = tx.calls := by
  have he : (OnFailed.entry env tx reason notify).calls = tx.calls := by
    unfold OnFailed.entry IsUfoSide
    cases notify <;> cases h : tx.m_IsUfoSide <;>
      simp [NotifyFailure, SendTxParameters, SetParameter, h]
  rw [OnFailed_eq, ← he]
  cases tx.GetState kDefaultSubTxID <;> simp only [] <;> (try split) <;> rfl

theorem OnFailed.next_settled (s : State) (b : Bool) :
    OnFailed.next ((OnFailed.next s b).getD s) b = none := by
  cases s <;> cases b <;> rfl

theorem OnFailed.entry_IsUfoSide (env : Env F G) (tx : AtomicSwapTransaction F G)
    (reason : TxFailureReason) (notify : Bool) :
    (OnFailed.entry env tx reason notify).m_IsUfoSide = some tx.IsUfoSide.1 := by
  unfold OnFailed.entry IsUfoSide
  cases notify <;> cases h : tx.m_IsUfoSide <;>
    simp [NotifyFailure, SendTxParameters, SetParameter, GetParameter, h]

theorem OnFailed_m_IsUfoSide (env : Env F G) (tx : AtomicSwapTransaction F G)
    (reason : TxFailureReason) (notify : Bool) :
    (OnFailed env tx reason notify).m_IsUfoSide = some tx.IsUfoSide.1 := by
  rw [OnFailed_eq, ← OnFailed.entry_IsUfoSide env tx reason notify]
  cases tx.GetState kDefaultSubTxID <;> simp only [] <;> (try split) <;> rfl

theorem OnFailed_GetState (env : Env F G) (tx : AtomicSwapTransaction F G)
    (reason : TxFailureReason) (notify : Bool) :
    (OnFailed env tx reason notify).GetState kDefaultSubTxID
      = (OnFailed.next (tx.GetState kDefaultSubTxID) tx.IsUfoSide.1).getD
          (tx.GetState kDefaultSubTxID) := by
  have h := congrArg Prod.fst (OnFailed_state_rollbacks env tx reason notify)
  simp only at h
  rw [h]
  cases tx.GetState kDefaultSubTxID <;> cases tx.IsUfoSide.1 <;> rfl

/-- In a state from which `OnFailed` does not move, it only records the reason
(and notifies). -/
theorem OnFailed_settled (env : Env F G) (tx : AtomicSwapTransaction F G)
    (reason : TxFailureReason) (notify : Bool)
    (h : OnFailed.next (tx.GetState kDefaultSubTxID) tx.IsUfoSide.1 = none) :
    (OnFailed env tx reason notify).params
        = (tx.SetParameter .InternalFailureReason (.reason reason)).params
    ∧ (OnFailed env tx reason notify).rollbacks = tx.rollbacks := by
  have hp : (OnFailed.entry env tx reason notify).params
      = (tx.SetParameter .InternalFailureReason (.reason reason)).params := by
    unfold OnFailed.entry
    rw [params_IsUfoSide]
    cases notify <;> rfl
  have hr := OnFailed.entry_rollbacks env tx reason notify
  rw [OnFailed_eq]
  cases hs : tx.GetState kDefaultSubTxID <;> cases hb : tx.IsUfoSide.1 <;>
    simp only [hs, hb, OnFailed.next, Bool.false_eq_true, if_false, if_true] at h <;>
    first
    | exact Option.noConfusion h
    | exact ⟨hp, hr⟩

/-- What `OnSubTxFailed` does: nothing when the reason is the one recorded. -/
theorem OnSubTxFailed_eq (env : Env F G) (tx : AtomicSwapTransaction F G)
    (reason : TxFailureReason) (sub : SubTxID) (notify : Bool) :
    OnSubTxFailed env tx reason sub notify =
      if (tx.GetParameter .InternalFailureReason sub).bind Value.asReason = some reason
      then tx
      else OnFailed env (tx.SetParameter .InternalFailureReason (.reason reason) sub)
        .SubTxFailed notify := by
  unfold OnSubTxFailed
  rcases h : (tx.GetParameter .InternalFailureReason sub).bind Value.asReason with _ | r
  · simp
  · by_cases hr : r = reason <;> simp [hr]

theorem OnSubTxFailed_recorded (env : Env F G) (tx : AtomicSwapTransaction F G)
    (reason : TxFailureReason) (sub : SubTxID) (notify : Bool)
    (h : tx.GetParameter .InternalFailureReason sub = some (.reason reason)) :
    OnSubTxFailed env tx reason sub notify = tx := by
  rw [OnSubTxFailed_eq, if_pos ((asReason_eq_some _ _).2 h)]

theorem OnSubTxFailed_new (env : Env F G) (tx : AtomicSwapTransaction F G)
    (reason : TxFailureReason) (sub : SubTxID) (notify : Bool)
    (h : tx.GetParameter .InternalFailureReason sub ≠ some (.reason reason)) :
    OnSubTxFailed env tx reason sub notify
      = OnFailed env (tx.SetParameter .InternalFailureReason (.reason reason) sub)
        .SubTxFailed notify := by
  rw [OnSubTxFailed_eq, if_neg (fun hc => h ((asReason_eq_some _ _).1 hc))]

/-- A second `OnSubTxFailed` with the same arguments. -/
theorem OnSubTxFailed_twice (env : Env F G) (tx : AtomicSwapTransaction F G)
    (reason : TxFailureReason) (subTxID : SubTxID) (notify : Bool) :
    (OnSubTxFailed env (OnSubTxFailed env tx reason subTxID notify) reason subTxID
        notify).params = (OnSubTxFailed env tx reason subTxID notify).params
    ∧ (OnSubTxFailed env (OnSubTxFailed env tx reason subTxID notify) reason subTxID
        notify).rollbacks = (OnSubTxFailed env tx reason subTxID notify).rollbacks
    ∧ (subTxID ≠ kDefaultSubTxID →
      OnSubTxFailed env (OnSubTxFailed env tx reason subTxID notify) reason subTxID notify
        = OnSubTxFailed env tx reason subTxID notify) := by
  by_cases hrec : tx.GetParameter .InternalFailureReason subTxID = some (.reason reason)
  · rw [OnSubTxFailed_recorded env tx reason subTxID notify hrec,
      OnSubTxFailed_recorded env tx reason subTxID notify hrec]
    exact ⟨rfl, rfl, fun _ => rfl⟩
  rw [OnSubTxFailed_new env tx reason subTxID notify hrec]
  generalize htx1 : tx.SetParameter .InternalFailureReason (.reason reason) subTxID = tx1
  by_cases h2 : (OnFailed env tx1 .SubTxFailed notify).GetParameter .InternalFailureReason
      subTxID = some (.reason reason)
  · rw [OnSubTxFailed_recorded env _ reason subTxID notify h2]
    exact ⟨rfl, rfl, fun _ => rfl⟩
  have hsub : subTxID = kDefaultSubTxID := by
    by_contra hne
    apply h2
    unfold GetParameter
    rw [OnFailed_params_of_ne env tx1 _ _ _ _ (Or.inl hne), ← htx1]
    simp [SetParameter]
  subst hsub
  rw [OnSubTxFailed_new env _ reason _ notify h2]
  have hsettled := OnFailed_settled env
    ((OnFailed env tx1 .SubTxFailed notify).SetParameter .InternalFailureReason
      (.reason reason) kDefaultSubTxID) .SubTxFailed notify (by
      rw [GetState_SetParameter_of_ne _ _ _ _ _ (Or.inr (by decide)), OnFailed_GetState]
      have hside : ((OnFailed env tx1 .SubTxFailed notify).SetParameter
          .InternalFailureReason (.reason reason) kDefaultSubTxID).IsUfoSide.1
          = tx1.IsUfoSide.1 := by
        rw [IsUfoSide_of_cached ((OnFailed env tx1 .SubTxFailed notify).SetParameter
            .InternalFailureReason (.reason reason) kDefaultSubTxID) tx1.IsUfoSide.1
          (OnFailed_m_IsUfoSide env tx1 .SubTxFailed notify)]
      rw [hside]
      exact OnFailed.next_settled _ _)
  refine ⟨?_, hsettled.2, fun hne => absurd rfl hne⟩
  rw [hsettled.1]
  funext s i
  have hO := OnFailed_reason env tx1 .SubTxFailed notify
  unfold GetParameter at hO
  simp only [SetParameter]
  by_cases hsi : s = kDefaultSubTxID ∧ i = .InternalFailureReason
  · rw [if_pos hsi, hsi.1, hsi.2, hO]
  · rw [if_neg hsi, if_neg hsi]

/-- The outbox after `SendSubTx`, when it raises a failure that was not recorded. -/
theorem SendSubTx_cases (env : Env F G) (tx : AtomicSwapTransaction F G)
    (transaction : Transaction) (sub : SubTxID) :
    (SendSubTx env tx transaction sub).2 = tx.call (.register_tx transaction sub)
    ∨ (SendSubTx env tx transaction sub).2 = tx
    ∨ (SendSubTx env tx transaction sub).2
        = OnSubTxFailed env tx .FailedToRegister sub (sub == .UFO_LOCK_TX) := by
  unfold SendSubTx
  split
  · exact Or.inl rfl
  · split
    · split
      · split
        · exact Or.inr (Or.inr rfl)
        · exact Or.inr (Or.inl rfl)
      · exact Or.inr (Or.inl rfl)
    · split
      · exact Or.inr (Or.inr rfl)
      · exact Or.inr (Or.inl rfl)

/-- The three ways `GetKernelFromChain` ends. -/
theorem GetKernelFromChain_cases (tx : AtomicSwapTransaction F G) (sub : SubTxID) :
    (∃ e, GetKernelFromChain tx sub = (.error e, tx))
    ∨ (∃ k, GetKernelFromChain tx sub = (.ok false, tx.call (.get_kernel k sub)))
    ∨ GetKernelFromChain tx sub = (.ok true, tx) := by
  unfold GetKernelFromChain
  simp only []
  split
  · rcases tx.GetMandatoryParameter Value.asBytes .KernelID .UFO_REDEEM_TX with e | k
    · exact Or.inl ⟨e, rfl⟩
    · exact Or.inr (Or.inl ⟨k, rfl⟩)
  · exact Or.inr (Or.inr rfl)

theorem CheckSubTxFailures_of_state (env : Env F G) (tx : AtomicSwapTransaction F G)
    (h1 : tx.GetState kDefaultSubTxID ≠ .Initial)
    (h2 : tx.GetState kDefaultSubTxID ≠ .HandlingContractTX) :
    CheckSubTxFailures env tx = tx := by
  unfold CheckSubTxFailures
  simp [h1, h2]

/-! ## What the builders and the failure handlers leave alone -/

theorem quiet_refl (a : AtomicSwapTransaction F G) : Quiet a a :=
  ⟨rfl, fun _ _ _ _ => rfl, Or.inl rfl⟩

theorem quiet_trans {a b c : AtomicSwapTransaction F G} (h1 : Quiet a b) (h2 : Quiet b c) :
    Quiet a c := by
  refine ⟨h2.1.trans h1.1, fun id i1 i2 i3 => (h2.2.1 id i1 i2 i3).trans (h1.2.1 id i1 i2 i3),
    ?_⟩
  rcases h2.2.2 with h | h | h
  · rw [h]
    exact h1.2.2
  · exact Or.inr (Or.inl h)
  · exact Or.inr (Or.inr h)

/-- A step that leaves the store and the calls alone. -/
theorem quiet_step {a b c : AtomicSwapTransaction F G} (hp : c.params = b.params)
    (hc : c.calls = b.calls) (h : Quiet a b) : Quiet a c :=
  quiet_trans h ⟨hc, fun _ _ _ _ => by rw [hp], Or.inl (by unfold GetState GetParameter; rw [hp])⟩

theorem quiet_step_members {a b c : AtomicSwapTransaction F G} (hp : c.params = b.params)
    (hc : c.calls = b.calls) (h : Quiet a b) : Quiet a c :=
  quiet_step hp hc h

theorem quiet_step_SetParameter_sub {a b : AtomicSwapTransaction F G} (id : TxParameterID)
    (v : Value F G) (sub : SubTxID) (hsub : sub ≠ kDefaultSubTxID) (h : Quiet a b) :
    Quiet a (b.SetParameter id v sub) :=
  quiet_trans h ⟨rfl, fun i _ _ _ => by simp [SetParameter, hsub.symm],
    Or.inl (GetState_SetParameter_of_ne _ _ _ _ _ (Or.inl hsub))⟩

theorem quiet_step_SetState_sub {a b : AtomicSwapTransaction F G}
    (v : Value F G) (sub : SubTxID) (hsub : sub ≠ kDefaultSubTxID) (h : Quiet a b) :
    Quiet a (b.SetState v sub) :=
  quiet_step_SetParameter_sub _ _ _ hsub h

theorem quiet_step_withSubParams {a b : AtomicSwapTransaction F G} (sub : SubTxID)
    (f : TxParameters F G → TxParameters F G) (hsub : sub ≠ kDefaultSubTxID)
    (h : Quiet a b) : Quiet a (b.withSubParams sub f) :=
  quiet_trans h ⟨rfl, fun i _ _ _ => by simp [withSubParams, hsub.symm],
    Or.inl (by unfold GetState GetParameter withSubParams; simp [hsub.symm])⟩

theorem quiet_step_UpdateTxDescription {a b : AtomicSwapTransaction F G} (st : TxStatus)
    (h : Quiet a b) : Quiet a (b.UpdateTxDescription st) :=
  quiet_trans h ⟨rfl, fun i _ h2 _ => by simp [UpdateTxDescription, SetParameter, h2],
    Or.inl (GetState_SetParameter_of_ne _ _ _ _ _ (Or.inr (by decide)))⟩

theorem quiet_step_IsUfoSide {a b : AtomicSwapTransaction F G} (h : Quiet a b) :
    Quiet a b.IsUfoSide.2 :=
  quiet_step (params_IsUfoSide b) (by unfold IsUfoSide; split <;> rfl) h

theorem quiet_step_GetAmount {a b : AtomicSwapTransaction F G} (h : Quiet a b) :
    Quiet a b.GetAmount.2 := by
  refine quiet_step ?_ ?_ h <;> unfold GetAmount <;> split <;> (try split) <;> rfl

theorem quiet_step_IsSender {a b : AtomicSwapTransaction F G} (h : Quiet a b) :
    Quiet a b.IsSender.2 := by
  refine quiet_step ?_ ?_ h <;> unfold IsSender <;> split <;> (try split) <;> rfl

theorem quiet_step_SendTxParameters (env : Env F G) {a b : AtomicSwapTransaction F G}
    (msg : SetTxParameter F G) (h : Quiet a b) : Quiet a (SendTxParameters env b msg).2 :=
  quiet_step rfl rfl h

theorem quiet_step_OnFailed (env : Env F G) {a b : AtomicSwapTransaction F G}
    (reason : TxFailureReason) (notify : Bool) (h : Quiet a b) :
    Quiet a (OnFailed env b reason notify) := by
  refine quiet_trans h ⟨OnFailed_calls env b reason notify, fun i h1 _ h3 =>
    OnFailed_params_of_ne env b reason notify _ _ (Or.inr ⟨h1, h3⟩), ?_⟩
  rw [OnFailed_GetState]
  cases b.GetState kDefaultSubTxID <;> cases b.IsUfoSide.1 <;> simp [OnFailed.next]

theorem quiet_step_OnSubTxFailed (env : Env F G) {a b : AtomicSwapTransaction F G}
    (reason : TxFailureReason) (sub : SubTxID) (notify : Bool) (h : Quiet a b) :
    Quiet a (OnSubTxFailed env b reason sub notify) := by
  rw [OnSubTxFailed_eq]
  split
  · exact h
  · refine quiet_step_OnFailed env _ _ (quiet_trans h ⟨rfl, fun i h1 _ _ => ?_, Or.inl ?_⟩)
    · simp [SetParameter, h1]
    · exact GetState_SetParameter_of_ne _ _ _ _ _ (Or.inr (by decide))

/-- The tail shared by the senders: send, and fail when the transport refuses. -/
theorem quiet_send_or_fail (env : Env F G) {a : AtomicSwapTransaction F G}
    (tx : AtomicSwapTransaction F G) (msg : SetTxParameter F G) (ha : Quiet a tx) :
    Quiet a
      (if !(SendTxParameters env tx msg).1 then
        OnFailed env (SendTxParameters env tx msg).2 .FailedToSendParameters false
      else (SendTxParameters env tx msg).2) := by
  split
  · exact quiet_step_OnFailed env _ _ (quiet_step_SendTxParameters env msg ha)
  · exact quiet_step_SendTxParameters env msg ha

theorem quiet_send_or_fail_snd {α : Type} (env : Env F G) {a : AtomicSwapTransaction F G}
    (tx : AtomicSwapTransaction F G) (msg : SetTxParameter F G) (r : α)
    (ha : Quiet a tx) :
    Quiet a
      (if !(SendTxParameters env tx msg).1 then
        (r, OnFailed env (SendTxParameters env tx msg).2 .FailedToSendParameters false)
      else (r, (SendTxParameters env tx msg).2)).2 := by
  split
  · exact quiet_step_OnFailed env _ _ (quiet_step_SendTxParameters env msg ha)
  · exact quiet_step_SendTxParameters env msg ha

theorem quiet_of_GetAmount {a tx tx1 : AtomicSwapTransaction F G}
    {r : Except SwapException Nat} (h : tx.GetAmount = (r, tx1)) (ha : Quiet a tx) :
    Quiet a tx1 := by
  have h2 := quiet_step_GetAmount ha
  rw [h] at h2
  exact h2

theorem quiet_of_IsSender {a tx tx1 : AtomicSwapTransaction F G}
    {r : Except SwapException Bool} (h : tx.IsSender = (r, tx1)) (ha : Quiet a tx) :
    Quiet a tx1 := by
  have h2 := quiet_step_IsSender ha
  rw [h] at h2
  exact h2

theorem quiet_of_IsUfoSide {a tx tx1 : AtomicSwapTransaction F G}
    {r : Bool} (h : tx.IsUfoSide = (r, tx1)) (ha : Quiet a tx) :
    Quiet a tx1 := by
  have h2 := quiet_step_IsUfoSide ha
  rw [h] at h2
  exact h2

theorem quiet_SendInvitation (env : Env F G) (tx : AtomicSwapTransaction F G) :
    Quiet tx (SendInvitation env tx).2 := by
  unfold SendInvitation
  repeat' split
  all_goals first | exact quiet_refl tx | skip
  · exact quiet_of_GetAmount (by assumption) (quiet_refl tx)
  · exact quiet_of_GetAmount (by assumption) (quiet_refl tx)
  · exact quiet_of_IsSender (by assumption)
      (quiet_of_GetAmount (by assumption) (quiet_refl tx))
  · exact quiet_send_or_fail_snd env _ _ _ (quiet_of_IsUfoSide (by assumption)
      (quiet_of_IsSender (by assumption)
        (quiet_of_GetAmount (by assumption) (quiet_refl tx))))

theorem quiet_step_SendLockTxInvitation (env : Env F G) {a b : AtomicSwapTransaction F G}
    (lockBuilder : LockTxBuilder F G) (h : Quiet a b) :
    Quiet a (SendLockTxInvitation env b lockBuilder).2 := by
  unfold SendLockTxInvitation
  split
  · exact h
  · exact quiet_send_or_fail_snd env _ _ _ h

theorem quiet_step_SendLockTxConfirmation (env : Env F G) {a b : AtomicSwapTransaction F G}
    (lockBuilder : LockTxBuilder F G) (h : Quiet a b) :
    Quiet a (SendLockTxConfirmation env b lockBuilder) := by
  unfold SendLockTxConfirmation
  exact quiet_send_or_fail env b _ h

theorem quiet_step_SendSharedTxInvitation (env : Env F G)
    {a b : AtomicSwapTransaction F G} (builder : SharedTxBuilder F G) (h : Quiet a b) :
    Quiet a (SendSharedTxInvitation env b builder) := by
  unfold SendSharedTxInvitation
  exact quiet_send_or_fail env b _ h

theorem quiet_step_ConfirmSharedTxInvitation (env : Env F G)
    {a b : AtomicSwapTransaction F G} (builder : SharedTxBuilder F G) (h : Quiet a b) :
    Quiet a (ConfirmSharedTxInvitation env b builder) := by
  unfold ConfirmSharedTxInvitation
  exact quiet_send_or_fail env b _ h

theorem quiet_step_SendExternalTxDetails (env : Env F G)
    {a b : AtomicSwapTransaction F G} (secondSide : SecondSide F G) (h : Quiet a b) :
    Quiet a (SendExternalTxDetails env b secondSide) := by
  unfold SendExternalTxDetails
  exact quiet_send_or_fail env b _ h

theorem quiet_step_fee {a b : AtomicSwapTransaction F G} (lockTxState : SubTxState)
    (isUfoOwner : Bool) (h : Quiet a b) :
    Quiet a (BuildUfoLockTx.fee b lockTxState isUfoOwner).2 := by
  unfold BuildUfoLockTx.fee
  split
  · exact h
  · split
    · split
      · exact h
      · exact quiet_step_SetParameter_sub _ _ _ (by decide) h
    · exact h

theorem quiet_step_start {a b : AtomicSwapTransaction F G}
    (lockTxBuilder : LockTxBuilder F G) (lockTxState : SubTxState) (isUfoOwner : Bool)
    (h : Quiet a b) :
    Quiet a (BuildUfoLockTx.start b lockTxBuilder lockTxState isUfoOwner) := by
  unfold BuildUfoLockTx.start
  simp only []
  split_ifs
  all_goals
    repeat (first
      | exact h
      | with_reducible apply quiet_step_UpdateTxDescription
      | with_reducible apply quiet_step_withSubParams _ _ (by decide))

theorem quiet_step_invite (env : Env F G) {a b : AtomicSwapTransaction F G}
    (lockTxBuilder : LockTxBuilder F G) (lockTxState : SubTxState) (isUfoOwner : Bool)
    (h : Quiet a b) :
    Quiet a (BuildUfoLockTx.invite env b lockTxBuilder lockTxState isUfoOwner).2 := by
  unfold BuildUfoLockTx.invite
  split
  · split
    · exact h
    · simp only []
      have hq : Quiet a (SendLockTxInvitation env
          (if (!(by assumption : Bool)) = true then
            b.SetParameter .MaxHeight (.u64 (lockTxBuilder.GetMaxHeight b.params))
              .UFO_LOCK_TX
          else b) lockTxBuilder).2 := by
        apply quiet_step_SendLockTxInvitation
        split
        · exact quiet_step_SetParameter_sub _ _ _ (by decide) h
        · exact h
      split
      · rename_i heq
        rw [heq] at hq
        exact hq
      · rename_i heq
        rw [heq] at hq
        exact quiet_step_SetState_sub _ _ (by decide) hq
  · exact h

theorem quiet_step_proof (env : Env F G) {a b : AtomicSwapTransaction F G}
    (lockTxBuilder : LockTxBuilder F G) (lockTxState : SubTxState) (isUfoOwner : Bool)
    (h : Quiet a b) :
    Quiet a (BuildUfoLockTx.proof env b lockTxBuilder lockTxState isUfoOwner).2 := by
  unfold BuildUfoLockTx.proof
  simp only []
  split_ifs
  all_goals
    repeat (first
      | exact h
      | with_reducible apply quiet_step_OnSubTxFailed
      | with_reducible apply quiet_step_SendLockTxConfirmation)

theorem quiet_step_lockFinish (env : Env F G) {a b : AtomicSwapTransaction F G}
    (lockTxBuilder : LockTxBuilder F G) (lockTxState : SubTxState) (isUfoOwner : Bool)
    (h : Quiet a b) :
    Quiet a (BuildUfoLockTx.finish env b lockTxBuilder lockTxState isUfoOwner).2 := by
  unfold BuildUfoLockTx.finish
  simp only []
  have hw := quiet_step_withSubParams .UFO_LOCK_TX lockTxBuilder.FinalizeSignature
    (by decide) h
  split_ifs
  all_goals
    first
      | exact h
      | exact hw
      | exact quiet_step_OnSubTxFailed env _ _ _ h

theorem quiet_step_outputs {a b : AtomicSwapTransaction F G}
    (lockTxBuilder : LockTxBuilder F G) (isUfoOwner : Bool) (h : Quiet a b) :
    Quiet a (BuildUfoLockTx.outputs b lockTxBuilder isUfoOwner).2 := by
  unfold BuildUfoLockTx.outputs
  simp only []
  split
  · exact quiet_step_withSubParams _ _ (by decide)
      (quiet_step_withSubParams _ _ (by decide) h)
  · exact quiet_step_withSubParams _ _ (by decide) h

theorem quiet_step_sign (env : Env F G) {a b : AtomicSwapTransaction F G}
    (lockTxBuilder : LockTxBuilder F G) (lockTxState : SubTxState) (isUfoOwner : Bool)
    (fee : Nat) (h : Quiet a b) :
    Quiet a (BuildUfoLockTx.sign env b lockTxBuilder lockTxState isUfoOwner fee).2 := by
  unfold BuildUfoLockTx.sign
  simp only []
  have h5 : Quiet a (((if fee = 0 then { b with assertFailures := b.assertFailures + 1 }
      else b).withSubParams .UFO_LOCK_TX lockTxBuilder.CreateKernel).withSubParams
        .UFO_LOCK_TX lockTxBuilder.SignPartial) := by
    apply quiet_step_withSubParams _ _ (by decide)
    apply quiet_step_withSubParams _ _ (by decide)
    split
    · exact quiet_step_members rfl rfl h
    · exact h
  have h6 := quiet_step_proof env lockTxBuilder lockTxState isUfoOwner h5
  split
  · rename_i heq
    rw [heq] at h6
    exact h6
  · rename_i heq
    rw [heq] at h6
    exact quiet_step_lockFinish env _ _ _ h6

theorem quiet_step_build (env : Env F G) {a b : AtomicSwapTransaction F G}
    (lockTxBuilder : LockTxBuilder F G) (lockTxState : SubTxState) (isUfoOwner : Bool)
    (fee : Nat) (h : Quiet a b) :
    Quiet a (BuildUfoLockTx.build env b lockTxBuilder lockTxState isUfoOwner fee).2 := by
  unfold BuildUfoLockTx.build
  simp only []
  have h1 := quiet_step_outputs lockTxBuilder isUfoOwner h
  have h4 := quiet_step_withSubParams .UFO_LOCK_TX
    (fun p => (lockTxBuilder.UpdateMaxHeight p).2) (by decide)
    (quiet_step_withSubParams .UFO_LOCK_TX lockTxBuilder.LoadSharedParameters (by decide)
      (quiet_step_withSubParams .UFO_LOCK_TX lockTxBuilder.GenerateNonce (by decide) h1))
  split_ifs
  · exact h1
  · exact quiet_step_OnSubTxFailed env _ _ _ h4
  · exact quiet_step_invite env _ _ _ h4
  · exact quiet_step_sign env _ _ _ _ h4

theorem quiet_BuildUfoLockTx (env : Env F G) (tx : AtomicSwapTransaction F G) :
    Quiet tx (BuildUfoLockTx env tx).2 := by
  unfold BuildUfoLockTx
  simp only []
  have h1 := quiet_step_fee (tx.GetSubTxState .UFO_LOCK_TX) tx.IsUfoSide.1
    (quiet_step_IsUfoSide (quiet_refl tx))
  split
  · rename_i heq
    rw [heq] at h1
    exact h1
  · rename_i heq
    rw [heq] at h1
    split
    · exact quiet_of_GetAmount (by assumption) h1
    · exact quiet_step_build env _ _ _ _ (quiet_step_start _ _ _
        (quiet_of_GetAmount (by assumption) h1))

theorem quiet_amounts (env : Env F G) (tx : AtomicSwapTransaction F G) (sub : SubTxID)
    (hsub : sub ≠ kDefaultSubTxID) :
    Quiet tx (BuildUfoWithdrawTx.amounts env tx sub).2 := by
  unfold BuildUfoWithdrawTx.amounts
  split
  · exact quiet_refl tx
  · split
    · exact quiet_step_GetAmount (quiet_refl tx)
    · exact quiet_step_SetParameter_sub _ _ _ hsub (quiet_step_SetParameter_sub _ _ _ hsub
        (quiet_step_GetAmount (quiet_refl tx)))

theorem quiet_isTxOwner (tx : AtomicSwapTransaction F G) (sub : SubTxID) :
    Quiet tx (BuildUfoWithdrawTx.isTxOwner tx sub).2 := by
  unfold BuildUfoWithdrawTx.isTxOwner
  split
  · exact quiet_step_IsUfoSide (quiet_refl tx)
  · exact quiet_step_IsUfoSide (quiet_step_IsUfoSide (quiet_refl tx))

theorem quiet_exchange (env : Env F G) (tx : AtomicSwapTransaction F G) (sub : SubTxID)
    (builder : SharedTxBuilder F G) (subTxState : SubTxState) (isTxOwner : Bool)
    (hsub : sub ≠ kDefaultSubTxID) :
    Quiet tx (BuildUfoWithdrawTx.exchange env tx sub builder subTxState isTxOwner).2 := by
  unfold BuildUfoWithdrawTx.exchange
  simp only []
  split_ifs
  all_goals
    repeat (first
      | exact quiet_refl tx
      | with_reducible apply quiet_step_SetState_sub _ _ hsub
      | with_reducible apply quiet_step_SendSharedTxInvitation
      | with_reducible apply quiet_step_ConfirmSharedTxInvitation
      | with_reducible apply quiet_step_withSubParams _ _ hsub)

theorem quiet_negotiate (env : Env F G) (tx : AtomicSwapTransaction F G)
    (sub : SubTxID) (hsub : sub ≠ kDefaultSubTxID) :
    Quiet tx (BuildUfoWithdrawTx.negotiate env tx sub).2 := by
  unfold BuildUfoWithdrawTx.negotiate
  simp only []
  split
  · exact quiet_amounts env tx sub hsub
  · split <;>
      exact quiet_trans (quiet_amounts env tx sub hsub)
        (quiet_trans (quiet_isTxOwner _ sub) (quiet_exchange env _ sub _ _ _ hsub))

theorem quiet_of_negotiate (env : Env F G) {tx tx1 : AtomicSwapTransaction F G}
    {sub : SubTxID}
    {r : Except SwapException (SubTxState ⊕ (SharedTxBuilder F G × SubTxState × Bool))}
    (h : BuildUfoWithdrawTx.negotiate env tx sub = (r, tx1))
    (hsub : sub ≠ kDefaultSubTxID) :
    Quiet tx tx1 := by
  have h2 := quiet_negotiate env tx sub hsub
  rw [h] at h2
  exact h2

theorem quiet_step_finish (env : Env F G) {a : AtomicSwapTransaction F G}
    (tx : AtomicSwapTransaction F G) (sub : SubTxID)
    (builder : SharedTxBuilder F G) (subTxState : SubTxState) (isTxOwner : Bool)
    (resultTx : Option Transaction) (hsub : sub ≠ kDefaultSubTxID) (h : Quiet a tx) :
    Quiet a (BuildUfoWithdrawTx.finish env tx sub builder subTxState isTxOwner resultTx).2 := by
  unfold BuildUfoWithdrawTx.finish
  simp only []
  split_ifs
  all_goals
    repeat (first
      | exact h
      | with_reducible apply quiet_step_SetState_sub _ _ hsub
      | with_reducible apply quiet_step_OnSubTxFailed
      | with_reducible apply quiet_step_withSubParams _ _ hsub)

theorem quiet_of_finish (env : Env F G) {a tx tx1 : AtomicSwapTransaction F G}
    {sub : SubTxID} {builder : SharedTxBuilder F G} {subTxState : SubTxState}
    {isTxOwner : Bool} {resultTx : Option Transaction}
    {r : SubTxState × Option Transaction}
    (h : BuildUfoWithdrawTx.finish env tx sub builder subTxState isTxOwner resultTx
      = (r, tx1))
    (hsub : sub ≠ kDefaultSubTxID) (ha : Quiet a tx) :
    Quiet a tx1 := by
  have h2 := quiet_step_finish env tx sub builder subTxState isTxOwner resultTx hsub ha
  rw [h] at h2
  exact h2

section ExtractQuiet

variable [CommRing F]

theorem quiet_of_sendAdaptedSignature (env : Env F G)
    {a tx tx1 : AtomicSwapTransaction F G} {builder : SharedTxBuilder F G} {r : Bool}
    (h : BuildUfoWithdrawTx.sendAdaptedSignature env tx builder = (r, tx1))
    (ha : Quiet a tx) : Quiet a tx1 := by
  have h2 : Quiet a (BuildUfoWithdrawTx.sendAdaptedSignature env tx builder).2 := by
    unfold BuildUfoWithdrawTx.sendAdaptedSignature
    exact quiet_step_SendTxParameters env _ ha
  rw [h] at h2
  exact h2

theorem quiet_ExtractSecretPrivateKey (env : Env F G) (tx : AtomicSwapTransaction F G) :
    Quiet tx (ExtractSecretPrivateKey env tx).2 := by
  have h3 := quiet_step_withSubParams .UFO_REDEEM_TX
    (env.SharedTxBuilder .UFO_REDEEM_TX 0 0).SignPartial (by decide)
    (quiet_step_withSubParams .UFO_REDEEM_TX
      (env.SharedTxBuilder .UFO_REDEEM_TX 0 0).CreateKernel (by decide)
      (quiet_step_withSubParams .UFO_REDEEM_TX
        (env.SharedTxBuilder .UFO_REDEEM_TX 0 0).GenerateNonce (by decide) (quiet_refl tx)))
  unfold ExtractSecretPrivateKey
  simp only []
  rcases tx.GetMandatoryParameter Value.asKernel .Kernel .UFO_REDEEM_TX with e | kernel
  · exact quiet_refl tx
  · simp only []
    split
    · exact h3
    · exact quiet_step_SetParameter_sub _ _ _ (by decide) h3

end ExtractQuiet

section Turn

variable [CommRing F] [AddCommGroup G] [Module F G] [DecidableEq G]

theorem quiet_step_saveSecretPublicKey (env : Env F G) {a : AtomicSwapTransaction F G}
    (tx : AtomicSwapTransaction F G) (sub : SubTxID) (builder : SharedTxBuilder F G)
    (hsub : sub ≠ kDefaultSubTxID) (h : Quiet a tx) :
    Quiet a (BuildUfoWithdrawTx.saveSecretPublicKey env tx sub builder).2 := by
  unfold BuildUfoWithdrawTx.saveSecretPublicKey
  repeat' split
  all_goals first
    | exact h
    | exact quiet_step_SetParameter_sub _ _ _ hsub h
    | exact quiet_step_SetParameter_sub _ _ _ hsub (by
        split
        · exact quiet_step_members rfl rfl h
        · exact h)

theorem quiet_of_saveSecretPublicKey (env : Env F G) {a tx tx1 : AtomicSwapTransaction F G}
    {sub : SubTxID} {builder : SharedTxBuilder F G} {r : Except SwapException Unit}
    (h : BuildUfoWithdrawTx.saveSecretPublicKey env tx sub builder = (r, tx1))
    (hsub : sub ≠ kDefaultSubTxID) (ha : Quiet a tx) : Quiet a tx1 := by
  have h2 := quiet_step_saveSecretPublicKey env tx sub builder hsub ha
  rw [h] at h2
  exact h2

theorem quiet_BuildUfoWithdrawTx (env : Env F G) (tx : AtomicSwapTransaction F G)
    (sub : SubTxID) (resultTx : Option Transaction) (hsub : sub ≠ kDefaultSubTxID) :
    Quiet tx (BuildUfoWithdrawTx env tx sub resultTx).2 := by
  unfold BuildUfoWithdrawTx
  repeat' split
  · exact quiet_of_negotiate env (by assumption) hsub
  · exact quiet_of_negotiate env (by assumption) hsub
  · exact quiet_of_saveSecretPublicKey env (by assumption) hsub
      (quiet_of_IsUfoSide (by assumption) (quiet_of_negotiate env (by assumption) hsub))
  · exact quiet_step_SetState_sub _ _ hsub
      (quiet_of_saveSecretPublicKey env (by assumption) hsub
        (quiet_of_IsUfoSide (by assumption) (quiet_of_negotiate env (by assumption) hsub)))
  · exact quiet_step_OnFailed env _ _ (quiet_of_sendAdaptedSignature env (by assumption)
      (quiet_of_IsUfoSide (by assumption) (quiet_of_negotiate env (by assumption) hsub)))
  · exact quiet_of_finish env (by assumption) hsub
      (quiet_of_sendAdaptedSignature env (by assumption)
        (quiet_of_IsUfoSide (by assumption) (quiet_of_negotiate env (by assumption) hsub)))
  · exact quiet_of_finish env (by assumption) hsub
      (quiet_of_negotiate env (by assumption) hsub)

theorem UpdateImpl_snd (env : Env F G) (tx : AtomicSwapTransaction F G) :
    (UpdateImpl env tx).2 = (UpdateImpl.body env tx).2 := by
  unfold UpdateImpl
  split <;> simp_all

end Turn

/-! ## The turn of the state machine, the creation of a swap and the registration of sub-transactions -/

/-- What `InitNewSwap` and `AcceptSwapParameters` leave in the set. -/
theorem producedByInitNewSwap_holds (parameters : TxParameters F G)
    (h : producedByInitNewSwap parameters) :
    (∃ m, parameters.GetParameter .MinHeight = some (.u64 m))
    ∧ (∃ t, parameters.GetParameter .PeerResponseTime = some (.u64 t))
    ∧ ∀ id ∈ storedIds, id ≠ .PeerResponseHeight → (parameters.GetParameter id).isSome := by
  obtain ⟨createTime, myID, minHeight, amount, fee, swapCoin, swapAmount, isUfoSide, lifetime,
    responseTime, h | ⟨acceptorID, h⟩⟩ := h
  · subst h
    refine ⟨⟨minHeight, rfl⟩, ⟨responseTime, rfl⟩, ?_⟩
    intro id hid hne
    simp only [storedIds, List.mem_cons, List.mem_singleton, List.not_mem_nil, or_false] at hid
    rcases hid with h | h | h | h | h | h | h | h | h <;> subst h <;>
      first | rfl | exact absurd rfl hne
  · have h2 : AcceptSwapParameters (InitNewSwap createTime myID minHeight amount fee swapCoin
        swapAmount isUfoSide lifetime responseTime : TxParameters F G) acceptorID
        = some (((((((InitNewSwap createTime myID minHeight amount fee swapCoin swapAmount
            isUfoSide lifetime responseTime : TxParameters F G).SetParameter .PeerID
            (.bytes myID)).SetParameter .MyID (.bytes acceptorID)).SetParameter .IsSender
            (.bool (!isUfoSide))).SetParameter .AtomicSwapIsUfoSide
            (.bool (!isUfoSide))).SetParameter .IsInitiator (.bool true))) := rfl
    rw [h2] at h
    simp only [Option.some.injEq] at h
    subst h
    refine ⟨⟨minHeight, rfl⟩, ⟨responseTime, rfl⟩, ?_⟩
    intro id hid hne
    simp only [storedIds, List.mem_cons, List.mem_singleton, List.not_mem_nil, or_false] at hid
    rcases hid with h | h | h | h | h | h | h | h | h <;> subst h <;>
      first | rfl | exact absurd rfl hne

theorem GetSecondSide_cases (env : Env F G) (tx : AtomicSwapTransaction F G) :
    (∃ e, WrapperSecondSide.GetSecondSide env tx = (.error e, tx))
    ∨ (∃ s, WrapperSecondSide.GetSecondSide env tx = (.ok s, tx))
    ∨ (∃ s, WrapperSecondSide.GetSecondSide env tx
        = (.ok s, { tx with m_secondSide := some s })) := by
  unfold WrapperSecondSide.GetSecondSide
  split
  · exact Or.inr (Or.inl ⟨_, rfl⟩)
  · split
    · exact Or.inl ⟨_, rfl⟩
    · exact Or.inl ⟨_, rfl⟩
    · exact Or.inr (Or.inr ⟨_, rfl⟩)

theorem quiet_GetSecondSide (env : Env F G) (tx : AtomicSwapTransaction F G) :
    Quiet tx (WrapperSecondSide.GetSecondSide env tx).2 := by
  rcases GetSecondSide_cases env tx with ⟨e, h⟩ | ⟨s, h⟩ | ⟨s, h⟩ <;> rw [h]
  · exact quiet_refl tx
  · exact quiet_refl tx
  · exact quiet_step_members rfl rfl (quiet_refl tx)

theorem asU64_eq_some (v : Option (Value F G)) (n : Nat) :
    v.bind Value.asU64 = some n ↔ v = some (.u64 n) := by
  rcases v with _ | v
  · simp
  · cases v <;> simp [Value.asU64]

/-- What the part `UpdateImpl.responseHeight` does. -/
theorem responseHeight_cases (tx : AtomicSwapTransaction F G) :
    ((∃ h, (tx.GetParameter .PeerResponseHeight).bind Value.asU64 = some h)
      ∧ UpdateImpl.responseHeight tx = (.ok (), tx))
    ∨ ((tx.GetParameter .PeerResponseHeight).bind Value.asU64 = none
      ∧ ((∃ e, UpdateImpl.responseHeight tx = (.error e, tx))
        ∨ ∃ m t, tx.GetParameter .MinHeight = some (.u64 m)
          ∧ tx.GetParameter .PeerResponseTime = some (.u64 t)
          ∧ UpdateImpl.responseHeight tx
            = (.ok (), tx.SetParameter .PeerResponseHeight
                (.u64 ((m + t) % 2 ^ 64))))) := by
  unfold UpdateImpl.responseHeight GetMandatoryParameter
  rcases hp : (tx.GetParameter .PeerResponseHeight).bind Value.asU64 with _ | h
  · right
    refine ⟨rfl, ?_⟩
    rcases hm : (tx.GetParameter .MinHeight).bind Value.asU64 with _ | m
    · exact Or.inl ⟨_, rfl⟩
    · rcases ht : (tx.GetParameter .PeerResponseTime).bind Value.asU64 with _ | t
      · exact Or.inl ⟨_, rfl⟩
      · exact Or.inr ⟨m, t, (asU64_eq_some _ _).1 hm, (asU64_eq_some _ _).1 ht, rfl⟩
  · exact Or.inl ⟨⟨h, rfl⟩, rfl⟩

theorem quiet_params {a b : AtomicSwapTransaction F G} (h : Quiet a b) (id : TxParameterID)
    (h1 : id ≠ .InternalFailureReason) (h2 : id ≠ .Status) (h3 : id ≠ .State) :
    b.GetParameter id = a.GetParameter id :=
  h.2.1 id h1 h2 h3

theorem GetParameter_SetParameter_of_ne (tx : AtomicSwapTransaction F G)
    (id id' : TxParameterID) (v : Value F G) (sub sub' : SubTxID)
    (h : sub ≠ sub' ∨ id ≠ id') :
    (tx.SetParameter id v sub).GetParameter id' sub' = tx.GetParameter id' sub' := by
  unfold GetParameter SetParameter
  have : ¬ (sub' = sub ∧ id' = id) := by
    rintro ⟨h1, h2⟩
    rcases h with h | h
    · exact h h1.symm
    · exact h h2.symm
  simp [this]

/-- The part `UpdateImpl.invite` writes `AtomicSwapExternalLockTime` and is quiet
otherwise. -/
theorem invite_params (env : Env F G) (tx : AtomicSwapTransaction F G) (id : TxParameterID)
    (h1 : id ≠ .InternalFailureReason) (h2 : id ≠ .Status) (h3 : id ≠ .State)
    (h4 : id ≠ .AtomicSwapExternalLockTime) :
    (UpdateImpl.invite env tx).2.GetParameter id = tx.GetParameter id := by
  unfold UpdateImpl.invite
  rcases GetSecondSide_cases env tx with ⟨e, h⟩ | ⟨s, h⟩ | ⟨s, h⟩ <;> rw [h] <;> simp only []
  · split
    · rfl
    · have hq := quiet_params (quiet_SendInvitation env (tx.SetParameter
        .AtomicSwapExternalLockTime (.u64 (s.InitLockTime tx.params)))) id h1 h2 h3
      rw [GetParameter_SetParameter_of_ne _ _ _ _ _ _ (Or.inr (Ne.symm h4))] at hq
      split <;> rename_i heq <;> rw [heq] at hq <;> exact hq
  · split
    · rfl
    · have hq := quiet_params (quiet_SendInvitation env
        (({ tx with m_secondSide := some s } : AtomicSwapTransaction F G).SetParameter
          .AtomicSwapExternalLockTime (.u64 (s.InitLockTime tx.params)))) id h1 h2 h3
      rw [GetParameter_SetParameter_of_ne _ _ _ _ _ _ (Or.inr (Ne.symm h4))] at hq
      split <;> rename_i heq <;> rw [heq] at hq <;> exact hq

/-- The part `UpdateImpl.answer` is quiet. -/
theorem quiet_answer (env : Env F G) (tx : AtomicSwapTransaction F G) :
    Quiet tx (UpdateImpl.answer env tx).2 := by
  unfold UpdateImpl.answer
  have hq := quiet_GetSecondSide env tx
  rcases hx : WrapperSecondSide.GetSecondSide env tx with ⟨r, t⟩
  rw [hx] at hq
  rcases r with e | s
  · exact hq
  · simp only [] at hq ⊢
    split
    · exact quiet_step_members rfl rfl hq
    · split_ifs
      · exact hq
      · exact quiet_step_OnSubTxFailed env _ _ _ hq
      · exact hq

theorem GetParameter_SetNextState_of_ne (tx : AtomicSwapTransaction F G) (s : State)
    (id : TxParameterID) (sub : SubTxID) (h : sub ≠ kDefaultSubTxID ∨ id ≠ .State) :
    (tx.SetNextState s).GetParameter id sub = tx.GetParameter id sub := by
  unfold SetNextState SetState UpdateAsync
  exact GetParameter_SetParameter_of_ne tx _ _ _ _ _
    (h.elim (fun h => Or.inl (Ne.symm h)) (fun h => Or.inr (Ne.symm h)))

theorem GetState_UpdateTxDescription (tx : AtomicSwapTransaction F G) (st : TxStatus)
    (sub : SubTxID) : (tx.UpdateTxDescription st).GetState sub = tx.GetState sub :=
  GetState_SetParameter_of_ne _ _ _ _ _ (Or.inr (by decide))

theorem onlyCalled_refl {P : Call → Prop} (a : AtomicSwapTransaction F G) :
    OnlyCalled P a a :=
  ⟨[], rfl, fun _ h => absurd h (List.not_mem_nil _)⟩

theorem onlyCalled_trans {P : Call → Prop} {a b c : AtomicSwapTransaction F G}
    (h1 : OnlyCalled P a b) (h2 : OnlyCalled P b c) : OnlyCalled P a c := by
  obtain ⟨l1, e1, p1⟩ := h1
  obtain ⟨l2, e2, p2⟩ := h2
  refine ⟨l2 ++ l1, by rw [e2, e1, List.append_assoc], fun x hx => ?_⟩
  rcases List.mem_append.1 hx with h | h
  · exact p2 x h
  · exact p1 x h

theorem onlyCalled_step {P : Call → Prop} {a b c : AtomicSwapTransaction F G}
    (hc : c.calls = b.calls) (h : OnlyCalled P a b) : OnlyCalled P a c := by
  obtain ⟨l, e, p⟩ := h
  exact ⟨l, by rw [hc, e], p⟩

theorem onlyCalled_of_quiet {P : Call → Prop} {a b c : AtomicSwapTransaction F G}
    (hq : Quiet b c) (h : OnlyCalled P a b) : OnlyCalled P a c :=
  onlyCalled_step hq.1 h

theorem onlyCalled_call {P : Call → Prop} {a b : AtomicSwapTransaction F G} (c : Call)
    (hc : P c) (h : OnlyCalled P a b) : OnlyCalled P a (b.call c) := by
  obtain ⟨l, e, p⟩ := h
  refine ⟨c :: l, by simp [call, e], fun x hx => ?_⟩
  rcases List.mem_cons.1 hx with h | h
  · rw [h]
    exact hc
  · exact p x h

theorem onlyCalled_SendSubTx {P : Call → Prop} (env : Env F G)
    {a b : AtomicSwapTransaction F G} (transaction : Transaction) (sub : SubTxID)
    (hc : P (.register_tx transaction sub)) (h : OnlyCalled P a b) :
    OnlyCalled P a (SendSubTx env b transaction sub).2 := by
  rcases SendSubTx_cases env b transaction sub with h1 | h1 | h1 <;> rw [h1]
  · exact onlyCalled_call _ hc h
  · exact h
  · exact onlyCalled_of_quiet (quiet_step_OnSubTxFailed env _ _ _ (quiet_refl b)) h

/-- The ways `CompleteSubTx` ends: it returns `true` only with a proof height
other than zero. -/
theorem CompleteSubTx_cases (tx : AtomicSwapTransaction F G) (sub : SubTxID) :
    (∃ e, CompleteSubTx tx sub = (.error e, tx))
    ∨ (∃ k, CompleteSubTx tx sub = (.ok false, tx.call (.confirm_kernel k sub)))
    ∨ ∃ h, h ≠ 0 ∧ tx.GetParameter .KernelProofHeight sub = some (.u64 h)
      ∧ (CompleteSubTx tx sub = (.ok true, tx.call (.SetCompletedTxCoinStatuses h))
        ∨ ∃ amount coinID, CompleteSubTx tx sub
          = (.ok true, (tx.call (.saveCoin amount coinID)).call
              (.SetCompletedTxCoinStatuses h))) := by
  unfold CompleteSubTx
  simp only []
  rcases hk : (tx.GetParameter .KernelProofHeight sub).bind Value.asU64 with _ | h
  · simp only [if_true]
    rcases tx.GetMandatoryParameter Value.asBytes .KernelID sub with e | k
    · exact Or.inl ⟨e, rfl⟩
    · exact Or.inr (Or.inl ⟨k, rfl⟩)
  · simp only []
    by_cases h0 : h = 0
    · simp only [h0, if_true]
      rcases tx.GetMandatoryParameter Value.asBytes .KernelID sub with e | k
      · exact Or.inl ⟨e, rfl⟩
      · exact Or.inr (Or.inl ⟨k, rfl⟩)
    · simp only [h0, if_false]
      split
      · rcases tx.GetMandatoryParameter Value.asU64 .Amount sub with e | amount
        · exact Or.inl ⟨e, rfl⟩
        · simp only []
          rcases tx.GetMandatoryParameter Value.asBytes .SharedCoinID sub with e | coinID
          · exact Or.inl ⟨e, rfl⟩
          · exact Or.inr (Or.inr ⟨h, h0, (asU64_eq_some _ _).1 hk,
              Or.inr ⟨amount, coinID, rfl⟩⟩)
      · exact Or.inr (Or.inr ⟨h, h0, (asU64_eq_some _ _).1 hk, Or.inl rfl⟩)

theorem onlyCalled_CompleteSubTx {P : Call → Prop} {a b : AtomicSwapTransaction F G}
    (sub : SubTxID) (hP : ∀ c, ¬ registersWithdraw c → P c) (h : OnlyCalled P a b) :
    OnlyCalled P a (CompleteSubTx b sub).2 := by
  rcases CompleteSubTx_cases b sub with ⟨e, h1⟩ | ⟨k, h1⟩ | ⟨p, -, -, h1 | ⟨am, co, h1⟩⟩ <;>
    rw [h1]
  · exact h
  · exact onlyCalled_call _ (hP _ (fun hc => hc)) h
  · exact onlyCalled_call _ (hP _ (fun hc => hc)) h
  · exact onlyCalled_call _ (hP _ (fun hc => hc))
      (onlyCalled_call _ (hP _ (fun hc => hc)) h)

theorem onlyCalled_GetKernelFromChain {P : Call → Prop} {a b : AtomicSwapTransaction F G}
    (sub : SubTxID) (hP : ∀ c, ¬ registersWithdraw c → P c) (h : OnlyCalled P a b) :
    OnlyCalled P a (GetKernelFromChain b sub).2 := by
  rcases GetKernelFromChain_cases b sub with ⟨e, h1⟩ | ⟨k, h1⟩ | h1 <;> rw [h1]
  · exact h
  · exact onlyCalled_call _ (hP _ (fun hc => hc)) h
  · exact h

/-- In `case State::Initial` the top-level parameters other than
`InternalFailureReason`, `Status`, `State` and `AtomicSwapExternalLockTime` are
those left by the part `UpdateImpl.responseHeight`. -/
theorem Initial_params (env : Env F G) (tx : AtomicSwapTransaction F G) (id : TxParameterID)
    (h1 : id ≠ .InternalFailureReason) (h2 : id ≠ .Status) (h3 : id ≠ .State)
    (h4 : id ≠ .AtomicSwapExternalLockTime) :
    (UpdateImpl.Initial env tx).2.GetParameter id
      = (UpdateImpl.responseHeight tx).2.GetParameter id := by
  unfold UpdateImpl.Initial
  rcases UpdateImpl.responseHeight tx with ⟨r, t⟩
  rcases r with e | u
  · rfl
  · simp only []
    rcases t.IsInitiator with e | b
    · rfl
    · simp only []
      have hb : (if b = true then UpdateImpl.invite env t
          else UpdateImpl.answer env t).2.GetParameter id = t.GetParameter id := by
        cases b
        · exact quiet_params (quiet_answer env t) id h1 h2 h3
        · exact invite_params env t id h1 h2 h3 h4
      generalize (if b = true then UpdateImpl.invite env t else UpdateImpl.answer env t)
        = x at hb ⊢
      obtain ⟨r2, t2⟩ := x
      rcases r2 with e | ok
      · exact hb
      · cases ok
        · exact hb
        · exact (GetParameter_SetNextState_of_ne _ _ _ _ (Or.inr h3)).trans hb

/-- Without an adapter `GetSecondSide` throws. -/
theorem GetSecondSide_none (env : Env F G) (tx : AtomicSwapTransaction F G)
    (hnone : tx.m_secondSide = none) (hprovider : env.noSecondSide) :
    ∃ e, WrapperSecondSide.GetSecondSide env tx = (.error e, tx) := by
  unfold WrapperSecondSide.GetSecondSide Creator.GetSecondSide
  rw [hnone]
  simp only []
  rcases tx.GetMandatoryParameter Value.asCoin .AtomicSwapCoin with e | coin
  · exact ⟨_, rfl⟩
  · simp only []
    rcases hf : env.m_factories coin with _ | factory
    · exact ⟨_, rfl⟩
    · simp only []
      rcases tx.GetMandatoryParameter Value.asBool .AtomicSwapIsUfoSide with e | b
      · exact ⟨_, rfl⟩
      · simp only []
        rw [hprovider coin factory hf tx.params b]
        exact ⟨_, rfl⟩

theorem m_secondSide_IsUfoSide (tx : AtomicSwapTransaction F G) :
    tx.IsUfoSide.2.m_secondSide = tx.m_secondSide := by
  unfold IsUfoSide
  split <;> rfl

theorem m_LockTx_IsUfoSide (tx : AtomicSwapTransaction F G) :
    tx.IsUfoSide.2.m_LockTx = tx.m_LockTx := by
  unfold IsUfoSide
  split <;> rfl

/-- Without an adapter, `case State::Initial` writes at most `PeerResponseHeight`. -/
theorem Initial_without_second_side (env : Env F G) (tx : AtomicSwapTransaction F G)
    (hnone : tx.m_secondSide = none) (hprovider : env.noSecondSide) :
    (UpdateImpl.Initial env tx).2 = tx
    ∨ ∃ h, (UpdateImpl.Initial env tx).2 = tx.SetParameter .PeerResponseHeight (.u64 h) := by
  have key : ∀ t : AtomicSwapTransaction F G, t.m_secondSide = none →
      (match (match t.IsInitiator with
          | .error e => ((Except.error e : Except SwapException Unit), t)
          | .ok isInitiator =>
            match (if isInitiator = true then UpdateImpl.invite env t
                else UpdateImpl.answer env t) with
            | (.error e, tx) => (.error e, tx)
            | (.ok false, tx) => (.ok (), tx)
            | (.ok true, tx) => (.ok (), tx.SetNextState .BuildingUfoLockTX)) with
        | (_, t') => t') = t := by
    intro t ht
    obtain ⟨e, he⟩ := GetSecondSide_none env t ht hprovider
    rcases t.IsInitiator with e' | b
    · rfl
    · cases b <;> simp only [UpdateImpl.invite, UpdateImpl.answer, he, Bool.false_eq_true,
        if_false, if_true]
  unfold UpdateImpl.Initial
  rcases responseHeight_cases tx with ⟨-, hr⟩ | ⟨-, ⟨e, hr⟩ | ⟨m, t, -, -, hr⟩⟩ <;> rw [hr] <;>
    simp only []
  · exact Or.inl (key tx hnone)
  · exact Or.inl trivial
  · exact Or.inr ⟨_, key _ hnone⟩

/-- C22. For every registration failure raised by `SendSubTx` (the sub-tx had no
`InternalFailureReason = FailedToRegister` before the call and has it after),
the peer is notified, by one message carrying `FailureReason = SubTxFailed`,
when the sub-tx is the native Lock, and no message is handed to the transport
when it is another sub-tx, Redeem and Refund among them. -/
theorem SendSubTx_notifies_iff_lock (env : Env F G) (tx : AtomicSwapTransaction F G)
    (transaction : Transaction) (subTxID : SubTxID)
    (hnew : tx.GetParameter .InternalFailureReason subTxID
      ≠ some (.reason .FailedToRegister))
    (hraised : (SendSubTx env tx transaction subTxID).2.GetParameter
      .InternalFailureReason subTxID = some (.reason .FailedToRegister)) :
    (subTxID = .UFO_LOCK_TX →
      SentOne (fun msg => msg.m_Parameters = [(.FailureReason, .reason .SubTxFailed)])
        tx (SendSubTx env tx transaction subTxID).2)
    ∧ (subTxID ≠ .UFO_LOCK_TX →
      (SendSubTx env tx transaction subTxID).2.outbox = tx.outbox) := by
  rcases SendSubTx_cases env tx transaction subTxID with h | h | h
  · rw [h] at hraised
    exact absurd hraised hnew
  · rw [h] at hraised
    exact absurd hraised hnew
  · rw [h, OnSubTxFailed_new env tx _ _ _ hnew]
    constructor
    · intro hs
      subst hs
      have hb : (SubTxID.UFO_LOCK_TX == SubTxID.UFO_LOCK_TX) = true := by decide
      rw [hb]
      exact ⟨_, _, (OnFailed_outbox env _ _ true).trans (NotifyFailure_outbox env _ _), rfl⟩
    · intro hs
      have : (subTxID == SubTxID.UFO_LOCK_TX) = false := by
        simpa using hs
      rw [this, OnFailed_outbox]
      rfl

/-- C23. Failure de-duplication: for every sub-tx id and reason `r`, when
`InternalFailureReason = r` is already recorded for the sub-tx,
`OnSubTxFailed(r, subTx, notify)` leaves the whole object as it is (no message,
no change of state, no rollback); otherwise it records
`InternalFailureReason = r` for the sub-tx and then is
`OnFailed(SubTxFailed, notify)`. Calling it twice with the same arguments
leaves the parameter store and the count of rollbacks of calling it once, and
for a sub-tx other than the default one the whole object. -/
theorem OnSubTxFailed_deduplicates (env : Env F G) (tx : AtomicSwapTransaction F G)
    (reason : TxFailureReason) (subTxID : SubTxID) (notify : Bool) :
    (tx.GetParameter .InternalFailureReason subTxID = some (.reason reason) →
      OnSubTxFailed env tx reason subTxID notify = tx)
    ∧ (tx.GetParameter .InternalFailureReason subTxID ≠ some (.reason reason) →
      OnSubTxFailed env tx reason subTxID notify
        = OnFailed env (tx.SetParameter .InternalFailureReason (.reason reason) subTxID)
            .SubTxFailed notify)
    ∧ (OnSubTxFailed env (OnSubTxFailed env tx reason subTxID notify) reason subTxID
        notify).params = (OnSubTxFailed env tx reason subTxID notify).params
    ∧ (OnSubTxFailed env (OnSubTxFailed env tx reason subTxID notify) reason subTxID
        notify).rollbacks = (OnSubTxFailed env tx reason subTxID notify).rollbacks
    ∧ (subTxID ≠ kDefaultSubTxID →
      OnSubTxFailed env (OnSubTxFailed env tx reason subTxID notify) reason subTxID notify
        = OnSubTxFailed env tx reason subTxID notify) :=
  ⟨OnSubTxFailed_recorded env tx reason subTxID notify,
    OnSubTxFailed_new env tx reason subTxID notify,
    OnSubTxFailed_twice env tx reason subTxID notify⟩

/-- C25, amended. The parameters returned by `InitNewSwap` hold
`IsInitiator = false`, `AcceptSwapParameters` accepts them, and the parameters
returned by `AcceptSwapParameters` hold `IsInitiator = true`. -/
theorem creation_roles (createTime : Nat) (myID : ByteBuffer)
    (minHeight amount fee swapCoin swapAmount : Nat) (isUfoSide : Bool)
    (lifetime responseTime : Nat) (acceptorID : ByteBuffer) :
    (InitNewSwap createTime myID minHeight amount fee swapCoin swapAmount isUfoSide lifetime
        responseTime : TxParameters F G).GetParameter .IsInitiator = some (.bool false)
    ∧ (∃ q, AcceptSwapParameters (InitNewSwap createTime myID minHeight amount fee swapCoin
          swapAmount isUfoSide lifetime responseTime : TxParameters F G) acceptorID = some q)
    ∧ ∀ p q : TxParameters F G, AcceptSwapParameters p acceptorID = some q →
        q.GetParameter .IsInitiator = some (.bool true) := by
  refine ⟨rfl, ⟨_, rfl⟩, ?_⟩
  intro p q h
  unfold AcceptSwapParameters at h
  simp only [] at h
  split at h
  · exact Option.noConfusion h
  · split at h
    · exact Option.noConfusion h
    · simp only [Option.some.injEq] at h
      rw [← h]
      simp [TxParameters.GetParameter, TxParameters.SetParameter]

theorem calls_responseHeight (tx : AtomicSwapTransaction F G) :
    (UpdateImpl.responseHeight tx).2.calls = tx.calls := by
  rcases responseHeight_cases tx with ⟨-, hr⟩ | ⟨-, ⟨e, hr⟩ | ⟨m, t, -, -, hr⟩⟩ <;> rw [hr]
  all_goals rfl

theorem calls_invite (env : Env F G) (tx : AtomicSwapTransaction F G) :
    (UpdateImpl.invite env tx).2.calls = tx.calls := by
  unfold UpdateImpl.invite
  rcases GetSecondSide_cases env tx with ⟨e, h⟩ | ⟨s, h⟩ | ⟨s, h⟩ <;> rw [h] <;> simp only []
  · split
    · rfl
    · have hq := (quiet_SendInvitation env (tx.SetParameter
        .AtomicSwapExternalLockTime (.u64 (s.InitLockTime tx.params)))).1
      split <;> rename_i heq <;> rw [heq] at hq <;> exact hq
  · split
    · rfl
    · have hq := (quiet_SendInvitation env
        (({ tx with m_secondSide := some s } : AtomicSwapTransaction F G).SetParameter
          .AtomicSwapExternalLockTime (.u64 (s.InitLockTime tx.params)))).1
      split <;> rename_i heq <;> rw [heq] at hq <;> exact hq

theorem calls_Initial (env : Env F G) (tx : AtomicSwapTransaction F G) :
    (UpdateImpl.Initial env tx).2.calls = tx.calls := by
  have h0 := calls_responseHeight tx
  unfold UpdateImpl.Initial
  generalize UpdateImpl.responseHeight tx = x at *
  obtain ⟨r, t⟩ := x
  rcases r with e | u
  · exact h0
  · simp only [] at h0 ⊢
    rcases t.IsInitiator with e | b
    · exact h0
    · simp only []
      have hb : (if b = true then UpdateImpl.invite env t
          else UpdateImpl.answer env t).2.calls = t.calls := by
        cases b
        · exact (quiet_answer env t).1
        · exact calls_invite env t
      generalize (if b = true then UpdateImpl.invite env t else UpdateImpl.answer env t)
        = x at hb ⊢
      obtain ⟨r2, t2⟩ := x
      rcases r2 with e | ok
      · exact hb.trans h0
      · cases ok
        · exact hb.trans h0
        · exact hb.trans h0

theorem calls_BuildingUfoLockTX (env : Env F G) (tx : AtomicSwapTransaction F G) :
    (UpdateImpl.BuildingUfoLockTX env tx).2.calls = tx.calls := by
  have hq := (quiet_BuildUfoLockTx env tx).1
  unfold UpdateImpl.BuildingUfoLockTX
  rcases hx : BuildUfoLockTx env tx with ⟨r, t⟩
  rw [hx] at hq
  rcases r with e | s
  · exact hq
  · simp only []
    split <;> exact hq

theorem calls_HandlingContractTX (env : Env F G) (tx : AtomicSwapTransaction F G)
    (isUfoOwner : Bool) :
    (UpdateImpl.HandlingContractTX env tx isUfoOwner).2.calls = tx.calls := by
  unfold UpdateImpl.HandlingContractTX
  have hq := quiet_GetSecondSide env tx
  rcases hx : WrapperSecondSide.GetSecondSide env tx with ⟨r, t⟩
  rw [hx] at hq
  rcases r with e | s
  · simp only []
    split <;> exact hq.1
  · simp only []
    split_ifs
    · exact (quiet_step_OnFailed env _ _ hq).1
    · exact hq.1
    · exact (quiet_step_SendExternalTxDetails env s hq).1
    · exact hq.1
    · exact hq.1

theorem calls_SendingRefundTX (env : Env F G) (tx : AtomicSwapTransaction F G)
    (isUfoOwner : Bool) :
    (UpdateImpl.SendingRefundTX env tx isUfoOwner).2.calls = tx.calls := by
  unfold UpdateImpl.SendingRefundTX
  simp only []
  generalize htx : (if (!isUfoOwner) = true then tx
    else { tx with assertFailures := tx.assertFailures + 1 }) = t0
  have h0 : t0.calls = tx.calls := by
    rw [← htx]
    split <;> rfl
  have hq := (quiet_GetSecondSide env t0).1
  rcases hx : WrapperSecondSide.GetSecondSide env t0 with ⟨r, t⟩
  rw [hx] at hq
  rcases r with e | s
  · exact hq.trans h0
  · simp only []
    split_ifs <;> exact hq.trans h0

theorem calls_SendingRedeemTX (env : Env F G) (tx : AtomicSwapTransaction F G)
    (isUfoOwner : Bool) :
    (UpdateImpl.SendingRedeemTX env tx isUfoOwner).2.calls = tx.calls := by
  unfold UpdateImpl.SendingRedeemTX
  simp only []
  generalize htx : (if isUfoOwner = true then tx
    else { tx with assertFailures := tx.assertFailures + 1 }) = t0
  have h0 : t0.calls = tx.calls := by
    rw [← htx]
    split <;> rfl
  have hq := (quiet_GetSecondSide env t0).1
  rcases hx : WrapperSecondSide.GetSecondSide env t0 with ⟨r, t⟩
  rw [hx] at hq
  rcases r with e | s
  · exact hq.trans h0
  · simp only []
    split_ifs <;> exact hq.trans h0

theorem quiet_lockBuild (env : Env F G) (tx : AtomicSwapTransaction F G)
    (isUfoOwner : Bool) : Quiet tx (UpdateImpl.lockBuild env tx isUfoOwner).2 := by
  unfold UpdateImpl.lockBuild
  split
  · have hq := quiet_BuildUfoLockTx env tx
    rcases hx : BuildUfoLockTx env tx with ⟨r, t⟩
    rw [hx] at hq
    rcases r with e | s <;> exact hq
  · exact quiet_refl tx

theorem quiet_lockExpired (env : Env F G) (tx : AtomicSwapTransaction F G)
    (isUfoOwner : Bool) : Quiet tx (UpdateImpl.lockExpired env tx isUfoOwner).2 := by
  unfold UpdateImpl.lockExpired
  split
  · have hq := quiet_GetSecondSide env tx
    rcases hx : WrapperSecondSide.GetSecondSide env tx with ⟨r, t⟩
    rw [hx] at hq
    rcases r with e | s <;> exact hq
  · exact quiet_refl tx

theorem onlyCalled_lockSend {P : Call → Prop} (env : Env F G)
    {a b : AtomicSwapTransaction F G} (hP : ∀ c, ¬ registersWithdraw c → P c)
    (h : OnlyCalled P a b) : OnlyCalled P a (UpdateImpl.lockSend env b).2 := by
  unfold UpdateImpl.lockSend
  split
  · exact onlyCalled_SendSubTx env _ _
      (hP _ (fun hc => hc.elim (fun x => SubTxID.noConfusion x)
        (fun x => SubTxID.noConfusion x))) h
  · exact h

theorem onlyCalled_SendingUfoLockTX {P : Call → Prop} (env : Env F G)
    {a b : AtomicSwapTransaction F G} (isUfoOwner : Bool)
    (hP : ∀ c, ¬ registersWithdraw c → P c) (h : OnlyCalled P a b) :
    OnlyCalled P a (UpdateImpl.SendingUfoLockTX env b isUfoOwner).2 := by
  unfold UpdateImpl.SendingUfoLockTX
  have h1 := onlyCalled_of_quiet (quiet_lockBuild env b isUfoOwner) h
  generalize UpdateImpl.lockBuild env b isUfoOwner = x at *
  obtain ⟨r, t1⟩ := x
  rcases r with e | u
  · exact h1
  · simp only [] at h1 ⊢
    have h2 := onlyCalled_lockSend env hP h1
    generalize UpdateImpl.lockSend env t1 = x at *
    obtain ⟨ok, t2⟩ := x
    cases ok
    · exact h2
    · simp only [] at h2 ⊢
      have h3 := onlyCalled_of_quiet (quiet_lockExpired env t2 isUfoOwner) h2
      generalize UpdateImpl.lockExpired env t2 isUfoOwner = x at *
      obtain ⟨r3, t3⟩ := x
      rcases r3 with e | ex
      · exact h3
      · cases ex
        · simp only [] at h3 ⊢
          have h4 := onlyCalled_CompleteSubTx .UFO_LOCK_TX hP h3
          generalize CompleteSubTx t3 .UFO_LOCK_TX = x at *
          obtain ⟨r4, t4⟩ := x
          rcases r4 with e | done
          · exact h4
          · cases done
            · exact h4
            · exact onlyCalled_step rfl h4
        · exact onlyCalled_step rfl h3

/-- What `CheckSubTxFailures` leaves: no call is made, and the top state is as it
was or is `Failed`. -/
theorem CheckSubTxFailures_frame (env : Env F G) (tx : AtomicSwapTransaction F G) :
    (CheckSubTxFailures env tx).calls = tx.calls
    ∧ ((CheckSubTxFailures env tx).GetState kDefaultSubTxID = tx.GetState kDefaultSubTxID
      ∨ (CheckSubTxFailures env tx).GetState kDefaultSubTxID = .Failed) := by
  unfold CheckSubTxFailures
  simp only []
  split
  · rename_i hs
    split
    · refine ⟨OnFailed_calls env tx _ _, Or.inr ?_⟩
      rw [OnFailed_GetState]
      simp only [Bool.or_eq_true, beq_iff_eq] at hs
      rcases hs with h | h <;> rw [h] <;> rfl
    · exact ⟨rfl, Or.inl rfl⟩
  · exact ⟨rfl, Or.inl rfl⟩

/-- In `case State::SendingUfoLockTX` the swap goes on to `SendingUfoRedeemTX` only
with a proof height of the Lock kernel other than zero. -/
theorem SendingUfoLockTX_confirmed (env : Env F G) (tx : AtomicSwapTransaction F G)
    (isUfoOwner : Bool) (hstart : tx.GetState kDefaultSubTxID = .SendingUfoLockTX)
    (hend : (UpdateImpl.SendingUfoLockTX env tx isUfoOwner).2.GetState kDefaultSubTxID
      = .SendingUfoRedeemTX) :
    ∃ h, h ≠ 0 ∧ (UpdateImpl.SendingUfoLockTX env tx isUfoOwner).2.GetParameter
      .KernelProofHeight .UFO_LOCK_TX = some (.u64 h) := by
  -- until the last step the top state is not `SendingUfoRedeemTX`
  have hlinger : ∀ a b : AtomicSwapTransaction F G,
      a.GetState kDefaultSubTxID ≠ .SendingUfoRedeemTX → Quiet a b →
      b.GetState kDefaultSubTxID ≠ .SendingUfoRedeemTX := by
    intro a b ha hq hb
    rcases hq.2.2 with h | h | h
    · exact ha (h ▸ hb)
    · rw [hb] at h
      exact State.noConfusion h
    · rw [hb] at h
      exact State.noConfusion h
  have h0 : tx.GetState kDefaultSubTxID ≠ .SendingUfoRedeemTX := by
    rw [hstart]
    decide
  revert hend
  unfold UpdateImpl.SendingUfoLockTX
  have h1 := hlinger _ _ h0 (quiet_lockBuild env tx isUfoOwner)
  generalize UpdateImpl.lockBuild env tx isUfoOwner = x at *
  obtain ⟨r, t1⟩ := x
  rcases r with e | u
  · exact fun hend => absurd hend h1
  · simp only [] at h1 ⊢
    have h2 : (UpdateImpl.lockSend env t1).2.GetState kDefaultSubTxID
        ≠ .SendingUfoRedeemTX := by
      unfold UpdateImpl.lockSend
      split
      · rename_i lockTx _
        rcases SendSubTx_cases env t1 lockTx .UFO_LOCK_TX with h | h | h <;> rw [h]
        · exact h1
        · exact h1
        · exact hlinger _ _ h1 (quiet_step_OnSubTxFailed env _ _ _ (quiet_refl t1))
      · exact h1
    generalize UpdateImpl.lockSend env t1 = x at *
    obtain ⟨ok, t2⟩ := x
    cases ok
    · exact fun hend => absurd hend h2
    · simp only [] at h2 ⊢
      have h3 := hlinger _ _ h2 (quiet_lockExpired env t2 isUfoOwner)
      generalize UpdateImpl.lockExpired env t2 isUfoOwner = x at *
      obtain ⟨r3, t3⟩ := x
      rcases r3 with e | ex
      · exact fun hend => absurd hend h3
      · cases ex
        · simp only [] at h3 ⊢
          rcases CompleteSubTx_cases t3 .UFO_LOCK_TX with
            ⟨e, h4⟩ | ⟨k, h4⟩ | ⟨p, hp0, hp, h4 | ⟨am, co, h4⟩⟩ <;> rw [h4] <;> simp only []
          · exact fun hend => absurd hend h3
          · exact fun hend => absurd hend h3
          · intro _
            refine ⟨p, hp0, ?_⟩
            rw [GetParameter_SetNextState_of_ne _ _ _ _ (Or.inl (by decide))]
            exact hp
          · intro _
            refine ⟨p, hp0, ?_⟩
            rw [GetParameter_SetNextState_of_ne _ _ _ _ (Or.inl (by decide))]
            exact hp
        · simp only []
          intro hend
          rw [GetState_SetNextState] at hend
          exact State.noConfusion hend

section RingOnly

variable [CommRing F]

theorem onlyCalled_extract {P : Call → Prop} (env : Env F G)
    {a b : AtomicSwapTransaction F G} (hP : ∀ c, P c) (h : OnlyCalled P a b) :
    OnlyCalled P a (UpdateImpl.extract env b).2 := by
  unfold UpdateImpl.extract
  have h1 := onlyCalled_GetKernelFromChain .UFO_REDEEM_TX (fun c _ => hP c) h
  generalize GetKernelFromChain b .UFO_REDEEM_TX = x at *
  obtain ⟨r, t1⟩ := x
  rcases r with e | found
  · exact h1
  · cases found
    · exact h1
    · simp only [] at h1 ⊢
      have h2 := onlyCalled_of_quiet (quiet_ExtractSecretPrivateKey env t1) h1
      generalize ExtractSecretPrivateKey env t1 = x at *
      obtain ⟨r2, t2⟩ := x
      rcases r2 with e | u
      · exact h2
      · exact onlyCalled_step rfl h2

end RingOnly

section Turn

variable [CommRing F] [AddCommGroup G] [Module F G] [DecidableEq G]

/-- A turn that starts in `Initial` or `HandlingContractTX` with a failure recorded
for the foreign lock ends in `Failed`. -/
theorem UpdateImpl_failure_pending (env : Env F G) (tx : AtomicSwapTransaction F G)
    (r : TxFailureReason)
    (hstart : tx.GetState kDefaultSubTxID = .Initial
      ∨ tx.GetState kDefaultSubTxID = .HandlingContractTX)
    (hpending : (tx.GetParameter .InternalFailureReason .LOCK_TX).bind Value.asReason
      = some r) :
    (UpdateImpl env tx).2 = UpdateImpl.Failed (OnFailed env tx r true).IsUfoSide.2
    ∧ (UpdateImpl env tx).2.GetState kDefaultSubTxID = .Failed := by
  have hc : CheckSubTxFailures env tx = OnFailed env tx r true := by
    unfold CheckSubTxFailures
    rcases hstart with h | h <;> simp [h, hpending]
  have hs : (OnFailed env tx r true).GetState kDefaultSubTxID = .Failed := by
    rw [OnFailed_GetState]
    rcases hstart with h | h <;> rw [h] <;> rfl
  have he : (UpdateImpl env tx).2 = UpdateImpl.Failed (OnFailed env tx r true).IsUfoSide.2 := by
    rw [UpdateImpl_snd]
    unfold UpdateImpl.body
    simp only [hc, hs]
  refine ⟨he, ?_⟩
  rw [he]
  unfold UpdateImpl.Failed
  show ((OnFailed env tx r true).IsUfoSide.2.UpdateTxDescription .Failed).GetState
    kDefaultSubTxID = .Failed
  rw [GetState_UpdateTxDescription, GetState_IsUfoSide, hs]

/-- A turn that starts in `Initial` with no failure recorded for the foreign lock
is `case State::Initial`. -/
theorem UpdateImpl_Initial (env : Env F G) (tx : AtomicSwapTransaction F G)
    (hstart : tx.GetState kDefaultSubTxID = .Initial)
    (hpending : (tx.GetParameter .InternalFailureReason .LOCK_TX).bind Value.asReason
      = none) :
    UpdateImpl.body env tx = UpdateImpl.Initial env tx.IsUfoSide.2 := by
  have hc : CheckSubTxFailures env tx = tx := by
    unfold CheckSubTxFailures
    simp [hstart, hpending]
  unfold UpdateImpl.body
  simp only [hc, hstart]

/-- C27. For a swap that holds the parameters produced by `InitNewSwap`, optionally
followed by `AcceptSwapParameters`, after a turn of `UpdateImpl` that moves the
top state from `Initial` to `BuildingUfoLockTX` the store holds `MinHeight`,
`PeerResponseHeight`, `Fee`, `Amount`, `AtomicSwapAmount`,
`AtomicSwapIsUfoSide`, `IsSender`, `IsInitiator` and `MyID`;
`PeerResponseHeight` is unchanged when it was there, and is the `Height` sum
`MinHeight + PeerResponseTime` when it was not, which is the sum of the two
numbers whenever that is below `2 ^ 64`. -/
theorem UpdateImpl_initial_store (env : Env F G) (tx : AtomicSwapTransaction F G)
    (parameters : TxParameters F G)
    (hcreated : producedByInitNewSwap parameters)
    (hholds : ∀ id v, parameters.GetParameter id = some v → tx.GetParameter id = some v)
    (hstart : tx.GetState kDefaultSubTxID = .Initial)
    (hend : (UpdateImpl env tx).2.GetState kDefaultSubTxID = .BuildingUfoLockTX) :
    (∀ id ∈ storedIds, ((UpdateImpl env tx).2.GetParameter id).isSome)
    ∧ ((∃ h, (tx.GetParameter .PeerResponseHeight).bind Value.asU64 = some h) →
        (UpdateImpl env tx).2.GetParameter .PeerResponseHeight
          = tx.GetParameter .PeerResponseHeight)
    ∧ ((tx.GetParameter .PeerResponseHeight).bind Value.asU64 = none →
        ∃ m t, tx.GetParameter .MinHeight = some (.u64 m)
          ∧ tx.GetParameter .PeerResponseTime = some (.u64 t)
          ∧ (UpdateImpl env tx).2.GetParameter .PeerResponseHeight
            = some (.u64 ((m + t) % 2 ^ 64))
          ∧ (m + t < 2 ^ 64 →
            (UpdateImpl env tx).2.GetParameter .PeerResponseHeight = some (.u64 (m + t)))) := by
  obtain ⟨⟨m, hm⟩, ⟨t, ht⟩, hids⟩ := producedByInitNewSwap_holds parameters hcreated
  have hm' := hholds _ _ hm
  have ht' := hholds _ _ ht
  -- no failure of the foreign lock is pending, or the turn would end in `Failed`
  have hpending : (tx.GetParameter .InternalFailureReason .LOCK_TX).bind Value.asReason
      = none := by
    rcases hp : (tx.GetParameter .InternalFailureReason .LOCK_TX).bind Value.asReason
      with _ | r
    · rfl
    · have := (UpdateImpl_failure_pending env tx r (Or.inl hstart) hp).2
      rw [this] at hend
      exact State.noConfusion hend
  have hfinal : ∀ id, id ≠ .InternalFailureReason → id ≠ .Status → id ≠ .State →
      id ≠ .AtomicSwapExternalLockTime →
      (UpdateImpl env tx).2.GetParameter id
        = (UpdateImpl.responseHeight tx.IsUfoSide.2).2.GetParameter id := by
    intro id h1 h2 h3 h4
    rw [UpdateImpl_snd, UpdateImpl_Initial env tx hstart hpending]
    exact Initial_params env _ id h1 h2 h3 h4
  have hside : ∀ id, tx.IsUfoSide.2.GetParameter id = tx.GetParameter id :=
    fun id => GetParameter_IsUfoSide tx id _
  have hresp := responseHeight_cases tx.IsUfoSide.2
  simp only [hside] at hresp
  have hmt : (tx.GetParameter .MinHeight).bind Value.asU64 = some m :=
    (asU64_eq_some _ _).2 hm'
  have htt : (tx.GetParameter .PeerResponseTime).bind Value.asU64 = some t :=
    (asU64_eq_some _ _).2 ht'
  rcases hresp with ⟨⟨h, hh⟩, hr⟩ | ⟨hnone, ⟨e, hr⟩ | ⟨m2, t2, hm2, ht2, hr⟩⟩
  · -- `PeerResponseHeight` was there
    have hprh : (UpdateImpl env tx).2.GetParameter .PeerResponseHeight
        = tx.GetParameter .PeerResponseHeight := by
      rw [hfinal _ (by decide) (by decide) (by decide) (by decide), hr]
      exact hside _
    refine ⟨?_, fun _ => hprh, fun hn => ?_⟩
    · intro id hid
      by_cases hp : id = .PeerResponseHeight
      · subst hp
        rw [hprh, (asU64_eq_some _ _).1 hh]
        rfl
      · have h0 := hids id hid hp
        obtain ⟨v, hv⟩ := Option.isSome_iff_exists.1 h0
        have hne : id ≠ .InternalFailureReason ∧ id ≠ .Status ∧ id ≠ .State
            ∧ id ≠ .AtomicSwapExternalLockTime := by
          simp only [storedIds, List.mem_cons, List.mem_singleton, List.not_mem_nil,
            or_false] at hid
          rcases hid with h | h | h | h | h | h | h | h | h <;> subst h <;> decide
        rw [hfinal id hne.1 hne.2.1 hne.2.2.1 hne.2.2.2, hr]
        show (tx.IsUfoSide.2.GetParameter id).isSome
        rw [hside, hholds id v hv]
        rfl
    · rw [hh] at hn
      exact Option.noConfusion hn
  · -- the mandatory parameters are there, so the part does not throw
    exfalso
    have := congrArg Prod.fst hr
    unfold UpdateImpl.responseHeight GetMandatoryParameter at this
    simp only [hside, hnone, hmt, htt] at this
    exact Except.noConfusion this
  · -- `PeerResponseHeight` is written
    have hmm : m2 = m := by
      rw [hm'] at hm2
      simpa using hm2.symm
    have htm : t2 = t := by
      rw [ht'] at ht2
      simpa using ht2.symm
    subst hmm htm
    have hprh : (UpdateImpl env tx).2.GetParameter .PeerResponseHeight
        = some (.u64 ((m2 + t2) % 2 ^ 64)) := by
      rw [hfinal _ (by decide) (by decide) (by decide) (by decide), hr]
      simp [SetParameter, GetParameter]
    refine ⟨?_, fun ⟨h, hh⟩ => ?_, fun _ => ⟨m2, t2, hm', ht', hprh, fun hlt => ?_⟩⟩
    · intro id hid
      by_cases hp : id = .PeerResponseHeight
      · subst hp
        rw [hprh]
        rfl
      · have h0 := hids id hid hp
        obtain ⟨v, hv⟩ := Option.isSome_iff_exists.1 h0
        have hne : id ≠ .InternalFailureReason ∧ id ≠ .Status ∧ id ≠ .State
            ∧ id ≠ .AtomicSwapExternalLockTime := by
          simp only [storedIds, List.mem_cons, List.mem_singleton, List.not_mem_nil,
            or_false] at hid
          rcases hid with h | h | h | h | h | h | h | h | h <;> subst h <;> decide
        rw [hfinal id hne.1 hne.2.1 hne.2.2.1 hne.2.2.2, hr,
          GetParameter_SetParameter_of_ne _ _ _ _ _ _ (Or.inr (Ne.symm hp)), hside,
          hholds id v hv]
        rfl
    · rw [hnone] at hh
      exact Option.noConfusion hh
    · rw [hprh, Nat.mod_eq_of_lt hlt]

/-- Witness of C27: the party that accepted `Example.offer`. -/
theorem UpdateImpl_initial_store_witness :
    (∀ id ∈ storedIds, ((UpdateImpl Example.env Example.acceptor).2.GetParameter id).isSome)
    ∧ (UpdateImpl Example.env Example.acceptor).2.GetParameter .PeerResponseHeight
        = some (.u64 150) := by
  have h := UpdateImpl_initial_store Example.env Example.acceptor
    ((AcceptSwapParameters Example.offer [2]).getD Example.offer)
    ⟨0, [1], 100, 1000, 100, 0, 5, true, 720, 50, Or.inr ⟨[2], rfl⟩⟩
    (by
      intro id v h
      by_cases hid : id = .AtomicSwapPublicKey
      · subst hid
        exact absurd h (by
          have : ((AcceptSwapParameters Example.offer [2]).getD Example.offer).GetParameter
              .AtomicSwapPublicKey = none := rfl
          rw [this]
          exact fun hc => Option.noConfusion hc)
      · rw [← h]
        simp [Example.acceptor, SetParameter, GetParameter, TxParameters.GetParameter, hid,
          Example.blank, kDefaultSubTxID])
    rfl rfl
  refine ⟨h.1, ?_⟩
  obtain ⟨m, t, hm, ht, hp, -⟩ := h.2.2 rfl
  have hm2 : (some (Value.u64 m) : Option (Value Int Int)) = some (.u64 100) :=
    hm.symm.trans rfl
  have ht2 : (some (Value.u64 t) : Option (Value Int Int)) = some (.u64 50) :=
    ht.symm.trans rfl
  simp only [Option.some.injEq, Value.u64.injEq] at hm2 ht2
  subst hm2 ht2
  exact hp

/-- C24. When the provider of the second side gives no adapter and none is cached,
a turn of `UpdateImpl` started in a state that asks the adapter (`Initial` or
`HandlingContractTX` with no failure of the foreign lock pending,
`SendingRefundTX`, `SendingRedeemTX`, `SendingUfoLockTX` on the foreign side)
ends with the top state unchanged, the `FailureReason` and the
`InternalFailureReason` of every sub-tx as they were, and no message handed to
the transport. -/
theorem UpdateImpl_without_second_side (env : Env F G) (tx : AtomicSwapTransaction F G)
    (hnone : tx.m_secondSide = none) (hprovider : env.noSecondSide)
    (hconsults : consultsSecondSide tx) :
    (UpdateImpl env tx).2.GetState kDefaultSubTxID = tx.GetState kDefaultSubTxID
    ∧ (∀ sub, (UpdateImpl env tx).2.GetParameter .FailureReason sub
        = tx.GetParameter .FailureReason sub)
    ∧ (∀ sub, (UpdateImpl env tx).2.GetParameter .InternalFailureReason sub
        = tx.GetParameter .InternalFailureReason sub)
    ∧ (UpdateImpl env tx).2.outbox = tx.outbox := by
  have hside := m_secondSide_IsUfoSide tx
  rw [hnone] at hside
  obtain ⟨e, he⟩ := GetSecondSide_none env tx.IsUfoSide.2 hside hprovider
  -- the object after the turn is the one before it, up to the members and
  -- `PeerResponseHeight`
  have hframe : (∀ s i, ¬ (s = kDefaultSubTxID ∧ i = .PeerResponseHeight) →
      (UpdateImpl env tx).2.params s i = tx.params s i)
      ∧ (UpdateImpl env tx).2.outbox = tx.outbox := by
    rw [UpdateImpl_snd]
    rcases hconsults with ⟨hs, hp⟩ | hs | hs | ⟨hs, hf, hl⟩
    · rcases hs with hs | hs
      · rw [UpdateImpl_Initial env tx hs hp]
        rcases Initial_without_second_side env tx.IsUfoSide.2 hside hprovider
          with h | ⟨h, h⟩ <;> rw [h]
        · exact ⟨fun s i _ => by rw [params_IsUfoSide], IsUfoSide_outbox tx⟩
        · refine ⟨fun s i hne => ?_, IsUfoSide_outbox tx⟩
          simp only [SetParameter, params_IsUfoSide, if_neg hne]
      · have hc : CheckSubTxFailures env tx = tx := by
          unfold CheckSubTxFailures
          simp [hs, hp]
        unfold UpdateImpl.body
        simp only [hc, hs]
        unfold UpdateImpl.HandlingContractTX
        simp only [he]
        split <;> exact ⟨fun s i _ => by rw [params_IsUfoSide], IsUfoSide_outbox tx⟩
    · rw [show UpdateImpl.body env tx
          = UpdateImpl.SendingRefundTX env tx.IsUfoSide.2 tx.IsUfoSide.1 by
        unfold UpdateImpl.body
        rw [CheckSubTxFailures_of_state env tx (by rw [hs]; decide) (by rw [hs]; decide)]
        simp only [hs]]
      unfold UpdateImpl.SendingRefundTX
      cases tx.IsUfoSide.1
      · simp only [Bool.not_false, if_true, he]
        exact ⟨fun s i _ => by rw [params_IsUfoSide], IsUfoSide_outbox tx⟩
      · obtain ⟨e2, he2⟩ := GetSecondSide_none env
          ({ tx.IsUfoSide.2 with assertFailures := tx.IsUfoSide.2.assertFailures + 1 })
          hside hprovider
        simp only [Bool.not_true, Bool.false_eq_true, if_false, he2]
        exact ⟨fun s i _ => by rw [params_IsUfoSide], IsUfoSide_outbox tx⟩
    · rw [show UpdateImpl.body env tx
          = UpdateImpl.SendingRedeemTX env tx.IsUfoSide.2 tx.IsUfoSide.1 by
        unfold UpdateImpl.body
        rw [CheckSubTxFailures_of_state env tx (by rw [hs]; decide) (by rw [hs]; decide)]
        simp only [hs]]
      unfold UpdateImpl.SendingRedeemTX
      cases tx.IsUfoSide.1
      · obtain ⟨e2, he2⟩ := GetSecondSide_none env
          ({ tx.IsUfoSide.2 with assertFailures := tx.IsUfoSide.2.assertFailures + 1 })
          hside hprovider
        simp only [Bool.false_eq_true, if_false, he2]
        exact ⟨fun s i _ => by rw [params_IsUfoSide], IsUfoSide_outbox tx⟩
      · simp only [if_true, he]
        exact ⟨fun s i _ => by rw [params_IsUfoSide], IsUfoSide_outbox tx⟩
    · rw [show UpdateImpl.body env tx
          = UpdateImpl.SendingUfoLockTX env tx.IsUfoSide.2 false by
        unfold UpdateImpl.body
        rw [CheckSubTxFailures_of_state env tx (by rw [hs]; decide) (by rw [hs]; decide)]
        simp only [hs, hf]]
      have hl2 : tx.IsUfoSide.2.m_LockTx = none := by rw [m_LockTx_IsUfoSide, hl]
      unfold UpdateImpl.SendingUfoLockTX UpdateImpl.lockBuild UpdateImpl.lockSend
        UpdateImpl.lockExpired
      simp only [hl2, Option.isNone_none, Bool.and_false, Bool.false_eq_true, if_false,
        Bool.not_false, if_true, he]
      exact ⟨fun s i _ => by rw [params_IsUfoSide], IsUfoSide_outbox tx⟩
  refine ⟨?_, fun sub => ?_, fun sub => ?_, hframe.2⟩
  · unfold GetState GetParameter
    rw [hframe.1 _ _ (fun h => by simp at h)]
  · exact hframe.1 _ _ (fun h => by simp at h)
  · exact hframe.1 _ _ (fun h => by simp at h)

/-- Witness of C24: a foreign-side swap in `HandlingContractTX` whose provider
gives no adapter; `UninitilizedSecondSide` is thrown in the `try` block and the
turn returns normally. -/
theorem UpdateImpl_without_second_side_witness :
    (UpdateImpl Example.unready (Example.foreignSwap .HandlingContractTX)).2.GetState
        kDefaultSubTxID = .HandlingContractTX
    ∧ (UpdateImpl Example.unready (Example.foreignSwap .HandlingContractTX)).2.outbox = []
    ∧ (UpdateImpl Example.unready (Example.foreignSwap .HandlingContractTX)).1 = .ok ()
    ∧ (UpdateImpl.body Example.unready (Example.foreignSwap .HandlingContractTX)).1
        = .error .UninitilizedSecondSide :=
  have h := UpdateImpl_without_second_side Example.unready
    (Example.foreignSwap .HandlingContractTX) rfl
    (fun _ _ hf _ _ => by
      simp only [Example.unready, Option.some.injEq] at hf
      rw [← hf])
    (Or.inl ⟨Or.inr rfl, rfl⟩)
  ⟨h.1, h.2.2.2, rfl, rfl⟩

/-- C28, at inputs where the code does otherwise. With a transport that takes no
message, the turn of `Example.acceptor` from `Initial` calls `SendInvitation`,
which records `FailedToSendParameters`, and ends in `BuildingUfoLockTX`; the
turn of a foreign-side swap from `HandlingContractTX` calls
`SendExternalTxDetails`, which records `FailedToSendParameters`, and ends in
`SendingUfoLockTX`. Neither ends in `Failed`. -/
theorem UpdateImpl_overwrites_send_failure :
    Example.acceptor.GetState kDefaultSubTxID = .Initial
    ∧ (UpdateImpl Example.offline Example.acceptor).2.outbox.map Prod.snd = [false]
    ∧ (UpdateImpl Example.offline Example.acceptor).2.GetParameter .InternalFailureReason
        = some (.reason .FailedToSendParameters)
    ∧ (UpdateImpl Example.offline Example.acceptor).2.GetState kDefaultSubTxID
        = .BuildingUfoLockTX
    ∧ (Example.foreignSwap .HandlingContractTX).GetState kDefaultSubTxID
        = .HandlingContractTX
    ∧ (UpdateImpl Example.offline (Example.foreignSwap .HandlingContractTX)).2.outbox.map
        Prod.snd = [false]
    ∧ (UpdateImpl Example.offline (Example.foreignSwap .HandlingContractTX)).2.GetParameter
        .InternalFailureReason = some (.reason .FailedToSendParameters)
    ∧ (UpdateImpl Example.offline (Example.foreignSwap .HandlingContractTX)).2.GetState
        kDefaultSubTxID = .SendingUfoLockTX := by
  refine ⟨rfl, rfl, rfl, rfl, rfl, rfl, rfl, rfl⟩

/-- C29, at an input where the code does otherwise. The native-side swap
`Example.lockSigned (-1)` is in `BuildingUfoLockTX` with a peer signature that
fails verification: after the turn the Lock sub-tx records
`InvalidPeerSignature`, the peer was sent `FailureReason = SubTxFailed` and the
wallet transaction was rolled back once, and the top state is
`BuildingUfoRefundTX`, the state the turn reaches with the valid signature
`-37`. -/
theorem UpdateImpl_overwrites_invalid_signature :
    (Example.lockSigned (-1)).GetState kDefaultSubTxID = .BuildingUfoLockTX
    ∧ (UpdateImpl Example.env (Example.lockSigned (-1))).2.GetParameter
        .InternalFailureReason .UFO_LOCK_TX = some (.reason .InvalidPeerSignature)
    ∧ (UpdateImpl Example.env (Example.lockSigned (-1))).2.outbox.map
        (fun m => m.1.m_Parameters) = [[(.FailureReason, .reason .SubTxFailed)]]
    ∧ (UpdateImpl Example.env (Example.lockSigned (-1))).2.rollbacks = 1
    ∧ (UpdateImpl Example.env (Example.lockSigned (-1))).2.GetState kDefaultSubTxID
        = .BuildingUfoRefundTX
    ∧ (UpdateImpl Example.env (Example.lockSigned (-37))).2.GetParameter
        .InternalFailureReason .UFO_LOCK_TX = none
    ∧ (UpdateImpl Example.env (Example.lockSigned (-37))).2.GetState kDefaultSubTxID
        = .BuildingUfoRefundTX := by
  refine ⟨rfl, rfl, rfl, rfl, rfl, rfl, rfl⟩

/-- C21, at an input where the code does otherwise. The node answered the Redeem
transaction of `Example.redeemRejected` with `InvalidContext`, and the Redeem
kernel is recorded unconfirmed at height `10`; `SendSubTx` raises no failure and
returns `true`, because it reads `KernelUnconfirmedHeight` of the default
sub-tx, where nothing is recorded. With the same height recorded for the
default sub-tx it fails the Redeem sub-tx with `FailedToRegister`. -/
theorem SendSubTx_reads_default_subtx :
    Example.redeemRejected.GetParameter .TransactionRegistered .UFO_REDEEM_TX
        = some (.u8 Example.env.InvalidContext)
    ∧ Example.redeemRejected.GetParameter .KernelUnconfirmedHeight .UFO_REDEEM_TX
        = some (.u64 10)
    ∧ Example.redeemRejected.GetParameter .KernelUnconfirmedHeight = none
    ∧ SendSubTx Example.env Example.redeemRejected [] .UFO_REDEEM_TX
        = (true, Example.redeemRejected)
    ∧ (SendSubTx Example.env
          (Example.redeemRejected.SetParameter .KernelUnconfirmedHeight (.u64 10)) []
          .UFO_REDEEM_TX).1 = false
    ∧ (SendSubTx Example.env
          (Example.redeemRejected.SetParameter .KernelUnconfirmedHeight (.u64 10)) []
          .UFO_REDEEM_TX).2.GetParameter .InternalFailureReason .UFO_REDEEM_TX
        = some (.reason .FailedToRegister) := by
  refine ⟨rfl, rfl, rfl, rfl, rfl, rfl⟩

/-- Witness of C22: the node answered the registration with the code `7`, for the
Lock sub-tx and for the Refund sub-tx. -/
theorem SendSubTx_notifies_iff_lock_witness :
    SentOne (fun msg => msg.m_Parameters = [(.FailureReason, .reason .SubTxFailed)])
        (Example.refused .SendingUfoLockTX true .UFO_LOCK_TX)
        (SendSubTx Example.env (Example.refused .SendingUfoLockTX true .UFO_LOCK_TX) []
          .UFO_LOCK_TX).2
    ∧ (SendSubTx Example.env (Example.refused .SendingUfoRefundTX true .UFO_REFUND_TX) []
          .UFO_REFUND_TX).2.outbox
        = (Example.refused .SendingUfoRefundTX true .UFO_REFUND_TX).outbox :=
  ⟨(SendSubTx_notifies_iff_lock Example.env (Example.refused .SendingUfoLockTX true .UFO_LOCK_TX) []
      .UFO_LOCK_TX
      (by simp [Example.refused, Example.swapIn, Example.blank, SetParameter, SetState,
        GetParameter])
      rfl).1 rfl,
   (SendSubTx_notifies_iff_lock Example.env (Example.refused .SendingUfoRefundTX true .UFO_REFUND_TX)
      [] .UFO_REFUND_TX
      (by simp [Example.refused, Example.swapIn, Example.blank, SetParameter, SetState,
        GetParameter])
      rfl).2 (by decide)⟩

/-- C25, as stated, fails. The parameters `InitNewSwap` returns for
`Example.offer` hold `IsInitiator = false`, and the parameters
`AcceptSwapParameters` makes of them hold `IsInitiator = true`. -/
theorem InitNewSwap_not_initiator_counterexample :
    Example.offer.GetParameter .IsInitiator = some (.bool false)
    ∧ Example.offer.GetParameter .IsInitiator ≠ some (.bool true)
    ∧ ∃ q, AcceptSwapParameters Example.offer [2] = some q
      ∧ q.GetParameter .IsInitiator = some (.bool true)
      ∧ q.GetParameter .IsInitiator ≠ some (.bool false) := by
  refine ⟨rfl, by decide, _, rfl, rfl, by decide⟩

theorem calls_BuildingUfoWithdrawTX (env : Env F G) (tx : AtomicSwapTransaction F G)
    (sub : SubTxID) (next : State) (hsub : sub ≠ kDefaultSubTxID) :
    (UpdateImpl.BuildingUfoWithdrawTX env tx sub next).2.calls = tx.calls := by
  have hq := (quiet_BuildUfoWithdrawTx env tx sub tx.m_WithdrawTx hsub).1
  unfold UpdateImpl.BuildingUfoWithdrawTX
  rcases hx : BuildUfoWithdrawTx env tx sub tx.m_WithdrawTx with ⟨r, t⟩
  rw [hx] at hq
  rcases r with e | ⟨s, w⟩
  · exact hq
  · simp only []
    split <;> exact hq

theorem onlyCalled_CompleteUfoWithdrawTx {P : Call → Prop} (env : Env F G)
    {a b : AtomicSwapTransaction F G} (sub : SubTxID) (hsub : sub ≠ kDefaultSubTxID)
    (hP : ∀ c, P c) (h : OnlyCalled P a b) :
    OnlyCalled P a (CompleteUfoWithdrawTx env b sub).2 := by
  unfold CompleteUfoWithdrawTx
  have h1 : OnlyCalled P a (CompleteUfoWithdrawTx.build env b sub).2 := by
    unfold CompleteUfoWithdrawTx.build
    split
    · have hq := quiet_BuildUfoWithdrawTx env b sub b.m_WithdrawTx hsub
      rcases hx : BuildUfoWithdrawTx env b sub b.m_WithdrawTx with ⟨r, t⟩
      rw [hx] at hq
      rcases r with e | ⟨s, w⟩
      · exact onlyCalled_of_quiet hq h
      · exact onlyCalled_step rfl (onlyCalled_of_quiet hq h)
    · exact h
  generalize CompleteUfoWithdrawTx.build env b sub = x at *
  obtain ⟨r, t1⟩ := x
  rcases r with e | u
  · exact h1
  · simp only [] at h1 ⊢
    have h2 : OnlyCalled P a (CompleteUfoWithdrawTx.send env t1 sub).2 := by
      unfold CompleteUfoWithdrawTx.send
      split
      · exact onlyCalled_SendSubTx env _ _ (hP _) h1
      · exact h1
    generalize CompleteUfoWithdrawTx.send env t1 sub = x at *
    obtain ⟨ok, t2⟩ := x
    cases ok
    · exact h2
    · simp only [] at h2 ⊢
      have h3 := onlyCalled_CompleteSubTx sub (fun c _ => hP c) h2
      generalize CompleteSubTx t2 sub = x at *
      obtain ⟨r3, t3⟩ := x
      rcases r3 with e | done
      · exact h3
      · cases done <;> exact h3

theorem onlyCalled_SendingUfoRedeemTX {P : Call → Prop} (env : Env F G)
    {a b : AtomicSwapTransaction F G} (isUfoOwner : Bool) (hP : ∀ c, P c)
    (h : OnlyCalled P a b) :
    OnlyCalled P a (UpdateImpl.SendingUfoRedeemTX env b isUfoOwner).2 := by
  unfold UpdateImpl.SendingUfoRedeemTX
  have hx : OnlyCalled P a (UpdateImpl.extract env b.UpdateOnNextTip).2 :=
    onlyCalled_extract env hP (onlyCalled_step rfl h)
  split
  · simp only []
    split
    · split
      · exact onlyCalled_step rfl h
      · exact hx
    · exact hx
  · have h1 := onlyCalled_CompleteUfoWithdrawTx env .UFO_REDEEM_TX (by decide) hP h
    generalize CompleteUfoWithdrawTx env b .UFO_REDEEM_TX = x at *
    obtain ⟨r, t⟩ := x
    rcases r with e | done
    · exact h1
    · cases done
      · exact h1
      · exact onlyCalled_step rfl h1

theorem onlyCalled_SendingUfoRefundTX {P : Call → Prop} (env : Env F G)
    {a b : AtomicSwapTransaction F G} (isUfoOwner : Bool) (hP : ∀ c, P c)
    (h : OnlyCalled P a b) :
    OnlyCalled P a (UpdateImpl.SendingUfoRefundTX env b isUfoOwner).2 := by
  unfold UpdateImpl.SendingUfoRefundTX
  simp only []
  generalize htx : (if isUfoOwner = true then b
    else { b with assertFailures := b.assertFailures + 1 }) = t0
  have h0 : OnlyCalled P a t0 := by
    rw [← htx]
    split
    · exact h
    · exact onlyCalled_step rfl h
  split
  · exact onlyCalled_step rfl h0
  · have h1 := onlyCalled_CompleteUfoWithdrawTx env .UFO_REFUND_TX (by decide) hP h0
    generalize CompleteUfoWithdrawTx env t0 .UFO_REFUND_TX = x at *
    obtain ⟨r, t⟩ := x
    rcases r with e | done
    · exact h1
    · cases done
      · exact h1
      · exact onlyCalled_step rfl h1

/-- The calls of one turn: a Redeem or a Refund transaction is handed to the gateway
only in a turn that starts in `SendingUfoRedeemTX` or `SendingUfoRefundTX`. -/
theorem onlyCalled_body (env : Env F G) (tx : AtomicSwapTransaction F G) :
    OnlyCalled (fun c => registersWithdraw c →
        tx.GetState kDefaultSubTxID = .SendingUfoRedeemTX
        ∨ tx.GetState kDefaultSubTxID = .SendingUfoRefundTX)
      tx (UpdateImpl.body env tx).2 := by
  obtain ⟨hc, hs⟩ := CheckSubTxFailures_frame env tx
  unfold UpdateImpl.body
  simp only []
  generalize CheckSubTxFailures env tx = t0 at hc hs ⊢
  have h0 : OnlyCalled (fun c => registersWithdraw c →
        tx.GetState kDefaultSubTxID = .SendingUfoRedeemTX
        ∨ tx.GetState kDefaultSubTxID = .SendingUfoRefundTX) tx t0.IsUfoSide.2 :=
    onlyCalled_step ((quiet_step_IsUfoSide (quiet_refl t0)).1.trans hc) (onlyCalled_refl tx)
  have hP : ∀ c, ¬ registersWithdraw c → registersWithdraw c →
        tx.GetState kDefaultSubTxID = .SendingUfoRedeemTX
        ∨ tx.GetState kDefaultSubTxID = .SendingUfoRefundTX := fun c hn hr => absurd hr hn
  cases hst : t0.GetState kDefaultSubTxID <;> simp only []
  · exact onlyCalled_step (calls_Initial env _) h0
  · exact onlyCalled_step (calls_BuildingUfoLockTX env _) h0
  · exact onlyCalled_step (calls_BuildingUfoWithdrawTX env _ _ _ (by decide)) h0
  · exact onlyCalled_step (calls_BuildingUfoWithdrawTX env _ _ _ (by decide)) h0
  · exact onlyCalled_step (calls_HandlingContractTX env _ _) h0
  · exact onlyCalled_step (calls_SendingRefundTX env _ _) h0
  · exact onlyCalled_step (calls_SendingRedeemTX env _ _) h0
  · exact onlyCalled_SendingUfoLockTX env _ hP h0
  · refine onlyCalled_SendingUfoRefundTX env _ (fun c _ => Or.inr ?_) h0
    rcases hs with h | h
    · rw [← h, hst]
    · rw [hst] at h
      exact State.noConfusion h
  · refine onlyCalled_SendingUfoRedeemTX env _ (fun c _ => Or.inl ?_) h0
    rcases hs with h | h
    · rw [← h, hst]
    · rw [hst] at h
      exact State.noConfusion h
  · exact onlyCalled_call _ (hP _ (fun hc => hc)) (onlyCalled_step rfl h0)
  · exact onlyCalled_call _ (hP _ (fun hc => hc)) (onlyCalled_step rfl h0)
  · exact onlyCalled_call _ (hP _ (fun hc => hc)) (onlyCalled_step rfl h0)
  · exact onlyCalled_call _ (hP _ (fun hc => hc)) (onlyCalled_step rfl h0)

/-- C26. The native Lock is confirmed before the swap goes on to Redeem: after a
turn of `UpdateImpl` that starts in `SendingUfoLockTX` and ends in
`SendingUfoRedeemTX` the Lock sub-tx has a recorded `KernelProofHeight` other
than zero; and the calls a turn makes on the gateway hold a `register_tx` of a
Redeem or a Refund transaction only when the turn starts in
`SendingUfoRedeemTX` or in `SendingUfoRefundTX`. -/
theorem UpdateImpl_lock_confirmed_first (env : Env F G) (tx : AtomicSwapTransaction F G) :
    (tx.GetState kDefaultSubTxID = .SendingUfoLockTX →
      (UpdateImpl env tx).2.GetState kDefaultSubTxID = .SendingUfoRedeemTX →
      ∃ h, h ≠ 0 ∧ (UpdateImpl env tx).2.GetParameter .KernelProofHeight .UFO_LOCK_TX
        = some (.u64 h))
    ∧ ∃ new : List Call, (UpdateImpl env tx).2.calls = new ++ tx.calls
      ∧ ∀ transaction subTxID, Call.register_tx transaction subTxID ∈ new →
        subTxID = .UFO_REDEEM_TX ∨ subTxID = .UFO_REFUND_TX →
        tx.GetState kDefaultSubTxID = .SendingUfoRedeemTX
        ∨ tx.GetState kDefaultSubTxID = .SendingUfoRefundTX := by
  constructor
  · intro hstart hend
    rw [UpdateImpl_snd] at hend ⊢
    have hb : UpdateImpl.body env tx
        = UpdateImpl.SendingUfoLockTX env tx.IsUfoSide.2 tx.IsUfoSide.1 := by
      unfold UpdateImpl.body
      rw [CheckSubTxFailures_of_state env tx (by rw [hstart]; decide)
        (by rw [hstart]; decide)]
      simp only [hstart]
    rw [hb] at hend ⊢
    exact SendingUfoLockTX_confirmed env _ _ ((GetState_IsUfoSide tx _).trans hstart) hend
  · obtain ⟨new, hnew, hall⟩ := onlyCalled_body env tx
    rw [← UpdateImpl_snd] at hnew
    exact ⟨new, hnew, fun transaction subTxID hmem hsub => hall _ hmem hsub⟩

end Turn

/-! ## Terminal states, late failures, acceptance of an offer and 64-bit arithmetic -/

/-- In a terminal state `Cancel` does nothing. -/
theorem Cancel_terminal (tx : AtomicSwapTransaction F G)
    (hterm : isTerminal (tx.GetState kDefaultSubTxID)) : Cancel tx = tx := by
  unfold Cancel
  rcases hterm with h | h | h | h <;> simp only [h]

theorem OnFailed_terminal (env : Env F G) (tx : AtomicSwapTransaction F G)
    (reason : TxFailureReason) (notify : Bool)
    (hterm : isTerminal (tx.GetState kDefaultSubTxID)) :
    (OnFailed env tx reason notify).GetState kDefaultSubTxID = tx.GetState kDefaultSubTxID := by
  have h := congrArg Prod.fst (OnFailed_state_rollbacks env tx reason notify)
  rcases hterm with h1 | h1 | h1 | h1 <;> rw [h1] at h ⊢ <;> exact h

theorem CheckExternalFailures_terminal (tx : AtomicSwapTransaction F G)
    (hterm : isTerminal (tx.GetState kDefaultSubTxID)) :
    CheckExternalFailures tx = (false, tx) := by
  unfold CheckExternalFailures
  split
  · rcases hterm with h | h | h | h <;> simp only [h]
  · rfl

theorem CheckExpired_terminal (env : Env F G) (tx : AtomicSwapTransaction F G)
    (hterm : isTerminal (tx.GetState kDefaultSubTxID)) :
    (CheckExpired env tx).2.GetState kDefaultSubTxID = tx.GetState kDefaultSubTxID := by
  rcases CheckExpired_cases env tx with ⟨-, h⟩ | ⟨-, h⟩ <;> rw [h]
  exact OnFailed_terminal env tx _ _ hterm

section Turn

variable [CommRing F] [AddCommGroup G] [Module F G] [DecidableEq G]

/-- A turn that starts in a terminal state: the parameter store after it is the
one before it with the status written. -/
theorem UpdateImpl_terminal (env : Env F G) (tx : AtomicSwapTransaction F G)
    (hterm : isTerminal (tx.GetState kDefaultSubTxID)) :
    (UpdateImpl env tx).1 = .ok ()
    ∧ ∃ status, (UpdateImpl env tx).2.params = (tx.UpdateTxDescription status).params
      ∧ (tx.GetState kDefaultSubTxID = .CompleteSwap → status = .Completed)
      ∧ (tx.GetState kDefaultSubTxID = .Canceled → status = .Canceled)
      ∧ (tx.GetState kDefaultSubTxID = .Failed → status = .Failed)
      ∧ (tx.GetState kDefaultSubTxID = .Refunded → status = .Failed) := by
  have hc : CheckSubTxFailures env tx = tx :=
    CheckSubTxFailures_of_state env tx
      (by rcases hterm with h | h | h | h <;> rw [h] <;> decide)
      (by rcases hterm with h | h | h | h <;> rw [h] <;> decide)
  unfold UpdateImpl UpdateImpl.body
  simp only [hc]
  rcases hterm with h | h | h | h <;> simp only [h]
  · refine ⟨trivial, .Completed, ?_, fun _ => rfl, fun h => State.noConfusion h,
      fun h => State.noConfusion h, fun h => State.noConfusion h⟩
    simp only [UpdateImpl.CompleteSwap, call, UpdateTxDescription, SetParameter,
      params_IsUfoSide]
  · refine ⟨trivial, .Canceled, ?_, fun h => State.noConfusion h, fun _ => rfl,
      fun h => State.noConfusion h, fun h => State.noConfusion h⟩
    simp only [UpdateImpl.Canceled, call, UpdateTxDescription, SetParameter, RollbackTx,
      NotifyFailure, SendTxParameters, params_IsUfoSide]
  · refine ⟨trivial, .Failed, ?_, fun h => State.noConfusion h, fun h => State.noConfusion h,
      fun _ => rfl, fun h => State.noConfusion h⟩
    simp only [UpdateImpl.Failed, call, UpdateTxDescription, SetParameter, params_IsUfoSide]
  · refine ⟨trivial, .Failed, ?_, fun h => State.noConfusion h, fun h => State.noConfusion h,
      fun h => State.noConfusion h, fun _ => rfl⟩
    simp only [UpdateImpl.Refunded, call, UpdateTxDescription, SetParameter, params_IsUfoSide]

/-- C31. The terminal states are absorbing: when the top state is `CompleteSwap`,
`Canceled`, `Failed` or `Refunded`, then `Cancel`, `OnFailed`,
`CheckExternalFailures`, `CheckExpired` and a turn of `UpdateImpl` all leave the
top state as it is; and the turn writes the user-visible status `Failed` in
`Refunded`, `Completed` in `CompleteSwap`, `Canceled` in `Canceled` and
`Failed` in `Failed`. -/
theorem terminal_states_absorbing (env : Env F G) (tx : AtomicSwapTransaction F G)
    (reason : TxFailureReason) (notify : Bool)
    (hterm : isTerminal (tx.GetState kDefaultSubTxID)) :
    (Cancel tx).GetState kDefaultSubTxID = tx.GetState kDefaultSubTxID
    ∧ (OnFailed env tx reason notify).GetState kDefaultSubTxID
        = tx.GetState kDefaultSubTxID
    ∧ (CheckExternalFailures tx).2.GetState kDefaultSubTxID = tx.GetState kDefaultSubTxID
    ∧ (CheckExpired env tx).2.GetState kDefaultSubTxID = tx.GetState kDefaultSubTxID
    ∧ (UpdateImpl env tx).2.GetState kDefaultSubTxID = tx.GetState kDefaultSubTxID
    ∧ (tx.GetState kDefaultSubTxID = .Refunded →
        (UpdateImpl env tx).2.GetParameter .Status = some (.status .Failed))
    ∧ (tx.GetState kDefaultSubTxID = .CompleteSwap →
        (UpdateImpl env tx).2.GetParameter .Status = some (.status .Completed))
    ∧ (tx.GetState kDefaultSubTxID = .Canceled →
        (UpdateImpl env tx).2.GetParameter .Status = some (.status .Canceled))
    ∧ (tx.GetState kDefaultSubTxID = .Failed →
        (UpdateImpl env tx).2.GetParameter .Status = some (.status .Failed)) := by
  obtain ⟨-, status, hp, h1, h2, h3, h4⟩ := UpdateImpl_terminal env tx hterm
  have hstatus : (UpdateImpl env tx).2.GetParameter .Status = some (.status status) := by
    unfold GetParameter
    rw [hp]
    simp [UpdateTxDescription, SetParameter]
  refine ⟨by rw [Cancel_terminal tx hterm], OnFailed_terminal env tx reason notify hterm,
    by rw [CheckExternalFailures_terminal tx hterm], CheckExpired_terminal env tx hterm, ?_,
    fun h => by rw [hstatus, h4 h], fun h => by rw [hstatus, h1 h],
    fun h => by rw [hstatus, h2 h], fun h => by rw [hstatus, h3 h]⟩
  have : (UpdateImpl env tx).2.GetState kDefaultSubTxID
      = (tx.UpdateTxDescription status).GetState kDefaultSubTxID := by
    unfold GetState GetParameter
    rw [hp]
  rw [this, GetState_UpdateTxDescription]

/-- Witness of C31: a native-side swap in `Refunded`. -/
theorem terminal_states_absorbing_witness :
    (UpdateImpl Example.env (Example.swapIn .Refunded true)).2.GetState kDefaultSubTxID
        = .Refunded
    ∧ (UpdateImpl Example.env (Example.swapIn .Refunded true)).2.GetParameter .Status
        = some (.status .Failed)
    ∧ (OnFailed Example.env (Example.swapIn .Refunded true) .Unknown true).GetState
        kDefaultSubTxID = .Refunded :=
  have h := terminal_states_absorbing Example.env (Example.swapIn .Refunded true) .Unknown
    true (Or.inr (Or.inr (Or.inr rfl)))
  ⟨h.2.2.2.2.1, h.2.2.2.2.2.1 rfl, h.2.1⟩

end Turn

/-- C32. On a native-side swap in `SendingRedeemTX`, and in `SendingRefundTX` and
`SendingUfoRefundTX` on either side, `OnFailed` leaves the top state as it is
and does not roll the wallet transaction back. In every state `OnFailed`
records the given reason as the top-level `InternalFailureReason`, hands one
message carrying `FailureReason = reason` to the transport when `notify` is
true, and hands no message to it when `notify` is false. -/
theorem OnFailed_late_states (env : Env F G) (tx : AtomicSwapTransaction F G)
    (reason : TxFailureReason) (notify : Bool) :
    (((tx.GetState kDefaultSubTxID = .SendingRedeemTX ∧ tx.IsUfoSide.1 = true)
        ∨ tx.GetState kDefaultSubTxID = .SendingRefundTX
        ∨ tx.GetState kDefaultSubTxID = .SendingUfoRefundTX) →
      (OnFailed env tx reason notify).GetState kDefaultSubTxID = tx.GetState kDefaultSubTxID
      ∧ (OnFailed env tx reason notify).rollbacks = tx.rollbacks)
    ∧ (OnFailed env tx reason notify).GetParameter .InternalFailureReason
        = some (.reason reason)
    ∧ (notify = true →
        SentOne (fun msg => msg.m_Parameters = [(.FailureReason, .reason reason)])
          tx (OnFailed env tx reason notify))
    ∧ (notify = false → (OnFailed env tx reason notify).outbox = tx.outbox) := by
  refine ⟨fun hs => ?_, OnFailed_reason env tx reason notify, fun hn => ?_, fun hn => ?_⟩
  · have h := OnFailed_state_rollbacks env tx reason notify
    rcases hs with ⟨h1, -⟩ | h1 | h1 <;> rw [h1] at h ⊢ <;>
      exact ⟨congrArg Prod.fst h, congrArg Prod.snd h⟩
  · subst hn
    exact ⟨_, _, (OnFailed_outbox env tx reason true).trans (NotifyFailure_outbox env _ _), rfl⟩
  · subst hn
    exact OnFailed_outbox env tx reason false

/-- Witness of C32: a native-side swap in `SendingRedeemTX`. -/
theorem OnFailed_late_states_witness :
    (OnFailed Example.env (Example.swapIn .SendingRedeemTX true) .Unknown true).GetState
        kDefaultSubTxID = .SendingRedeemTX
    ∧ (OnFailed Example.env (Example.swapIn .SendingRedeemTX true) .Unknown true).rollbacks
        = 0 :=
  (OnFailed_late_states Example.env (Example.swapIn .SendingRedeemTX true) .Unknown true).1
    (Or.inl ⟨rfl, rfl⟩)

/-- C33, as stated, fails. `Example.offer` holds `MyID` and `AtomicSwapIsUfoSide`,
and `AcceptSwapParameters` returns a set whose `IsInitiator` is not the one of
`Example.offer`, though `IsInitiator` is not among `PeerID`, `MyID`,
`AtomicSwapIsUfoSide` and `IsSender`. -/
theorem AcceptSwapParameters_sets_IsInitiator_counterexample :
    Example.offer.GetParameter .MyID = some (.bytes [1])
    ∧ Example.offer.GetParameter .AtomicSwapIsUfoSide = some (.bool true)
    ∧ ∃ q, AcceptSwapParameters Example.offer [2] = some q
      ∧ q.GetParameter .IsInitiator ≠ Example.offer.GetParameter .IsInitiator := by
  refine ⟨rfl, rfl, _, rfl, ?_⟩
  decide

/-- C33, amended. For every parameter set `p` holding `MyID` and
`AtomicSwapIsUfoSide`, `AcceptSwapParameters(p, me)` returns a set in which
`PeerID` is `p.MyID`, `MyID` is `me`, `AtomicSwapIsUfoSide` is the negation of
the one of `p`, `IsSender` is the new `AtomicSwapIsUfoSide`, `IsInitiator` is
`true`, and every other parameter is as in `p`. So the acceptor is on the other
side than the creator and has `IsSender = AtomicSwapIsUfoSide`, as the creator
has in the set `InitNewSwap` returns. -/
theorem AcceptSwapParameters_effect (p : TxParameters F G) (me peerID : ByteBuffer)
    (side : Bool) (hid : p.GetParameter .MyID = some (.bytes peerID))
    (hside : p.GetParameter .AtomicSwapIsUfoSide = some (.bool side)) :
    ∃ q, AcceptSwapParameters p me = some q
      ∧ q.GetParameter .PeerID = some (.bytes peerID)
      ∧ q.GetParameter .MyID = some (.bytes me)
      ∧ q.GetParameter .AtomicSwapIsUfoSide = some (.bool (!side))
      ∧ q.GetParameter .IsSender = some (.bool (!side))
      ∧ q.GetParameter .IsInitiator = some (.bool true)
      ∧ (∀ id, id ∉ acceptedIds → q.GetParameter id = p.GetParameter id)
      ∧ (∀ sub id, sub ≠ kDefaultSubTxID → q sub id = p sub id)
      ∧ ∀ (createTime : Nat) (myID : ByteBuffer)
          (minHeight amount fee swapCoin swapAmount : Nat) (isUfoSide : Bool)
          (lifetime responseTime : Nat),
          (InitNewSwap createTime myID minHeight amount fee swapCoin swapAmount isUfoSide
            lifetime responseTime : TxParameters F G).GetParameter .IsSender
            = some (.bool isUfoSide)
          ∧ (InitNewSwap createTime myID minHeight amount fee swapCoin swapAmount isUfoSide
            lifetime responseTime : TxParameters F G).GetParameter .AtomicSwapIsUfoSide
            = some (.bool isUfoSide) := by
  have h1 : (p.GetParameter .MyID).bind Value.asBytes = some peerID := by
    rw [hid]
    rfl
  have h2 : (((p.SetParameter .PeerID (.bytes peerID)).SetParameter .MyID
      (.bytes me)).GetParameter .AtomicSwapIsUfoSide).bind Value.asBool = some side := by
    have : ((p.SetParameter .PeerID (.bytes peerID)).SetParameter .MyID
        (.bytes me)).GetParameter .AtomicSwapIsUfoSide = some (.bool side) := by
      rw [← hside]
      simp [TxParameters.GetParameter, TxParameters.SetParameter]
    rw [this]
    rfl
  have hq : AcceptSwapParameters p me
      = some (((((p.SetParameter .PeerID (.bytes peerID)).SetParameter .MyID
          (.bytes me)).SetParameter .IsSender (.bool (!side))).SetParameter
          .AtomicSwapIsUfoSide (.bool (!side))).SetParameter .IsInitiator (.bool true)) := by
    unfold AcceptSwapParameters
    simp only [h1, h2]
  refine ⟨_, hq, ?_⟩
  refine ⟨?_, ?_, ?_, ?_, ?_, ?_, ?_, fun _ _ _ _ _ _ _ _ _ _ => ⟨rfl, rfl⟩⟩
  · simp [TxParameters.GetParameter, TxParameters.SetParameter]
  · simp [TxParameters.GetParameter, TxParameters.SetParameter]
  · simp [TxParameters.GetParameter, TxParameters.SetParameter]
  · simp [TxParameters.GetParameter, TxParameters.SetParameter]
  · simp [TxParameters.GetParameter, TxParameters.SetParameter]
  · intro id hne
    simp only [acceptedIds, List.mem_cons, List.mem_singleton, List.not_mem_nil, or_false,
      not_or] at hne
    obtain ⟨h1, h2, h3, h4, h5⟩ := hne
    simp [TxParameters.GetParameter, TxParameters.SetParameter, h1, h2, h3, h4, h5]
  · intro sub id hne
    have hne2 : sub ≠ SubTxID.kDefaultSubTxID := hne
    simp [TxParameters.SetParameter, hne2]

/-- Witness of C33: the acceptor of `Example.offer`. -/
theorem AcceptSwapParameters_effect_witness :
    ∃ q : TxParameters Int Int, AcceptSwapParameters Example.offer [2] = some q
      ∧ q.GetParameter .PeerID = some (.bytes [1])
      ∧ q.GetParameter .AtomicSwapIsUfoSide = some (.bool false)
      ∧ q.GetParameter .IsSender = some (.bool false)
      ∧ q.GetParameter .Amount = some (.u64 1000) := by
  obtain ⟨q, hq, h1, -, h3, h4, -, h6, -⟩ :=
    AcceptSwapParameters_effect Example.offer [2] [1] true rfl rfl
  exact ⟨q, hq, h1, h3, h4, (h6 .Amount (by decide)).trans rfl⟩

/-- Without `MinHeight` the lock time is `MaxHeight`, and the sum with a lock period
between `1` and `2 ^ 64` wraps: the lock time has expired as soon as the tip
is at the lock period or above. -/
theorem IsUfoLockTimeExpired_without_MinHeight (env : Env F G)
    (tx : AtomicSwapTransaction F G) (t : Nat)
    (hmin : (tx.GetParameter .MinHeight).bind Value.asU64 = none)
    (hpos : 0 < env.kUfoLockTimeInBlocks) (hle : env.kUfoLockTimeInBlocks ≤ 2 ^ 64)
    (htip : GetTip env = some t) (ht : env.kUfoLockTimeInBlocks ≤ t) :
    IsUfoLockTimeExpired env tx = true := by
  unfold IsUfoLockTimeExpired
  simp only [hmin, htip, MaxHeight, decide_eq_true_eq]
  norm_num at hle ⊢
  omega

/-- For fixed parameters `IsUfoLockTimeExpired` is monotone in the height of the
tip. -/
theorem IsUfoLockTimeExpired_monotone (env : Env F G) (tx : AtomicSwapTransaction F G)
    (h k : Nat) (hle : h ≤ k) (hexp : IsUfoLockTimeExpired (env.atTip h) tx = true) :
    IsUfoLockTimeExpired (env.atTip k) tx = true := by
  unfold IsUfoLockTimeExpired GetTip Env.atTip at hexp ⊢
  simp only [decide_eq_true_eq] at hexp ⊢
  omega

/-- C34, at an input where the code does otherwise. The swap holds no `MinHeight`,
so the lock time is `MaxHeight`, the lock period is `720` and the tip is at
`1000`, which is not above `MaxHeight + 720`; `IsUfoLockTimeExpired` returns
`true`, because the sum wraps to `719`. With the tip at `719` it returns
`false`. -/
theorem IsUfoLockTimeExpired_wraps :
    (Example.swapIn .SendingUfoRefundTX true).GetParameter .MinHeight = none
    ∧ GetTip (Example.env.atTip 1000) = some 1000
    ∧ (Example.env.atTip 1000).kUfoLockTimeInBlocks = 720
    ∧ ¬ (1000 > MaxHeight + 720)
    ∧ IsUfoLockTimeExpired (Example.env.atTip 1000) (Example.swapIn .SendingUfoRefundTX true)
        = true
    ∧ IsUfoLockTimeExpired (Example.env.atTip 719) (Example.swapIn .SendingUfoRefundTX true)
        = false := by
  refine ⟨rfl, rfl, rfl, by decide, rfl, rfl⟩

/-- The subtraction of 64-bit integers is the subtraction of numbers when it
does not go below zero. -/
theorem sub64_of_le (a b : Nat) (hle : b ≤ a) (ha : a < 2 ^ 64) : sub64 a b = a - b := by
  unfold sub64
  norm_num at ha ⊢
  omega

/-- When the amount and the fee of the withdrawal are both stored for the sub-tx,
`BuildUfoWithdrawTx` takes them and leaves the object alone. -/
theorem amounts_kept (env : Env F G) (tx : AtomicSwapTransaction F G) (sub : SubTxID)
    (a f : Nat) (ha : tx.GetParameter .Amount sub = some (.u64 a))
    (hf : tx.GetParameter .Fee sub = some (.u64 f)) :
    BuildUfoWithdrawTx.amounts env tx sub = (.ok (a, f), tx) := by
  unfold BuildUfoWithdrawTx.amounts
  rw [ha, hf]
  rfl

/-- When the amount or the fee of the withdrawal is missing for the sub-tx,
`BuildUfoWithdrawTx` stores the fee `GetWithdrawFee()` and the amount
`GetAmount() - withdrawFee`, a difference of 64-bit integers. -/
theorem amounts_stored (env : Env F G) (tx : AtomicSwapTransaction F G) (sub : SubTxID)
    (amount : Nat)
    (hmissing : (tx.GetParameter .Amount sub).bind Value.asU64 = none
      ∨ (tx.GetParameter .Fee sub).bind Value.asU64 = none)
    (hamount : tx.GetAmount.1 = .ok amount) :
    (BuildUfoWithdrawTx.amounts env tx sub).2.GetParameter .Fee sub
        = some (.u64 (GetWithdrawFee env))
    ∧ (BuildUfoWithdrawTx.amounts env tx sub).2.GetParameter .Amount sub
        = some (.u64 (sub64 amount (GetWithdrawFee env))) := by
  unfold BuildUfoWithdrawTx.amounts
  rcases hmissing with h | h
  · rw [h]
    simp only [hamount]
    constructor <;> simp [GetParameter, SetParameter]
  · rw [h]
    rcases (tx.GetParameter .Amount sub).bind Value.asU64 with _ | x <;>
      simp only [hamount] <;> constructor <;> simp [GetParameter, SetParameter]

/-- C35, at an input where the code does otherwise. The swap amount of
`Example.smallSwap` is `50` and the withdraw fee is `100`; nothing is stored
for the Refund sub-tx. `BuildUfoWithdrawTx` stores the fee `100` and the amount
`2 ^ 64 - 50`, which is above the swap amount, and the two do not add up to
the swap amount. -/
theorem BuildUfoWithdrawTx_amount_underflow :
    Example.smallSwap.GetParameter .Amount = some (.u64 50)
    ∧ GetWithdrawFee Example.env = 100
    ∧ Example.smallSwap.GetParameter .Amount .UFO_REFUND_TX = none
    ∧ (BuildUfoWithdrawTx Example.env Example.smallSwap .UFO_REFUND_TX none).2.GetParameter
        .Fee .UFO_REFUND_TX = some (.u64 100)
    ∧ (BuildUfoWithdrawTx Example.env Example.smallSwap .UFO_REFUND_TX none).2.GetParameter
        .Amount .UFO_REFUND_TX = some (.u64 (2 ^ 64 - 50))
    ∧ ¬ (2 ^ 64 - 50 ≤ 50)
    ∧ 2 ^ 64 - 50 + 100 ≠ 50 := by
  refine ⟨rfl, rfl, rfl, rfl, rfl, by decide, by decide⟩

end AtomicSwapTransaction

end ufo.wallet
